import Mathlib

/-!
# qtglviddemo: video-to-texture delivery pipeline

A shallow embedding of the parts of qtglviddemo that deliver decoded video
frames to OpenGL textures:

* `GStreamerPlayer::pullVideoSample` (src/player/GStreamerPlayer.cpp),
* `VideoMaterial`, `VideoMaterialProvider` (src/videomaterial/VideoMaterial.cpp),
* `VideoMaterialProviderGeneric` (src/videomaterial/VideoMaterialProviderGeneric.cpp),
* `VideoObjectItem::Renderer` (src/scene/VideoObjectItem.cpp).

Objects become structures, member functions become functions that take the
object and return the updated object, and calls into OpenGL / Qt are recorded
as a list of `Call`s in the order in which the code issues them.  Values that
come from GStreamer (the sample an appsink hands out, the frame that
`gst_video_frame_map` produces, the result of `gst_caps_is_equal`) are
arguments of the functions that consume them.
-/

namespace qtglviddemo

/-! ## GStreamer values -/

/-- Handle of a `GstCaps` object.  Whether two caps are equal is decided by
GStreamer's `gst_caps_is_equal`, which the functions below take as an argument. -/
abbrev GstCaps := Nat

/-- Handle of a `GstBuffer` object. -/
abbrev GstBuffer := Nat

/-- A `GstSample` as handed out by the video appsink: it carries the caps that
were negotiated for it and the buffer with the frame. -/
structure GstSample where
  caps : GstCaps
  buffer : GstBuffer
  deriving DecidableEq, Repr

/-- The fields of `GstVideoInfo` that the program reads.
`width`, `height`, `stride` and `comp_pstride` are `gint`, `offset` is `gsize`
and `n_planes` is `guint`. -/
structure GstVideoInfo where
  /-- Value of `GST_VIDEO_INFO_WIDTH`. -/
  width : Int
  /-- Value of `GST_VIDEO_INFO_HEIGHT`. -/
  height : Int
  /-- Value of `GST_VIDEO_INFO_N_PLANES`. -/
  n_planes : Nat
  /-- Value of `GST_VIDEO_INFO_COMP_PSTRIDE` per component. -/
  comp_pstride : Nat → Int
  /-- Value of `GST_VIDEO_INFO_PLANE_STRIDE` per plane. -/
  stride : Nat → Int
  /-- Value of `GST_VIDEO_INFO_PLANE_OFFSET` per plane. -/
  offset : Nat → Nat

/-- A mapped `GstVideoFrame`: the result of `gst_video_frame_map`.  Its `info`
is the video info of the material, overridden by the `GstVideoMeta` of the
buffer when the buffer has one. -/
structure GstVideoFrame where
  info : GstVideoInfo

/-! ## Machine integers -/

/-- Conversion of an integer value to `guint` (32 bit unsigned). -/
def toGuint (x : Int) : Nat := (x % 2 ^ 32).toNat

/-- Conversion of an integer value to `gsize` (64 bit unsigned). -/
def toGsize (x : Int) : Nat := (x % 2 ^ 64).toNat

/-! ## GStreamerMediaSample and GStreamerPlayer -/

/-- The class GStreamerMediaSample: a sample pointer (null when nothing was
pulled) and the new-caps flag. -/
structure GStreamerMediaSample where
  m_sample : Option GstSample
  m_sampleHasNewCaps : Bool
  deriving DecidableEq, Repr

/-- Accessor `GStreamerMediaSample::getSample`. -/
def GStreamerMediaSample.getSample (self : GStreamerMediaSample) : Option GstSample :=
  self.m_sample

/-- Accessor `GStreamerMediaSample::sampleHasNewCaps`. -/
def GStreamerMediaSample.sampleHasNewCaps (self : GStreamerMediaSample) : Bool :=
  self.m_sampleHasNewCaps

/-- The enum `GStreamerPlayer::State`. -/
inductive State
  | Stopped
  | Buffering
  | Paused
  | Playing
  deriving DecidableEq, Repr

/-- The data members of GStreamerPlayer that belong to the program (the
GstPlayer objects are external). -/
structure GStreamerPlayer where
  m_url : String
  m_state : State
  m_subtitle : String
  m_lastSampleCaps : Option GstCaps
  deriving DecidableEq, Repr

/-- The constructor of GStreamerPlayer: state `Stopped`, no remembered caps. -/
def GStreamerPlayer.new : GStreamerPlayer where
  m_url := ""
  m_state := State.Stopped
  m_subtitle := ""
  m_lastSampleCaps := none

/-- The member function `GStreamerPlayer::pullVideoSample`.  The argument `sample` is what
`gst_app_sink_try_pull_sample` returns at this call (`none` for a null
pointer). -/
def GStreamerPlayer.pullVideoSample (gst_caps_is_equal : GstCaps → GstCaps → Bool)
    (self : GStreamerPlayer) (sample : Option GstSample) :
    GStreamerMediaSample × GStreamerPlayer :=
  match sample with
  | some s =>
    let caps := s.caps
    let hasNewCaps :=
      match self.m_lastSampleCaps with
      | none => true
      | some last => !gst_caps_is_equal last caps
    ({ m_sample := some s, m_sampleHasNewCaps := hasNewCaps },
     { self with m_lastSampleCaps := some caps })
  | none =>
    ({ m_sample := none, m_sampleHasNewCaps := false }, self)

/-- A sequence of `pullVideoSample` calls on one player; `pulls` lists what the
appsink hands out at each call.  Returns the media samples in call order. -/
def GStreamerPlayer.pullVideoSamples (gst_caps_is_equal : GstCaps → GstCaps → Bool) :
    GStreamerPlayer → List (Option GstSample) → List GStreamerMediaSample
  | _, [] => []
  | self, sample :: rest =>
    let r := self.pullVideoSample gst_caps_is_equal sample
    r.1 :: GStreamerPlayer.pullVideoSamples gst_caps_is_equal r.2 rest

/-- The non-null sample that precedes call number `i` in a sequence of pulls,
if there is one. -/
def previousSample (pulls : List (Option GstSample)) (i : Nat) : Option GstSample :=
  ((pulls.take i).reduceOption).getLast?

/-! ## The C type float -/

/-- A value of the C type `float` (IEEE 754 binary32): a number, given by the
rational it denotes, an infinity, or NaN.  The operations below return
rounded values only.  The two zeros are one value; a zero divisor is taken as
the positive zero, which is the only zero divisor that the modelled
computations meet. -/
inductive float
  | finite (value : ℚ)
  | infinity (negative : Bool)
  | nan
  deriving DecidableEq

instance : Zero float := ⟨float.finite 0⟩

instance : One float := ⟨float.finite 1⟩

/-- The exponent of the unit in the last place of the float nearest to the
non-negative rational `a`: the least `e` from -149 on with `a < 2^(e+24)`,
searched upwards from `e` in at most `fuel` steps. -/
def float.ulpExponent (a : ℚ) : Nat → Int → Int
  | 0, e => e
  | fuel + 1, e => if a < 2 ^ (e + 24) then e else float.ulpExponent a fuel (e + 1)

/-- Rounding of a rational to the nearest integer, ties to the even one. -/
def roundHalfEven (k : ℚ) : Int :=
  if k - ⌊k⌋ < 1 / 2 then ⌊k⌋
  else if 1 / 2 < k - ⌊k⌋ then ⌊k⌋ + 1
  else if ⌊k⌋ % 2 = 0 then ⌊k⌋
  else ⌊k⌋ + 1

/-- Rounding of a non-negative rational to a multiple of the unit in the last
place: 24 significant bits, units in the last place from 2^(-149) to 2^104. -/
def float.roundMagnitude (a : ℚ) : ℚ :=
  (roundHalfEven (a / 2 ^ float.ulpExponent a 253 (-149)) : ℚ) *
    2 ^ float.ulpExponent a 253 (-149)

/-- Rounding of a rational to `float`: to the nearest float, ties to the even
significand, and to an infinity from 2^128 on. -/
def float.ofRat (q : ℚ) : float :=
  if (2 : ℚ) ^ (128 : Int) ≤ float.roundMagnitude |q| then float.infinity (decide (q < 0))
  else float.finite (if q < 0 then -float.roundMagnitude |q| else float.roundMagnitude |q|)

/-- Conversion of an `int` to `float`. -/
def float.ofInt (n : Int) : float :=
  float.ofRat n

/-- Conversion of an unsigned integer to `float`. -/
def float.ofNat (n : Nat) : float :=
  float.ofRat n

/-- The operator `*` of `float`. -/
def float.mul : float → float → float
  | .finite a, .finite b => float.ofRat (a * b)
  | .finite a, .infinity negative =>
    if a = 0 then float.nan else float.infinity (xor (decide (a < 0)) negative)
  | .infinity negative, .finite b =>
    if b = 0 then float.nan else float.infinity (xor negative (decide (b < 0)))
  | .infinity a, .infinity b => float.infinity (xor a b)
  | _, _ => float.nan

/-- The operator `/` of `float`. -/
def float.div : float → float → float
  | .finite a, .finite b =>
    if b = 0 then (if a = 0 then float.nan else float.infinity (decide (a < 0)))
    else float.ofRat (a / b)
  | .finite _, .infinity _ => float.finite 0
  | .infinity negative, .finite b => float.infinity (xor negative (decide (b < 0)))
  | _, _ => float.nan

/-- The operator `+` of `float`. -/
def float.add : float → float → float
  | .finite a, .finite b => float.ofRat (a + b)
  | .finite _, .infinity negative => float.infinity negative
  | .infinity negative, .finite _ => float.infinity negative
  | .infinity a, .infinity b => if a = b then float.infinity a else float.nan
  | _, _ => float.nan

/-- The operator `-` of `float`. -/
def float.sub : float → float → float
  | .finite a, .finite b => float.ofRat (a - b)
  | .finite _, .infinity negative => float.infinity (!negative)
  | .infinity negative, .finite _ => float.infinity negative
  | .infinity a, .infinity b => if a = b then float.nan else float.infinity a
  | _, _ => float.nan

/-- The operator `<` of `float`; a comparison with NaN is false. -/
def float.lt : float → float → Bool
  | .finite a, .finite b => decide (a < b)
  | .finite _, .infinity negative => !negative
  | .infinity negative, .finite _ => negative
  | .infinity a, .infinity b => a && !b
  | _, _ => false

/-- The function `std::min` on `float`: the second argument when it is less than
the first, else the first. -/
def float.min (a b : float) : float :=
  if float.lt b a then b else a

/-- The operator `!=` of `float`; NaN differs from every value, itself
included. -/
def float.ne : float → float → Bool
  | .nan, _ => true
  | _, .nan => true
  | a, b => decide (a ≠ b)

/-- The rationals that are values of `float`: a significand below 2^24 times a
unit in the last place from 2^(-149) to 2^104. -/
def float.representable (q : ℚ) : Prop :=
  ∃ (m : Nat) (e : Int), m < 2 ^ 24 ∧ -149 ≤ e ∧ e ≤ 104 ∧ |q| = (m : ℚ) * 2 ^ e


/-! ## Qt values -/

/-- The class QRect as the program uses it: built from x, y, width and height and read
through `x()`, `y()`, `width()` and `height()`. -/
structure QRect where
  x : Int
  y : Int
  width : Int
  height : Int
  deriving DecidableEq, Repr

/-- The class QMatrix4x4: four rows and four columns of `float` entries.  The identity
matrix, which the default constructor builds, is `1`. -/
abbrev QMatrix4x4 := Matrix (Fin 4) (Fin 4) float

/-- The operator `!=` of QMatrix4x4: true when two entries at the same place differ as
floats, so also when one of them is NaN. -/
def QMatrix4x4.ne (a b : QMatrix4x4) : Bool :=
  decide (∃ i j, float.ne (a i j) (b i j) = true)

/-- The class QMatrix2x2, kept symbolically.  The program builds only two kinds of
2x2 matrices: the identity (default constructor) and the upper left block of
a rotation about the z axis by a whole number of degrees. -/
inductive QMatrix2x2
  | identity
  | rotationZ (degrees : Int)
  deriving DecidableEq, Repr

/-- OpenGL capabilities switched by the renderer. -/
inductive GLCap
  | GL_DEPTH_TEST
  | GL_CULL_FACE
  | GL_BLEND
  deriving DecidableEq, Repr

/-- Vertex attributes of the video material shader. -/
inductive VertexAttrib
  | vertexPosition
  | vertexNormal
  | vertexTexcoords
  deriving DecidableEq, Repr

/-- Calls into OpenGL and Qt that the modelled code issues.  The functions
below return them in the order of the source. -/
inductive Call
  | glClearColor (r g b a : Int)
  | glClear (depthBufferBit colorBufferBit : Bool)
  | update
  | glActiveTexture0
  | glBindTexture (texture : Nat)
  | glTexImage2D (width height : Nat)
  | glTexSubImage2D (width height : Nat)
  | glEnable (cap : GLCap)
  | glDisable (cap : GLCap)
  | shaderProgramBind
  | shaderProgramRelease
  | vaoBind
  | vaoRelease
  | setCropRectangleUniform (x y w h : float)
  | setTextureRotationMatrixUniform (m : QMatrix2x2)
  | setModelviewMatrixUniform (normalMatrixOf : QMatrix4x4)
  | setModelviewprojMatrixUniform (m : QMatrix4x4)
  | meshBindBuffers
  | meshReleaseBuffers
  | enableAttributeArray (attrib : VertexAttrib)
  | setAttributeBuffer (attrib : VertexAttrib) (offset tupleSize : Nat)
  | disableAttributeArray (attrib : VertexAttrib)
  | glDrawElements (count : Nat)
  | resetOpenGLState

/-- Recogniser of `glTexImage2D` calls. -/
def Call.isTexImage2D : Call → Bool
  | .glTexImage2D _ _ => true
  | _ => false

/-- Recogniser of `glTexSubImage2D` calls. -/
def Call.isTexSubImage2D : Call → Bool
  | .glTexSubImage2D _ _ => true
  | _ => false

/-- Recogniser of `glDrawElements` calls. -/
def Call.isDrawElements : Call → Bool
  | .glDrawElements _ => true
  | _ => false

/-! ## VideoMaterial -/

/-- The data members of VideoMaterial.  `m_videoInfo` is `none` until
`setVideoInfo` has been called (the C++ member is uninitialised until then). -/
structure VideoMaterial where
  m_textureId : Nat
  m_curBuffer : Option GstBuffer
  m_videoInfo : Option GstVideoInfo
  m_frameWidth : Nat
  m_frameHeight : Nat
  m_totalWidth : Nat
  m_totalHeight : Nat
  m_cropRectangle : QRect
  m_textureRotation : Int
  m_textureRotationMatrix : QMatrix2x2

/-- The virtual interface VideoMaterialPrivIFace between a material and its provider, for
the two functions that provider subclasses override.  `P` is the state of
the provider. -/
structure VideoMaterialPrivIFace (P : Type) where
  setVideoInfoChangedFlag : P → Bool → P
  uploadGstFrame : P → VideoMaterial → GstVideoFrame → P × List Call

/-- The constructor `VideoMaterial::VideoMaterial(p_privIFace, p_glcontext)`.
`textureId` is the name `glGenTextures` hands out.  The frame and total sizes
are not initialised by the constructor; the model starts them at 0. -/
def VideoMaterial.new (textureId : Nat) : VideoMaterial where
  m_textureId := textureId
  m_curBuffer := none
  m_videoInfo := none
  m_frameWidth := 0
  m_frameHeight := 0
  m_totalWidth := 0
  m_totalHeight := 0
  m_cropRectangle := { x := 0, y := 0, width := 1, height := 1 }
  m_textureRotation := 0
  m_textureRotationMatrix := QMatrix2x2.identity

/-- The member function `VideoMaterialProvider::createVideoMaterial`. -/
def VideoMaterialProvider.createVideoMaterial (textureId : Nat) : VideoMaterial :=
  VideoMaterial.new textureId

/-- The member function `VideoMaterial::setVideoInfo`. -/
def VideoMaterial.setVideoInfo {P : Type} (iface : VideoMaterialPrivIFace P)
    (provider : P) (self : VideoMaterial) (p_videoInfo : GstVideoInfo) : P × VideoMaterial :=
  (iface.setVideoInfoChangedFlag provider true, { self with m_videoInfo := some p_videoInfo })

/-- The member function `VideoMaterial::setVideoGstbuffer`.  `gst_video_frame_map` maps the
buffer with the video info of the material.  Integer division by zero is
undefined in C++; the model uses the total division of Lean there. -/
def VideoMaterial.setVideoGstbuffer {P : Type} (iface : VideoMaterialPrivIFace P)
    (gst_video_frame_map : Option GstVideoInfo → GstBuffer → GstVideoFrame)
    (provider : P) (self : VideoMaterial) (p_buffer : GstBuffer) :
    P × VideoMaterial × List Call :=
  let m1 := { self with m_curBuffer := some p_buffer }
  let vframe := gst_video_frame_map m1.m_videoInfo p_buffer
  let info := vframe.info
  let m2 := { m1 with
    m_frameWidth := toGuint info.width
    m_frameHeight := toGuint info.height
    m_totalWidth := toGuint (Int.tdiv (info.stride 0) (info.comp_pstride 0)) }
  let m3 := { m2 with
    m_totalHeight :=
      if info.n_planes > 1 then
        toGuint ((toGsize ((info.offset 1 : Int) - (info.offset 0 : Int)) /
          toGsize (info.stride 0) : Nat) : Int)
      else
        toGuint info.height }
  let up := iface.uploadGstFrame provider m3 vframe
  (up.1, m3,
    [Call.glActiveTexture0, Call.glBindTexture m3.m_textureId] ++ up.2 ++ [Call.glBindTexture 0])

/-- The member function `VideoMaterial::hasVideoGstbuffer`. -/
def VideoMaterial.hasVideoGstbuffer (self : VideoMaterial) : Bool :=
  self.m_curBuffer.isSome

/-- The member function `VideoMaterial::setCropRectangle`. -/
def VideoMaterial.setCropRectangle (self : VideoMaterial) (p_cropRectangle : QRect) :
    VideoMaterial :=
  { self with m_cropRectangle := p_cropRectangle }

/-- The member function `VideoMaterial::setTextureRotation`. -/
def VideoMaterial.setTextureRotation (self : VideoMaterial) (p_rotation : Int) :
    VideoMaterial :=
  { self with
    m_textureRotation := p_rotation
    m_textureRotationMatrix := QMatrix2x2.rotationZ p_rotation }

/-- The member function `VideoMaterialProvider::bindMaterial`. -/
def VideoMaterialProvider.bindMaterial (p_videoMaterial : VideoMaterial) : List Call :=
  [Call.glActiveTexture0, Call.glBindTexture p_videoMaterial.m_textureId]

/-- The member function `VideoMaterialProvider::unbindTexture`. -/
def VideoMaterialProvider.unbindTexture : List Call :=
  [Call.glBindTexture 0]

/-- The member function `VideoMaterialProvider::setShaderUniformValues`.  Every operation
is the `float` operation of the source: the sizes and the crop values are
converted to `float`, and each quotient, difference and product is rounded. -/
def VideoMaterialProvider.setShaderUniformValues (p_videoMaterial : VideoMaterial) :
    List Call :=
  let cropRectangle := p_videoMaterial.m_cropRectangle
  let scaleW : float :=
    float.div (float.ofNat p_videoMaterial.m_frameWidth) (float.ofNat p_videoMaterial.m_totalWidth)
  let scaleH : float :=
    float.div (float.ofNat p_videoMaterial.m_frameHeight)
      (float.ofNat p_videoMaterial.m_totalHeight)
  let cw : float :=
    float.min (float.div (float.ofInt cropRectangle.width) (float.finite 100))
      (float.sub (float.finite 1) (float.div (float.ofInt cropRectangle.x) (float.finite 100)))
  let ch : float :=
    float.min (float.div (float.ofInt cropRectangle.height) (float.finite 100))
      (float.sub (float.finite 1) (float.div (float.ofInt cropRectangle.y) (float.finite 100)))
  let x : float := float.mul (float.div (float.ofInt cropRectangle.x) (float.finite 100)) scaleW
  let y : float := float.mul (float.div (float.ofInt cropRectangle.y) (float.finite 100)) scaleW
  let w : float := float.mul cw scaleW
  let h : float := float.mul ch scaleH
  [Call.setCropRectangleUniform x y w h,
   Call.setTextureRotationMatrixUniform p_videoMaterial.m_textureRotationMatrix]

/-! ## VideoMaterialProviderGeneric -/

/-- The data member of VideoMaterialProviderGeneric. -/
structure VideoMaterialProviderGeneric where
  m_videoInfoChanged : Bool
  deriving DecidableEq, Repr

/-- The constructor of VideoMaterialProviderGeneric. -/
def VideoMaterialProviderGeneric.new : VideoMaterialProviderGeneric where
  m_videoInfoChanged := true

/-- The member function `VideoMaterialProviderGeneric::setVideoInfoChangedFlag`. -/
def VideoMaterialProviderGeneric.setVideoInfoChangedFlag
    (self : VideoMaterialProviderGeneric) (p_flag : Bool) : VideoMaterialProviderGeneric :=
  { self with m_videoInfoChanged := p_flag }

/-- The member function `VideoMaterialProviderGeneric::uploadGstFrame`. -/
def VideoMaterialProviderGeneric.uploadGstFrame (self : VideoMaterialProviderGeneric)
    (p_videoMaterial : VideoMaterial) (_p_vframe : GstVideoFrame) :
    VideoMaterialProviderGeneric × List Call :=
  if self.m_videoInfoChanged then
    ({ self with m_videoInfoChanged := false },
      [Call.glTexImage2D p_videoMaterial.m_totalWidth p_videoMaterial.m_totalHeight])
  else
    (self, [Call.glTexSubImage2D p_videoMaterial.m_totalWidth p_videoMaterial.m_totalHeight])

/-- The generic provider seen through the interface of the materials. -/
def VideoMaterialProviderGeneric.iface : VideoMaterialPrivIFace VideoMaterialProviderGeneric where
  setVideoInfoChangedFlag := VideoMaterialProviderGeneric.setVideoInfoChangedFlag
  uploadGstFrame := VideoMaterialProviderGeneric.uploadGstFrame

/-! ## VideoObjectItem and its Renderer -/

/-- The part of the class Mesh that the renderer reads: whether the two OpenGL
buffers have been created, and the number of indices. -/
structure Mesh where
  m_type : String
  vertexBufferCreated : Bool
  indexBufferCreated : Bool
  m_numVertices : Nat
  m_numIndices : Nat
  deriving DecidableEq, Repr

/-- The member function `Mesh::hasContents`. -/
def Mesh.hasContents (self : Mesh) : Bool :=
  self.vertexBufferCreated && self.indexBufferCreated

/-- The state of a VideoObjectItem that its renderer reads.  The camera and the
transform are represented by the matrices their getters return. -/
structure VideoObjectItem where
  m_cropRectangle : QRect
  m_meshType : String
  m_textureRotation : Int
  m_player : GStreamerPlayer
  /-- Result of `m_transform.getMatrix()`. -/
  transformMatrix : QMatrix4x4
  /-- Result of `m_camera.getViewMatrix()`. -/
  viewMatrix : QMatrix4x4
  /-- Result of `m_camera.getProjectionMatrix()`. -/
  projectionMatrix : QMatrix4x4

/-- The data members of `VideoObjectItem::Renderer`. -/
structure Renderer where
  m_mesh : Option Mesh
  m_videoMaterial : VideoMaterial
  m_meshType : String
  m_modelviewMatrix : QMatrix4x4
  m_modelviewprojMatrix : QMatrix4x4
  m_mustRender : Bool
  m_firstRender : Bool

/-- The GStreamer functions the renderer calls. -/
structure GStreamer where
  gst_caps_is_equal : GstCaps → GstCaps → Bool
  gst_video_info_from_caps : GstCaps → GstVideoInfo
  gst_video_frame_map : Option GstVideoInfo → GstBuffer → GstVideoFrame

/-- The constructor of `VideoObjectItem::Renderer`.  `textureId` is the texture name
of the material that `createVideoMaterial` makes. -/
def Renderer.new (textureId : Nat) : Renderer where
  m_mesh := none
  m_videoMaterial := VideoMaterialProvider.createVideoMaterial textureId
  m_meshType := ""
  m_modelviewMatrix := 1
  m_modelviewprojMatrix := 1
  m_mustRender := true
  m_firstRender := true

/-- The member function `Renderer::createFramebufferObject`. -/
def Renderer.createFramebufferObject (self : Renderer) : Renderer :=
  { self with m_mustRender := true }

/-- The member function `Renderer::clearFBO`. -/
def Renderer.clearFBO : List Call :=
  [Call.glClearColor 0 0 0 0, Call.glClear true true]

/-- What a `render()` call leaves behind: the renderer, the player of the item,
the shared provider, and the calls issued. -/
structure RenderResult (P : Type) where
  renderer : Renderer
  player : GStreamerPlayer
  provider : P
  calls : List Call

/-- The drawing part of `Renderer::render`, from the OpenGL state set-up to the
release of the shader program. -/
def Renderer.drawCalls (vaoCreated : Bool) (self : Renderer) (mesh : Mesh) : List Call :=
  [Call.glEnable GLCap.GL_DEPTH_TEST, Call.glEnable GLCap.GL_CULL_FACE,
   Call.glDisable GLCap.GL_BLEND, Call.shaderProgramBind] ++
  (if vaoCreated then [Call.vaoBind] else []) ++
  VideoMaterialProvider.bindMaterial self.m_videoMaterial ++
  VideoMaterialProvider.setShaderUniformValues self.m_videoMaterial ++
  [Call.setModelviewMatrixUniform self.m_modelviewMatrix,
   Call.setModelviewprojMatrixUniform self.m_modelviewprojMatrix,
   Call.meshBindBuffers,
   Call.enableAttributeArray VertexAttrib.vertexPosition,
   Call.setAttributeBuffer VertexAttrib.vertexPosition 0 3,
   Call.enableAttributeArray VertexAttrib.vertexNormal,
   Call.setAttributeBuffer VertexAttrib.vertexNormal 12 3,
   Call.enableAttributeArray VertexAttrib.vertexTexcoords,
   Call.setAttributeBuffer VertexAttrib.vertexTexcoords 24 2,
   Call.glDrawElements mesh.m_numIndices,
   Call.disableAttributeArray VertexAttrib.vertexPosition,
   Call.disableAttributeArray VertexAttrib.vertexNormal,
   Call.disableAttributeArray VertexAttrib.vertexTexcoords,
   Call.meshReleaseBuffers] ++
  VideoMaterialProvider.unbindTexture ++
  (if vaoCreated then [Call.vaoRelease] else []) ++
  [Call.shaderProgramRelease]

/-- The member function `Renderer::render`.  `pending` is what the video appsink hands
out when the player pulls, `vaoCreated` the result of `getVAO().isCreated()`. -/
def Renderer.render {P : Type} (gst : GStreamer) (iface : VideoMaterialPrivIFace P)
    (vaoCreated : Bool) (self : Renderer) (player : GStreamerPlayer) (provider : P)
    (pending : Option GstSample) : RenderResult P :=
  let firstCalls := if self.m_firstRender then Renderer.clearFBO else []
  let notYetCleared := !self.m_firstRender
  let r0 := { self with m_firstRender := false }
  match r0.m_mesh with
  | none => { renderer := r0, player := player, provider := provider, calls := firstCalls }
  | some mesh =>
    if !mesh.hasContents then
      { renderer := r0, player := player, provider := provider,
        calls := firstCalls ++ [Call.update] }
    else
      let pulled := player.pullVideoSample gst.gst_caps_is_equal pending
      let videoSample := pulled.1
      let player1 := pulled.2
      let fed : RenderResult P :=
        match videoSample.getSample with
        | some sample =>
          let withInfo : P × VideoMaterial :=
            if videoSample.sampleHasNewCaps then
              r0.m_videoMaterial.setVideoInfo iface provider
                (gst.gst_video_info_from_caps sample.caps)
            else
              (provider, r0.m_videoMaterial)
          let up := withInfo.2.setVideoGstbuffer iface gst.gst_video_frame_map withInfo.1
            sample.buffer
          { renderer := { r0 with m_videoMaterial := up.2.1, m_mustRender := true },
            player := player1, provider := up.1, calls := firstCalls ++ up.2.2 }
        | none =>
          { renderer := r0, player := player1, provider := provider, calls := firstCalls }
      if !fed.renderer.m_mustRender || !fed.renderer.m_videoMaterial.hasVideoGstbuffer then
        fed
      else
        { fed with
          renderer := { fed.renderer with m_mustRender := false }
          calls := fed.calls ++ (if notYetCleared then Renderer.clearFBO else []) ++
            Renderer.drawCalls vaoCreated fed.renderer mesh ++ [Call.resetOpenGLState] }

/-- The member function `Renderer::synchronize`.  `mul` stands for the operator `*` of
QMatrix4x4 and `getMesh` for `GLResources::instance().getMesh`. -/
def Renderer.synchronize (mul : QMatrix4x4 → QMatrix4x4 → QMatrix4x4)
    (getMesh : String → Mesh) (self : Renderer) (item : VideoObjectItem) : Renderer :=
  let modelMatrix := item.transformMatrix
  let r1 := { self with m_modelviewMatrix := mul item.viewMatrix modelMatrix }
  let newModelviewprojMatrix := mul item.projectionMatrix r1.m_modelviewMatrix
  let r2 :=
    if QMatrix4x4.ne r1.m_modelviewprojMatrix newModelviewprojMatrix then
      { r1 with m_modelviewprojMatrix := newModelviewprojMatrix, m_mustRender := true }
    else r1
  let r3 :=
    if r2.m_meshType ≠ item.m_meshType then
      { r2 with
        m_meshType := item.m_meshType
        m_mesh := some (getMesh item.m_meshType)
        m_mustRender := true }
    else r2
  let r4 :=
    if r3.m_videoMaterial.m_cropRectangle ≠ item.m_cropRectangle then
      { r3 with
        m_videoMaterial := r3.m_videoMaterial.setCropRectangle item.m_cropRectangle
        m_mustRender := true }
    else r3
  if r4.m_videoMaterial.m_textureRotation ≠ item.m_textureRotation then
    { r4 with
      m_videoMaterial := r4.m_videoMaterial.setTextureRotation item.m_textureRotation
      m_mustRender := true }
  else r4

/-! ## Call sequences -/

/-- The two operations of a material that the upload path depends on. -/
inductive MaterialOp
  | setVideoInfo (p_videoInfo : GstVideoInfo)
  | setVideoGstbuffer (p_buffer : GstBuffer)

/-- Recogniser of `setVideoInfo` operations. -/
def MaterialOp.isSetVideoInfo : MaterialOp → Bool
  | .setVideoInfo _ => true
  | .setVideoGstbuffer _ => false

/-- Recogniser of uploads (`setVideoGstbuffer` operations). -/
def MaterialOp.isUpload : MaterialOp → Bool
  | .setVideoInfo _ => false
  | .setVideoGstbuffer _ => true

/-- One operation on a material whose provider is in state `provider`. -/
def VideoMaterial.applyOp {P : Type} (iface : VideoMaterialPrivIFace P)
    (gst_video_frame_map : Option GstVideoInfo → GstBuffer → GstVideoFrame)
    (provider : P) (self : VideoMaterial) : MaterialOp → P × VideoMaterial × List Call
  | .setVideoInfo p_videoInfo =>
    let r := self.setVideoInfo iface provider p_videoInfo
    (r.1, r.2, [])
  | .setVideoGstbuffer p_buffer =>
    self.setVideoGstbuffer iface gst_video_frame_map provider p_buffer

/-- A sequence of operations on the single material of a provider.  Returns,
per operation, the calls it issued. -/
def VideoMaterial.runOps {P : Type} (iface : VideoMaterialPrivIFace P)
    (gst_video_frame_map : Option GstVideoInfo → GstBuffer → GstVideoFrame) :
    P → VideoMaterial → List MaterialOp → List (List Call)
  | _, _, [] => []
  | provider, m, op :: rest =>
    let r := m.applyOp iface gst_video_frame_map provider op
    r.2.2 :: VideoMaterial.runOps iface gst_video_frame_map r.1 r.2.1 rest

/-- A sequence of operations on several materials that share one provider.
Each operation names the material it is invoked on.  Returns, per operation,
the calls it issued. -/
def VideoMaterial.runSharedOps {P : Type} (iface : VideoMaterialPrivIFace P)
    (gst_video_frame_map : Option GstVideoInfo → GstBuffer → GstVideoFrame) :
    P → (Nat → VideoMaterial) → List (Nat × MaterialOp) → List (List Call)
  | _, _, [] => []
  | provider, materials, (k, op) :: rest =>
    let r := (materials k).applyOp iface gst_video_frame_map provider op
    r.2.2 :: VideoMaterial.runSharedOps iface gst_video_frame_map r.1
      (Function.update materials k r.2.1) rest

/-- No upload has happened since the most recent `setVideoInfo` of the
operations `before`, or at all when there is no `setVideoInfo` among them. -/
def noUploadSinceVideoInfo (before : List MaterialOp) : Bool :=
  (before.reverse.takeWhile (fun op => !op.isSetVideoInfo)).all (fun op => !op.isUpload)

/-- An RGBA-type frame (one plane, 4 bytes per pixel) of visible size `W` x `H`
in a memory block of `W'` x `H'` pixels: the row stride is `4 * W'` bytes, and
the `H' - H` padding rows follow the visible rows. -/
def rgbaFrame (W H W' _H' : Nat) : GstVideoFrame where
  info :=
    { width := W
      height := H
      n_planes := 1
      comp_pstride := fun _ => 4
      stride := fun _ => 4 * (W' : Int)
      offset := fun _ => 0 }

/-- Operations on a renderer, issued by the Qt Quick scene graph. -/
inductive RendererOp
  | synchronize (item : VideoObjectItem)
  | render (pending : Option GstSample)
  | createFramebufferObject

/-- A renderer together with what it shares with others: the player of its
item and the video material provider. -/
structure Scene (P : Type) where
  renderer : Renderer
  player : GStreamerPlayer
  provider : P

/-- One operation on a renderer. -/
def Scene.step {P : Type} (gst : GStreamer) (iface : VideoMaterialPrivIFace P)
    (vaoCreated : Bool) (mul : QMatrix4x4 → QMatrix4x4 → QMatrix4x4)
    (getMesh : String → Mesh) (s : Scene P) :
    RendererOp → Scene P × List Call
  | .synchronize item =>
    ({ s with renderer := s.renderer.synchronize mul getMesh item }, [])
  | .render pending =>
    let r := s.renderer.render gst iface vaoCreated s.player s.provider pending
    ({ renderer := r.renderer, player := r.player, provider := r.provider }, r.calls)
  | .createFramebufferObject =>
    ({ s with renderer := s.renderer.createFramebufferObject }, [])

/-- A sequence of operations on a renderer. -/
def Scene.run {P : Type} (gst : GStreamer) (iface : VideoMaterialPrivIFace P)
    (vaoCreated : Bool) (mul : QMatrix4x4 → QMatrix4x4 → QMatrix4x4)
    (getMesh : String → Mesh) : Scene P → List RendererOp → Scene P
  | s, [] => s
  | s, op :: rest =>
    Scene.run gst iface vaoCreated mul getMesh (s.step gst iface vaoCreated mul getMesh op).1 rest

/-- The upload precondition of `setVideoGstbuffer` on the state of a material:
a material that holds a buffer has been given a video info. -/
def VideoMaterial.uploadedWithVideoInfo (self : VideoMaterial) : Prop :=
  self.m_curBuffer.isSome = true → self.m_videoInfo.isSome = true

instance (self : VideoMaterial) : Decidable self.uploadedWithVideoInfo := by
  unfold VideoMaterial.uploadedWithVideoInfo
  infer_instance

/-! ## Scenarios -/

/-- The operator `*` of QMatrix4x4 as the scenarios pass it for `mul`: the
product of two general matrices, whose entry in row i and column j is the
`float` sum, from left to right, of the four `float` products of the entries
of row i of the first matrix and of column j of the second. -/
def QMatrix4x4.mul (m1 m2 : QMatrix4x4) : QMatrix4x4 :=
  Matrix.of fun i j =>
    float.add
      (float.add
        (float.add (float.mul (m1 i 0) (m2 0 j)) (float.mul (m1 i 1) (m2 1 j)))
        (float.mul (m1 i 2) (m2 2 j)))
      (float.mul (m1 i 3) (m2 3 j))

/-- A transform matrix with NaN entries in its rotation part, the kind of matrix
that a rotation with NaN components leads to.  `Arcball::drag` computes the
angle of its rotation with `acos` of a dot product that it does not clamp to
the range from -1 to 1. -/
def nanRotationMatrix : QMatrix4x4 :=
  Matrix.of fun i j => if i.val < 3 ∧ j.val < 3 then float.nan else (1 : QMatrix4x4) i j

/-- A mesh of the given type whose two buffers are filled (the cube has 24
vertices and 36 indices). -/
def filledMesh (type : String) : Mesh where
  m_type := type
  vertexBufferCreated := true
  indexBufferCreated := true
  m_numVertices := 24
  m_numIndices := 36

/-- An item as its constructor leaves it, with the mesh type set to "cube" and
identity camera and transform matrices. -/
def cubeItem (player : GStreamerPlayer) : VideoObjectItem where
  m_cropRectangle := { x := 0, y := 0, width := 100, height := 100 }
  m_meshType := "cube"
  m_textureRotation := 0
  m_player := player
  transformMatrix := 1
  viewMatrix := 1
  projectionMatrix := 1

/-- The same item with NaN entries in the matrix of its transform. -/
def nanItem (player : GStreamerPlayer) : VideoObjectItem :=
  { cubeItem player with transformMatrix := nanRotationMatrix }

/-- A GStreamer whose caps are equal when their handles are, and whose frames
are 4 x 4 RGBA frames without padding. -/
def rgbaGStreamer : GStreamer where
  gst_caps_is_equal := fun a b => a == b
  gst_video_info_from_caps := fun _ => (rgbaFrame 4 4 4 4).info
  gst_video_frame_map := fun _ _ => rgbaFrame 4 4 4 4

/-- The first renderer of an item with a freshly constructed player, after one
synchronize and one render call that pulls a frame with caps 7. -/
def firstScene : Scene VideoMaterialProviderGeneric :=
  Scene.run rgbaGStreamer VideoMaterialProviderGeneric.iface false QMatrix4x4.mul filledMesh
    { renderer := Renderer.new 1, player := GStreamerPlayer.new,
      provider := VideoMaterialProviderGeneric.new }
    [RendererOp.synchronize (cubeItem GStreamerPlayer.new), RendererOp.render (some ⟨7, 20⟩)]

/-- The renderer that `createRenderer` makes for the same item afterwards
(the player and the provider are those the first renderer left behind), after
one synchronize and one render call that pulls the next frame, again with
caps 7. -/
def secondScene : Scene VideoMaterialProviderGeneric :=
  Scene.run rgbaGStreamer VideoMaterialProviderGeneric.iface false QMatrix4x4.mul filledMesh
    { renderer := Renderer.new 2, player := firstScene.player,
      provider := firstScene.provider }
    [RendererOp.synchronize (cubeItem firstScene.player), RendererOp.render (some ⟨7, 21⟩)]

/-- The video info of a mapped frame holds values of its C types that describe
a frame: width, height and row stride are non-negative `gint` values, the
pixel stride of the first component is positive, and when there is a second
plane, the row stride is positive, the second plane does not start before the
first, its offset is a `gsize` value and the number of rows between the two
plane starts is a `guint` value. -/
def GstVideoInfo.inRange (info : GstVideoInfo) : Prop :=
  0 ≤ info.width ∧ info.width < 2 ^ 31 ∧
  0 ≤ info.height ∧ info.height < 2 ^ 31 ∧
  0 < info.comp_pstride 0 ∧
  0 ≤ info.stride 0 ∧ info.stride 0 < 2 ^ 31 ∧
  (1 < info.n_planes →
    0 < info.stride 0 ∧ info.offset 0 ≤ info.offset 1 ∧ info.offset 1 < 2 ^ 64 ∧
    (info.offset 1 - info.offset 0) / (info.stride 0).toNat < 2 ^ 32)

instance (info : GstVideoInfo) : Decidable info.inRange := by
  unfold GstVideoInfo.inRange
  infer_instance

/-- A frame with two planes (as NV12 has): 509 x 240 visible pixels of one
byte each in rows of 512 bytes, the second plane 256 rows after the first. -/
def paddedTwoPlaneFrame : GstVideoFrame where
  info :=
    { width := 509
      height := 240
      n_planes := 2
      comp_pstride := fun _ => 1
      stride := fun _ => 512
      offset := fun k => k * (512 * 256) }

/-- A material of the generic provider after the upload of an RGBA frame of
4 x 4 visible pixels in rows of 8 pixels, with the crop rectangle set to the
lower half of the frame. -/
def paddedRgbaMaterial : VideoMaterial :=
  (((VideoMaterial.new 1).setVideoGstbuffer VideoMaterialProviderGeneric.iface
    (fun _ _ => rgbaFrame 4 4 8 4) VideoMaterialProviderGeneric.new 10).2.1).setCropRectangle
    { x := 0, y := 50, width := 100, height := 50 }

/-- A material with 509 visible columns of 512 and 240 visible rows of 256,
with the crop rectangle that selects the whole frame. -/
def fullCropMaterial : VideoMaterial :=
  { VideoMaterial.new 1 with
    m_frameWidth := 509
    m_frameHeight := 240
    m_totalWidth := 512
    m_totalHeight := 256
    m_cropRectangle := { x := 0, y := 0, width := 100, height := 100 } }

/-- The material of the generic provider after the upload of the same frame of
4 x 4 visible pixels in rows of 8 pixels, with the crop rectangle
(10, 20, 30, 40). -/
def croppedRgbaMaterial : VideoMaterial :=
  (((VideoMaterial.new 1).setVideoGstbuffer VideoMaterialProviderGeneric.iface
    (fun _ _ => rgbaFrame 4 4 8 4) VideoMaterialProviderGeneric.new 10).2.1).setCropRectangle
    { x := 10, y := 20, width := 30, height := 40 }

/-- A material of the generic provider after the upload of an RGBA frame of
1366 x 768 visible pixels in rows of 1376 pixels, with the crop rectangle that
selects the whole frame. -/
def wideRgbaMaterial : VideoMaterial :=
  (((VideoMaterial.new 1).setVideoGstbuffer VideoMaterialProviderGeneric.iface
    (fun _ _ => rgbaFrame 1366 768 1376 768) VideoMaterialProviderGeneric.new 10).2.1).setCropRectangle
    { x := 0, y := 0, width := 100, height := 100 }

/-! ## Render passes -/

/-- Recogniser of `glClear` calls. -/
def Call.isClear : Call → Bool
  | .glClear _ _ => true
  | _ => false

/-- A sequence of operations on a renderer; returns, per operation, the calls
it issued. -/
def Scene.runCalls {P : Type} (gst : GStreamer) (iface : VideoMaterialPrivIFace P)
    (vaoCreated : Bool) (mul : QMatrix4x4 → QMatrix4x4 → QMatrix4x4)
    (getMesh : String → Mesh) : Scene P → List RendererOp → List (List Call)
  | _, [] => []
  | s, op :: rest =>
    (s.step gst iface vaoCreated mul getMesh op).2 ::
      Scene.runCalls gst iface vaoCreated mul getMesh (s.step gst iface vaoCreated
          mul getMesh op).1 rest

/-- The operations of `n` passes of synchronize and render in which the item is
the same each time, the FBO is not recreated and the appsink has no frame. -/
def idlePasses (item : VideoObjectItem) : Nat → List RendererOp
  | 0 => []
  | n + 1 => RendererOp.synchronize item :: RendererOp.render none :: idlePasses item n

/-- A frame handed to a material the way the renderer is meant to do it:
`setVideoInfo` with the video info of the caps first when the caps are new,
then `setVideoGstbuffer` with the buffer of the sample. -/
def VideoMaterial.receiveSample {P : Type} (gst : GStreamer) (iface : VideoMaterialPrivIFace P)
    (provider : P) (self : VideoMaterial) (newCaps : Bool) (sample : GstSample) :
    P × VideoMaterial × List Call :=
  if newCaps then
    (self.setVideoInfo iface provider (gst.gst_video_info_from_caps sample.caps)).2.setVideoGstbuffer
      iface gst.gst_video_frame_map
      (self.setVideoInfo iface provider (gst.gst_video_info_from_caps sample.caps)).1 sample.buffer
  else
    self.setVideoGstbuffer iface gst.gst_video_frame_map provider sample.buffer

/-- The model-view-projection matrix that `synchronize` computes for an item:
the projection matrix times the product of the view matrix and the matrix of
the transform. -/
def VideoObjectItem.modelviewprojMatrix (self : VideoObjectItem)
    (mul : QMatrix4x4 → QMatrix4x4 → QMatrix4x4) : QMatrix4x4 :=
  mul self.projectionMatrix (mul self.viewMatrix self.transformMatrix)

/-- The renderer has taken over the state of the item: what `synchronize`
compares is equal on both sides. -/
def Renderer.inSync (mul : QMatrix4x4 → QMatrix4x4 → QMatrix4x4) (self : Renderer)
    (item : VideoObjectItem) : Prop :=
  self.m_modelviewMatrix = mul item.viewMatrix item.transformMatrix ∧
  self.m_modelviewprojMatrix =
    mul item.projectionMatrix (mul item.viewMatrix item.transformMatrix) ∧
  self.m_meshType = item.m_meshType ∧
  self.m_videoMaterial.m_cropRectangle = item.m_cropRectangle ∧
  self.m_videoMaterial.m_textureRotation = item.m_textureRotation

/-! ## Provider selection and video formats -/

/-- The part of a QOpenGLContext that the program reads: the names of the
extensions the context reports. -/
structure QOpenGLContext where
  extensions : List String
  deriving DecidableEq, Repr

/-- The member function `QOpenGLContext::hasExtension`. -/
def QOpenGLContext.hasExtension (self : QOpenGLContext) (name : String) : Bool :=
  self.extensions.contains name

/-- The function `isVivDirectTextureSupported`. -/
def isVivDirectTextureSupported (p_context : QOpenGLContext) : Bool :=
  if p_context.hasExtension "GL_VIV_direct_texture" then
    true
  else if p_context.hasExtension "GL_VIV_tex_direct" then
    true
  else
    false

/-- The provider object that `GLResources` owns: an instance of one of the two
subclasses of VideoMaterialProvider. -/
inductive VideoMaterialProviderUPtr
  | generic (p : VideoMaterialProviderGeneric)
  | vivante
  deriving DecidableEq, Repr

/-- The data members of GLResources. -/
structure GLResources where
  m_videoMaterialProvider : VideoMaterialProviderUPtr
  m_meshMap : List (String × Mesh)
  deriving DecidableEq, Repr

/-- The constructor of GLResources.  `WITH_VIV_GPU` tells whether the build
defines the macro of that name. -/
def GLResources.new (WITH_VIV_GPU : Bool) (p_glcontext : QOpenGLContext) : GLResources where
  m_videoMaterialProvider :=
    if WITH_VIV_GPU && isVivDirectTextureSupported p_glcontext then
      VideoMaterialProviderUPtr.vivante
    else
      VideoMaterialProviderUPtr.generic VideoMaterialProviderGeneric.new
  m_meshMap := []

/-- The values of `GstVideoFormat` that the program names; every other value
of the enum is an `other`. -/
inductive GstVideoFormat
  | GST_VIDEO_FORMAT_I420
  | GST_VIDEO_FORMAT_YV12
  | GST_VIDEO_FORMAT_NV12
  | GST_VIDEO_FORMAT_NV21
  | GST_VIDEO_FORMAT_YUY2
  | GST_VIDEO_FORMAT_UYVY
  | GST_VIDEO_FORMAT_RGB16
  | GST_VIDEO_FORMAT_RGBA
  | GST_VIDEO_FORMAT_BGRA
  | GST_VIDEO_FORMAT_RGBx
  | GST_VIDEO_FORMAT_BGRx
  | other (value : Nat)
  deriving DecidableEq, Repr

/-- The OpenGL and Vivante format enums that `toVivPixelFormat` returns. -/
inductive GLenum
  | GL_VIV_I420
  | GL_VIV_YV12
  | GL_VIV_NV12
  | GL_VIV_NV21
  | GL_VIV_YUY2
  | GL_VIV_UYVY
  | GL_RGB565
  | GL_RGBA
  | GL_BGRA_EXT
  deriving DecidableEq, Repr

/-- The function `toVivPixelFormat`; `none` stands for reaching `assert(false)` in the
default branch. -/
def toVivPixelFormat : GstVideoFormat → Option GLenum
  | .GST_VIDEO_FORMAT_I420 => some GLenum.GL_VIV_I420
  | .GST_VIDEO_FORMAT_YV12 => some GLenum.GL_VIV_YV12
  | .GST_VIDEO_FORMAT_NV12 => some GLenum.GL_VIV_NV12
  | .GST_VIDEO_FORMAT_NV21 => some GLenum.GL_VIV_NV21
  | .GST_VIDEO_FORMAT_YUY2 => some GLenum.GL_VIV_YUY2
  | .GST_VIDEO_FORMAT_UYVY => some GLenum.GL_VIV_UYVY
  | .GST_VIDEO_FORMAT_RGB16 => some GLenum.GL_RGB565
  | .GST_VIDEO_FORMAT_RGBA => some GLenum.GL_RGBA
  | .GST_VIDEO_FORMAT_BGRA => some GLenum.GL_BGRA_EXT
  | .GST_VIDEO_FORMAT_RGBx => some GLenum.GL_RGBA
  | .GST_VIDEO_FORMAT_BGRx => some GLenum.GL_BGRA_EXT
  | .other _ => none

/-- The format list that the constructor of VideoMaterialProviderGeneric
passes to its base class. -/
def VideoMaterialProviderGeneric.supportedVideoFormats : List GstVideoFormat :=
  [GstVideoFormat.GST_VIDEO_FORMAT_RGBx]

/-- The format list that the constructor of VideoMaterialProviderVivante
passes to its base class. -/
def VideoMaterialProviderVivante.supportedVideoFormats : List GstVideoFormat :=
  [GstVideoFormat.GST_VIDEO_FORMAT_I420,
   GstVideoFormat.GST_VIDEO_FORMAT_YV12,
   GstVideoFormat.GST_VIDEO_FORMAT_NV12,
   GstVideoFormat.GST_VIDEO_FORMAT_NV21,
   GstVideoFormat.GST_VIDEO_FORMAT_YUY2,
   GstVideoFormat.GST_VIDEO_FORMAT_UYVY,
   GstVideoFormat.GST_VIDEO_FORMAT_RGB16,
   GstVideoFormat.GST_VIDEO_FORMAT_RGBA,
   GstVideoFormat.GST_VIDEO_FORMAT_BGRA,
   GstVideoFormat.GST_VIDEO_FORMAT_RGBx,
   GstVideoFormat.GST_VIDEO_FORMAT_BGRx]

/-- The member function `VideoMaterialProvider::getSupportedVideoFormats` on the provider
that `GLResources` owns. -/
def VideoMaterialProviderUPtr.getSupportedVideoFormats :
    VideoMaterialProviderUPtr → List GstVideoFormat
  | .generic _ => VideoMaterialProviderGeneric.supportedVideoFormats
  | .vivante => VideoMaterialProviderVivante.supportedVideoFormats

/-- The caps that `setSinkCapsFromVideoFormats` builds: `video/x-raw` with
width and height from 1 to `G_MAXINT`, frame rate from 0/1 to `G_MAXINT`/1 and
the list of formats. -/
structure SinkCaps where
  mediaType : String
  widthMin : Int
  widthMax : Int
  heightMin : Int
  heightMax : Int
  framerateMin : Int × Int
  framerateMax : Int × Int
  formats : List GstVideoFormat
  deriving DecidableEq, Repr

/-- The member function `GStreamerPlayer::setSinkCapsFromVideoFormats`.  Returns the caps
handed to `setSinkCaps`; `none` stands for a failed
`assert(!p_videoFormats.empty())`. -/
def GStreamerPlayer.setSinkCapsFromVideoFormats (p_videoFormats : List GstVideoFormat) :
    Option SinkCaps :=
  if p_videoFormats.isEmpty then
    none
  else
    some
      { mediaType := "video/x-raw"
        widthMin := 1
        widthMax := 2 ^ 31 - 1
        heightMin := 1
        heightMax := 2 ^ 31 - 1
        framerateMin := (0, 1)
        framerateMax := (2 ^ 31 - 1, 1)
        formats := p_videoFormats }

/-- The first statement of the constructor of `VideoObjectItem::Renderer`: the
sink caps of the player are set from the formats of the provider. -/
def Renderer.setSinkCaps (resources : GLResources) : Option SinkCaps :=
  GStreamerPlayer.setSinkCapsFromVideoFormats
    resources.m_videoMaterialProvider.getSupportedVideoFormats

/-! ## Durations, positions and states of the player -/

/-- Conversion of an integer value to `int` (32 bit, two's complement). -/
def toGint (x : Int) : Int := (x + 2 ^ 31) % 2 ^ 32 - 2 ^ 31

/-- The constant `GST_MSECOND`: a millisecond in nanoseconds. -/
def GST_MSECOND : Nat := 1000000

/-- The constant `GST_CLOCK_TIME_NONE`: the `guint64` value for an unknown time. -/
def GST_CLOCK_TIME_NONE : Nat := 2 ^ 64 - 1

/-- The macro `GST_CLOCK_TIME_IS_VALID`. -/
def GST_CLOCK_TIME_IS_VALID (time : Nat) : Bool :=
  time != GST_CLOCK_TIME_NONE

/-- The member function `GStreamerPlayer::getPosition`; `pos` is the `guint64` that
`gst_player_get_position` returns. -/
def GStreamerPlayer.getPosition (pos : Nat) : Int :=
  if GST_CLOCK_TIME_IS_VALID pos then toGint ((pos / GST_MSECOND : Nat) : Int) else -1

/-- The member function `GStreamerPlayer::getDuration`; `dur` is the `guint64` that
`gst_player_get_duration` returns. -/
def GStreamerPlayer.getDuration (dur : Nat) : Int :=
  if GST_CLOCK_TIME_IS_VALID dur then max (toGint ((dur / GST_MSECOND : Nat) : Int)) 1 else -1

/-- The Qt signals of GStreamerPlayer. -/
inductive Signal
  | buffering (percentage : Int)
  | endOfStream
  | urlChanged
  | stateChanged
  | durationChanged (newDuration : Int)
  | positionUpdated (newPosition : Int)
  | isSeekableChanged
  | subtitleChanged
  deriving DecidableEq, Repr

/-- The calls into GstPlayer that the playback functions of the player make. -/
inductive GstPlayerCall
  | gst_player_set_uri (uri : String)
  | gst_player_play
  | gst_player_pause
  | gst_player_stop
  | gst_player_seek (position : Nat)
  deriving DecidableEq, Repr

/-- The member function `GStreamerPlayer::getState`. -/
def GStreamerPlayer.getState (self : GStreamerPlayer) : State :=
  self.m_state

/-- The member function `GStreamerPlayer::play`. -/
def GStreamerPlayer.play (self : GStreamerPlayer) : GStreamerPlayer × List GstPlayerCall :=
  (self, [GstPlayerCall.gst_player_play])

/-- The member function `GStreamerPlayer::pause`. -/
def GStreamerPlayer.pause (self : GStreamerPlayer) : GStreamerPlayer × List GstPlayerCall :=
  (self, [GstPlayerCall.gst_player_pause])

/-- The member function `GStreamerPlayer::stop`. -/
def GStreamerPlayer.stop (self : GStreamerPlayer) : GStreamerPlayer × List GstPlayerCall :=
  (self, [GstPlayerCall.gst_player_stop])

/-- The callback `GStreamerPlayer::staticOnGstPlayerStateChanged`.  It runs when the Qt
event loop handles the event that the signal dispatcher posted for a
state-changed signal of GstPlayer. -/
def GStreamerPlayer.staticOnGstPlayerStateChanged (self : GStreamerPlayer) (p_state : State) :
    GStreamerPlayer × List Signal :=
  ({ self with m_state := p_state }, [Signal.stateChanged])

/-- The callback `GStreamerPlayer::staticOnGstPlayerDurationChanged`; `p_duration` is a
`guint64`. -/
def GStreamerPlayer.staticOnGstPlayerDurationChanged (self : GStreamerPlayer)
    (p_duration : Nat) : GStreamerPlayer × List Signal :=
  (self, [Signal.durationChanged (max (toGint ((p_duration / GST_MSECOND : Nat) : Int)) 1)])

/-- The callback `GStreamerPlayer::staticOnGstPlayerPositionUpdated`; `p_position` is a
`guint64`. -/
def GStreamerPlayer.staticOnGstPlayerPositionUpdated (self : GStreamerPlayer)
    (p_position : Nat) : GStreamerPlayer × List Signal :=
  (self, [Signal.positionUpdated (toGint ((p_position / GST_MSECOND : Nat) : Int))])

/-! ## The URL of the player -/

/-- The member function `GStreamerPlayer::getUrl`. -/
def GStreamerPlayer.getUrl (self : GStreamerPlayer) : String :=
  self.m_url

/-- The member function `GStreamerPlayer::setUrl`.  Returns the player, the calls into
GstPlayer and the signals emitted. -/
def GStreamerPlayer.setUrl (self : GStreamerPlayer) (p_url : String) :
    GStreamerPlayer × List GstPlayerCall × List Signal :=
  if self.m_url ≠ p_url then
    ({ self with m_url := p_url }, [GstPlayerCall.gst_player_set_uri p_url], [Signal.urlChanged])
  else
    (self, [], [])

/-! ## Moving a video material -/

/-- The entries of a 2x2 matrix in row-major order, for the matrices whose
entries `QMatrix4x4::rotate` sets without rounding: the identity (also the
result of a rotation by 0 degrees, which returns early) and the quarter
turns, for which sine and cosine are set to 0, 1 or -1 directly. -/
def QMatrix2x2.entries : QMatrix2x2 → Option (float × float × float × float)
  | QMatrix2x2.identity => some (float.finite 1, float.finite 0, float.finite 0, float.finite 1)
  | QMatrix2x2.rotationZ degrees =>
    if degrees = 0 then some (float.finite 1, float.finite 0, float.finite 0, float.finite 1)
    else if degrees = 90 ∨ degrees = -270 then
      some (float.finite 0, float.finite (-1), float.finite 1, float.finite 0)
    else if degrees = -90 ∨ degrees = 270 then
      some (float.finite 0, float.finite 1, float.finite (-1), float.finite 0)
    else if degrees = 180 ∨ degrees = -180 then
      some (float.finite (-1), float.finite 0, float.finite 0, float.finite (-1))
    else none

/-- The member function `VideoMaterial::getTextureRotation`. -/
def VideoMaterial.getTextureRotation (self : VideoMaterial) : Int :=
  self.m_textureRotation

/-- The member function `VideoMaterial::getTextureRotationMatrix`. -/
def VideoMaterial.getTextureRotationMatrix (self : VideoMaterial) : QMatrix2x2 :=
  self.m_textureRotationMatrix

/-- The move constructor `VideoMaterial::VideoMaterial(VideoMaterial &&)`.  Its
initialiser list names every member of the other material except
`m_textureRotationMatrix`, which is therefore default constructed. -/
def VideoMaterial.moveConstruct (p_other : VideoMaterial) : VideoMaterial where
  m_textureId := p_other.m_textureId
  m_curBuffer := p_other.m_curBuffer
  m_videoInfo := p_other.m_videoInfo
  m_frameWidth := p_other.m_frameWidth
  m_frameHeight := p_other.m_frameHeight
  m_totalWidth := p_other.m_totalWidth
  m_totalHeight := p_other.m_totalHeight
  m_cropRectangle := p_other.m_cropRectangle
  m_textureRotation := p_other.m_textureRotation
  m_textureRotationMatrix := QMatrix2x2.identity

/-- The move assignment `VideoMaterial::operator =(VideoMaterial &&)`.  It
assigns every member of the other material except `m_textureRotationMatrix`,
which keeps the value it had in the destination. -/
def VideoMaterial.moveAssign (self p_other : VideoMaterial) : VideoMaterial where
  m_textureId := p_other.m_textureId
  m_curBuffer := p_other.m_curBuffer
  m_videoInfo := p_other.m_videoInfo
  m_frameWidth := p_other.m_frameWidth
  m_frameHeight := p_other.m_frameHeight
  m_totalWidth := p_other.m_totalWidth
  m_totalHeight := p_other.m_totalHeight
  m_cropRectangle := p_other.m_cropRectangle
  m_textureRotation := p_other.m_textureRotation
  m_textureRotationMatrix := self.m_textureRotationMatrix

/-- The rotation matrix of a material is the one `setTextureRotation` computes
for its rotation angle; for the angle 0 that is also the identity. -/
def VideoMaterial.rotationMatrixInSync (self : VideoMaterial) : Prop :=
  self.getTextureRotationMatrix = QMatrix2x2.rotationZ self.getTextureRotation ∨
  (self.getTextureRotationMatrix = QMatrix2x2.identity ∧ self.getTextureRotation = 0)

instance (self : VideoMaterial) : Decidable self.rotationMatrixInSync := by
  unfold VideoMaterial.rotationMatrixInSync
  infer_instance

/-! ## The configuration encoding of the subtitle source -/

/-- The enumeration `VideoObjectModel::SubtitleSource`. -/
inductive SubtitleSource
  | FIFOSubtitles
  | MediaSubtitles
  | SystemStatsSubtitles
  deriving DecidableEq, Repr

/-- The function `toString` of Application.cpp.  The result `none` stands for the
failed `assert(false)` of the default case; when assertions are compiled out
(`NDEBUG`), control reaches `return ""`. -/
def toString (NDEBUG : Bool) : SubtitleSource → Option String
  | SubtitleSource.FIFOSubtitles => some "fifo"
  | SubtitleSource.MediaSubtitles => some "media"
  | SubtitleSource.SystemStatsSubtitles => if NDEBUG then some "" else none

/-- The function `fromString` of Application.cpp.  The result `none` stands for the
return value `false`, with the output argument left untouched. -/
def fromString (p_string : String) : Option SubtitleSource :=
  if p_string = "fifo" then some SubtitleSource.FIFOSubtitles
  else if p_string = "media" then some SubtitleSource.MediaSubtitles
  else none

/-- The subtitle source that `Application::loadConfiguration` gives a description
whose JSON object holds the string `p_string` under "subtitleSource":
`p_default` is the value the description had before. -/
def loadSubtitleSource (p_default : SubtitleSource) (p_string : String) : SubtitleSource :=
  match fromString p_string with
  | some subtitleSource => subtitleSource
  | none => p_default

/-! ## The mesh cache of GLResources -/

/-- The structure `Mesh::MeshData`; the two vectors are represented by their
sizes. -/
structure MeshData where
  m_vertices : Nat
  m_indices : Nat
  deriving DecidableEq, Repr

/-- The function `getQuadMeshData`: 8 vertices and 12 indices. -/
def getQuadMeshData : MeshData where
  m_vertices := 4 * 2
  m_indices := 6 * 2

/-- The function `getCubeMeshData`: 24 vertices and 36 indices. -/
def getCubeMeshData : MeshData where
  m_vertices := 4 * 6
  m_indices := 6 * 6

/-- The constructor of Mesh.  It creates none of the two buffers; the two counts,
which the constructor leaves uninitialised, are represented by 0. -/
def Mesh.new (p_type : String) : Mesh where
  m_type := p_type
  vertexBufferCreated := false
  indexBufferCreated := false
  m_numVertices := 0
  m_numIndices := 0

/-- The member function `Mesh::getType`. -/
def Mesh.getType (self : Mesh) : String :=
  self.m_type

/-- The member function `Mesh::setContents`. -/
def Mesh.setContents (self : Mesh) (p_meshData : MeshData) : Mesh :=
  { self with
    m_numVertices := p_meshData.m_vertices
    m_numIndices := p_meshData.m_indices
    vertexBufferCreated := true
    indexBufferCreated := true }

/-- What `GLResources::getMesh` does to meshes: construct one, fill one. -/
inductive MeshCall
  | construct (p_type : String)
  | setContents (p_type : String) (p_meshData : MeshData)
  deriving DecidableEq, Repr

/-- Recogniser of mesh constructions. -/
def MeshCall.isConstruct : MeshCall → Bool
  | .construct _ => true
  | .setContents _ _ => false

/-- The member function `GLResources::getMesh`.  The map from type strings to
meshes is an association list that is searched from the front and extended at
the back; the returned reference is represented by the mesh stored under the
key.  `getTeapotMeshData` stands for the function of that name, whose table is
in a file of its own. -/
def GLResources.getMesh (getTeapotMeshData : MeshData) (self : GLResources)
    (p_meshType : String) : GLResources × Mesh × List MeshCall :=
  match self.m_meshMap.lookup p_meshType with
  | some mesh => (self, mesh, [])
  | none =>
    let newMesh := Mesh.new p_meshType
    let filled : Mesh × List MeshCall :=
      if p_meshType = "quad" then
        (newMesh.setContents getQuadMeshData,
          [MeshCall.setContents p_meshType getQuadMeshData])
      else if p_meshType = "cube" then
        (newMesh.setContents getCubeMeshData,
          [MeshCall.setContents p_meshType getCubeMeshData])
      else if p_meshType = "teapot" then
        (newMesh.setContents getTeapotMeshData,
          [MeshCall.setContents p_meshType getTeapotMeshData])
      else (newMesh, [])
    ({ self with m_meshMap := self.m_meshMap ++ [(p_meshType, filled.1)] }, filled.1,
      MeshCall.construct p_meshType :: filled.2)

/-- The resources after a sequence of `getMesh` calls. -/
def GLResources.getMeshes (getTeapotMeshData : MeshData) :
    GLResources → List String → GLResources
  | g, [] => g
  | g, t :: rest =>
    GLResources.getMeshes getTeapotMeshData (g.getMesh getTeapotMeshData t).1 rest

/-- The type strings for which `getMesh` fills the mesh. -/
def isFilledMeshType (p_meshType : String) : Bool :=
  p_meshType = "quad" || p_meshType = "cube" || p_meshType = "teapot"

/-- Every mesh in the map has the type string of its key, and it has contents
exactly when the key is one of the type strings that `getMesh` fills. -/
def GLResources.meshMapInSync (self : GLResources) : Prop :=
  ∀ entry ∈ self.m_meshMap,
    entry.2.getType = entry.1 ∧ entry.2.hasContents = isFilledMeshType entry.1

/-! ## The data model of the video objects -/

/-- The class QUrl as the data model uses it: the text of the URL and the result of
`isValid()`. -/
structure QUrl where
  toString : String
  isValid : Bool
  deriving DecidableEq, Repr

/-- The class QQuaternion: four `float` components. -/
structure QQuaternion where
  scalar : float
  x : float
  y : float
  z : float
  deriving DecidableEq

/-- The default constructor of QQuaternion: the identity quaternion. -/
def QQuaternion.new : QQuaternion where
  scalar := 1
  x := 0
  y := 0
  z := 0

/-- The structure `VideoObjectModel::Description`. -/
structure Description where
  m_url : QUrl
  m_meshType : String
  m_scale : float
  m_rotation : QQuaternion
  m_opacity : float
  m_cropRectangle : QRect
  m_textureRotation : Int
  m_subtitleSource : SubtitleSource
  deriving DecidableEq

/-- The constructor `VideoObjectModel::Description::Description`.  The URL and the
rotation, which the initialiser list does not name, are default constructed:
the empty, invalid URL and the identity quaternion. -/
def Description.new : Description where
  m_url := { toString := "", isValid := false }
  m_meshType := "cube"
  m_scale := 1
  m_rotation := QQuaternion.new
  m_opacity := 1
  m_cropRectangle := { x := 0, y := 0, width := 100, height := 100 }
  m_textureRotation := 0
  m_subtitleSource := SubtitleSource.MediaSubtitles

/-- What the data model tells its base class and its listeners. -/
inductive ModelSignal
  | beginInsertRows (first last : Nat)
  | endInsertRows
  | countChanged
  deriving DecidableEq, Repr

/-- The data member of VideoObjectModel. -/
structure VideoObjectModel where
  m_descriptions : List Description
  deriving DecidableEq

/-- The constructor of VideoObjectModel. -/
def VideoObjectModel.new : VideoObjectModel where
  m_descriptions := []

/-- The member function `VideoObjectModel::getCount`. -/
def VideoObjectModel.getCount (self : VideoObjectModel) : Nat :=
  self.m_descriptions.length

/-- The member function `VideoObjectModel::addDescription`. -/
def VideoObjectModel.addDescription (self : VideoObjectModel) (p_description : Description) :
    VideoObjectModel × List ModelSignal :=
  ({ self with m_descriptions := self.m_descriptions ++ [p_description] },
    [ModelSignal.beginInsertRows self.m_descriptions.length self.m_descriptions.length,
      ModelSignal.endInsertRows, ModelSignal.countChanged])

/-- The member function `VideoObjectModel::addFromURL`.  The returned `int` is the
`size_t` value `m_descriptions.size() - 1` converted to `int`. -/
def VideoObjectModel.addFromURL (self : VideoObjectModel) (p_url : QUrl) :
    Int × VideoObjectModel × List ModelSignal :=
  if !p_url.isValid then
    (-1, self, [])
  else
    let newDesc := { Description.new with m_url := p_url }
    let added := self.addDescription newDesc
    (toGint (toGsize ((added.1.m_descriptions.length : Int) - 1)), added.1, added.2)

/-! ## The video frame sink -/

/-- Modelled from the spec: the frame sink between the decoder and the renderer,
which is the appsink element of GStreamer and not part of the sources.  It
holds the frames that were pushed and not pulled, oldest first; `max_buffers`
and `drop` are the two properties of the element that
`gstreamer_video_renderer_init` sets. -/
structure GstAppSink where
  max_buffers : Nat
  drop : Bool
  queue : List GstSample
  deriving DecidableEq, Repr

/-- Modelled from the spec: the producer side of the frame sink, which is not part
of the sources.  A frame pushed into a sink that is not full is queued.  When
the sink is full (`max_buffers` is not 0 and that many frames are queued) and
`drop` is set, the oldest queued frame is discarded, the new frame is queued
and the producer is not blocked; when `drop` is not set the producer blocks,
which is the result `none`. -/
def GstAppSink.push (self : GstAppSink) (sample : GstSample) : Option GstAppSink :=
  if self.max_buffers ≠ 0 ∧ self.max_buffers ≤ self.queue.length then
    if self.drop then some { self with queue := self.queue.tail ++ [sample] }
    else none
  else some { self with queue := self.queue ++ [sample] }

/-- Modelled from the spec: the consumer side of the frame sink
(`gst_app_sink_try_pull_sample` with the timeout 0), which is not part of the
sources.  It never blocks: it hands out the oldest queued frame and removes
it from the queue, or returns a null pointer when no frame is queued. -/
def GstAppSink.try_pull_sample (self : GstAppSink) : Option GstSample × GstAppSink :=
  match self.queue with
  | [] => (none, self)
  | sample :: rest => (some sample, { self with queue := rest })

/-- The video appsink as `gstreamer_video_renderer_init` configures it:
"max-buffers" is 1 and dropping is switched on. -/
def gstreamer_video_renderer_init : GstAppSink where
  max_buffers := 1
  drop := true
  queue := []

/-- A sequence of pushes without a pull in between; `none` when the producer
blocks at one of them. -/
def GstAppSink.pushes : GstAppSink → List GstSample → Option GstAppSink
  | self, [] => some self
  | self, sample :: rest =>
    match self.push sample with
    | some next => next.pushes rest
    | none => none

/-- The member function `GStreamerPlayer::pullVideoSample` together with the appsink it
pulls from. -/
def GStreamerPlayer.pullVideoSampleFrom (gst_caps_is_equal : GstCaps → GstCaps → Bool)
    (self : GStreamerPlayer) (sink : GstAppSink) :
    GStreamerMediaSample × GStreamerPlayer × GstAppSink :=
  let pulled := sink.try_pull_sample
  let r := self.pullVideoSample gst_caps_is_equal pulled.1
  (r.1, r.2, pulled.2)

/-! ## Ownership of the sample handle -/

/-- The objects of the class GStreamerMediaSample that a program has constructed,
by number of construction (`none` for a destroyed object), and the calls of
`gst_sample_unref` made so far, in call order. -/
structure SampleHeap where
  objects : List (Option GStreamerMediaSample)
  unrefs : List GstSample
  deriving DecidableEq, Repr

/-- No objects and no calls. -/
def SampleHeap.empty : SampleHeap where
  objects := []
  unrefs := []

/-- The object with the number `i`, if it is alive. -/
def SampleHeap.read (self : SampleHeap) (i : Nat) : Option GStreamerMediaSample :=
  self.objects.getD i none

/-- An assignment to members of the object with the number `i`. -/
def SampleHeap.update (self : SampleHeap) (i : Nat)
    (f : GStreamerMediaSample → GStreamerMediaSample) : SampleHeap :=
  match self.read i with
  | some object => { self with objects := self.objects.set i (some (f object)) }
  | none => self

/-- The member `m_sample` of the object with the number `i`. -/
def SampleHeap.sampleOf (self : SampleHeap) (i : Nat) : Option GstSample :=
  (self.read i).bind GStreamerMediaSample.getSample

/-- The member `m_sampleHasNewCaps` of the object with the number `i`. -/
def SampleHeap.flagOf (self : SampleHeap) (i : Nat) : Bool :=
  match self.read i with
  | some object => object.m_sampleHasNewCaps
  | none => false

/-- The call `gst_sample_unref(m_sample)` under the guard `m_sample != nullptr`. -/
def SampleHeap.unrefIfNotNull (self : SampleHeap) (m_sample : Option GstSample) : SampleHeap :=
  match m_sample with
  | some sample => { self with unrefs := self.unrefs ++ [sample] }
  | none => self

/-- The constructor `GStreamerMediaSample(GstSample *, bool)`; the new object gets the
next number. -/
def SampleHeap.construct (self : SampleHeap) (p_sample : Option GstSample)
    (p_sampleHasNewCaps : Bool) : SampleHeap :=
  { self with
    objects := self.objects ++
      [some { m_sample := p_sample, m_sampleHasNewCaps := p_sampleHasNewCaps }] }

/-- The move constructor `GStreamerMediaSample(GStreamerMediaSample &&)`; the new object
gets the next number.  A destroyed object cannot be named, so nothing happens
for one. -/
def SampleHeap.moveConstruct (self : SampleHeap) (p_other : Nat) : SampleHeap :=
  match self.read p_other with
  | some other =>
    let constructed : SampleHeap :=
      { self with
        objects := self.objects ++
          [some { m_sample := other.m_sample,
                  m_sampleHasNewCaps := other.m_sampleHasNewCaps }] }
    constructed.update p_other (fun object => { object with m_sample := none })
  | none => self

/-- The destructor of GStreamerMediaSample. -/
def SampleHeap.destroy (self : SampleHeap) (i : Nat) : SampleHeap :=
  match self.read i with
  | some object =>
    { (self.unrefIfNotNull object.m_sample) with objects := self.objects.set i none }
  | none => self

/-- The move assignment operator of GStreamerMediaSample, statement by statement, so
that an object may also be assigned to itself. -/
def SampleHeap.moveAssign (self : SampleHeap) (i p_other : Nat) : SampleHeap :=
  match self.read i, self.read p_other with
  | some _, some _ =>
    let h1 := self.unrefIfNotNull (self.sampleOf i)
    let h2 := h1.update i (fun object => { object with m_sample := h1.sampleOf p_other })
    let h3 := h2.update i
      (fun object => { object with m_sampleHasNewCaps := h2.flagOf p_other })
    h3.update p_other (fun object => { object with m_sample := none })
  | _, _ => self

/-- The operations on objects of GStreamerMediaSample. -/
inductive SampleOp
  | construct (p_sample : Option GstSample) (p_sampleHasNewCaps : Bool)
  | moveConstruct (p_other : Nat)
  | moveAssign (i p_other : Nat)
  | destroy (i : Nat)
  deriving DecidableEq, Repr

/-- One operation. -/
def SampleHeap.step (self : SampleHeap) : SampleOp → SampleHeap
  | .construct p_sample p_sampleHasNewCaps => self.construct p_sample p_sampleHasNewCaps
  | .moveConstruct p_other => self.moveConstruct p_other
  | .moveAssign i p_other => self.moveAssign i p_other
  | .destroy i => self.destroy i

/-- A sequence of operations. -/
def SampleHeap.run : SampleHeap → List SampleOp → SampleHeap
  | self, [] => self
  | self, op :: rest => (self.step op).run rest

/-- Whether an object, if alive, holds the handle `sample`. -/
def holdsSample (sample : GstSample) : Option GStreamerMediaSample → Bool
  | some object => decide (object.m_sample = some sample)
  | none => false

/-- The number of living objects that hold the handle `sample`. -/
def SampleHeap.holders (self : SampleHeap) (sample : GstSample) : Nat :=
  self.objects.countP (holdsSample sample)

/-- The number of times the handle `sample` is given to the constructor in a
sequence of operations. -/
def constructionsWith (sample : GstSample) (ops : List SampleOp) : Nat :=
  ops.countP (fun op =>
    match op with
    | .construct p_sample _ => decide (p_sample = some sample)
    | _ => false)

/-! ## Transform and Camera -/

/-- The class QVector3D: three `float` components. -/
structure QVector3D where
  x : float
  y : float
  z : float
  deriving DecidableEq

/-- The member functions of QMatrix4x4 that Transform and Camera call.  Each takes
the matrix it is called on and returns the matrix afterwards (`inverted`
returns its result). -/
structure QMatrix4x4Ops where
  translate : QMatrix4x4 → QVector3D → QMatrix4x4
  rotate : QMatrix4x4 → QQuaternion → QMatrix4x4
  scale : QMatrix4x4 → float → QMatrix4x4
  perspective : QMatrix4x4 → float → float → float → float → QMatrix4x4
  inverted : QMatrix4x4 → QMatrix4x4

/-- The data members of Transform. -/
structure Transform where
  m_matrix : QMatrix4x4
  m_matrixValid : Bool
  m_position : QVector3D
  m_scale : float
  m_rotation : QQuaternion

/-- The constructor of Transform.  The matrix is default constructed. -/
def Transform.new : Transform where
  m_matrix := 1
  m_matrixValid := false
  m_position := { x := 0, y := 0, z := 0 }
  m_scale := 1
  m_rotation := { scalar := 1, x := 0, y := 0, z := 0 }

/-- The member function `Transform::getMatrix`.  It is const and writes the two mutable
members, so it returns the transform as well. -/
def Transform.getMatrix (qt : QMatrix4x4Ops) (self : Transform) : QMatrix4x4 × Transform :=
  if !self.m_matrixValid then
    let m0 : QMatrix4x4 := 1
    let m1 := qt.translate m0 self.m_position
    let m2 := qt.rotate m1 self.m_rotation
    let m3 := qt.scale m2 self.m_scale
    (m3, { self with m_matrix := m3, m_matrixValid := true })
  else
    (self.m_matrix, self)

/-- The member function `Transform::setPosition`. -/
def Transform.setPosition (self : Transform) (p_position : QVector3D) : Transform :=
  { self with m_position := p_position, m_matrixValid := false }

/-- The member function `Transform::setScale`. -/
def Transform.setScale (self : Transform) (p_scale : float) : Transform :=
  { self with m_scale := p_scale, m_matrixValid := false }

/-- The member function `Transform::setRotation`. -/
def Transform.setRotation (self : Transform) (p_rotation : QQuaternion) : Transform :=
  { self with m_rotation := p_rotation, m_matrixValid := false }

/-- The calls on a transform. -/
inductive TransformOp
  | setPosition (p_position : QVector3D)
  | setScale (p_scale : float)
  | setRotation (p_rotation : QQuaternion)
  | getMatrix

/-- A sequence of calls on a transform; returns the transform afterwards and
the matrices that the `getMatrix` calls returned, in call order. -/
def Transform.run (qt : QMatrix4x4Ops) : Transform → List TransformOp →
    Transform × List QMatrix4x4
  | self, [] => (self, [])
  | self, .setPosition p_position :: rest => Transform.run qt (self.setPosition p_position) rest
  | self, .setScale p_scale :: rest => Transform.run qt (self.setScale p_scale) rest
  | self, .setRotation p_rotation :: rest => Transform.run qt (self.setRotation p_rotation) rest
  | self, .getMatrix :: rest =>
    let r := self.getMatrix qt
    let after := Transform.run qt r.2 rest
    (after.1, r.1 :: after.2)

/-- The values of a transform, without the cached matrix. -/
structure TransformValues where
  position : QVector3D
  scale : float
  rotation : QQuaternion

/-- The values of a new transform. -/
def TransformValues.initial : TransformValues where
  position := { x := 0, y := 0, z := 0 }
  scale := 1
  rotation := { scalar := 1, x := 0, y := 0, z := 0 }

/-- The values of a transform. -/
def Transform.values (self : Transform) : TransformValues where
  position := self.m_position
  scale := self.m_scale
  rotation := self.m_rotation

/-- The matrix of a transform computed anew from its values: translate by the
position, rotate by the rotation, scale by the scale. -/
def TransformValues.recomputedMatrix (qt : QMatrix4x4Ops) (v : TransformValues) : QMatrix4x4 :=
  qt.scale (qt.rotate (qt.translate 1 v.position) v.rotation) v.scale

/-- A sequence of calls on a transform without a cache, in which `getMatrix`
computes the matrix anew at every call. -/
def TransformValues.recomputedRun (qt : QMatrix4x4Ops) : TransformValues →
    List TransformOp → List QMatrix4x4
  | _, [] => []
  | v, .setPosition p_position :: rest =>
    TransformValues.recomputedRun qt { v with position := p_position } rest
  | v, .setScale p_scale :: rest =>
    TransformValues.recomputedRun qt { v with scale := p_scale } rest
  | v, .setRotation p_rotation :: rest =>
    TransformValues.recomputedRun qt { v with rotation := p_rotation } rest
  | v, .getMatrix :: rest =>
    v.recomputedMatrix qt :: TransformValues.recomputedRun qt v rest

/-- The cached matrix of a transform, when marked valid, is the matrix of the
current values. -/
def Transform.cacheInSync (qt : QMatrix4x4Ops) (self : Transform) : Prop :=
  self.m_matrixValid = true → self.m_matrix = self.values.recomputedMatrix qt

/-- The data members of Camera. -/
structure Camera where
  m_fov : float
  m_aspect : float
  m_znear : float
  m_zfar : float
  m_transform : Transform
  m_projectionMatrix : QMatrix4x4
  m_projectionMatrixValid : Bool
  m_viewMatrix : QMatrix4x4
  m_viewMatrixValid : Bool

/-- The constructor of Camera.  The transform and the two matrices are default
constructed. -/
def Camera.new : Camera where
  m_fov := float.finite 90
  m_aspect := 1
  m_znear := 1
  m_zfar := float.finite 100
  m_transform := Transform.new
  m_projectionMatrix := 1
  m_projectionMatrixValid := false
  m_viewMatrix := 1
  m_viewMatrixValid := false

/-- The member function `Camera::setFov`.  The result `none` stands for a failed
assertion; with `NDEBUG` the assertions are compiled out. -/
def Camera.setFov (NDEBUG : Bool) (self : Camera) (p_fov : float) : Option Camera :=
  if !NDEBUG && !float.lt 0 p_fov then none
  else some { self with m_fov := p_fov, m_projectionMatrixValid := false }

/-- The member function `Camera::setAspect`. -/
def Camera.setAspect (NDEBUG : Bool) (self : Camera) (p_aspect : float) : Option Camera :=
  if !NDEBUG && !float.lt 0 p_aspect then none
  else some { self with m_aspect := p_aspect, m_projectionMatrixValid := false }

/-- The member function `Camera::setZrange`. -/
def Camera.setZrange (NDEBUG : Bool) (self : Camera) (p_znear p_zfar : float) : Option Camera :=
  if !NDEBUG && !float.lt 0 p_znear then none
  else if !NDEBUG && !float.lt 0 p_zfar then none
  else if !NDEBUG && !float.lt p_znear p_zfar then none
  else some { self with m_znear := p_znear, m_zfar := p_zfar, m_projectionMatrixValid := false }

/-- The member function `Camera::setPosition`. -/
def Camera.setPosition (self : Camera) (p_position : QVector3D) : Camera :=
  { self with
    m_transform := self.m_transform.setPosition p_position
    m_viewMatrixValid := false }

/-- The member function `Camera::setRotation`. -/
def Camera.setRotation (self : Camera) (p_rotation : QQuaternion) : Camera :=
  { self with
    m_transform := self.m_transform.setRotation p_rotation
    m_viewMatrixValid := false }

/-- The member function `Camera::getProjectionMatrix`. -/
def Camera.getProjectionMatrix (qt : QMatrix4x4Ops) (self : Camera) : QMatrix4x4 × Camera :=
  if !self.m_projectionMatrixValid then
    let m0 : QMatrix4x4 := 1
    let m1 := qt.perspective m0 self.m_fov self.m_aspect self.m_znear self.m_zfar
    (m1, { self with m_projectionMatrix := m1, m_projectionMatrixValid := true })
  else
    (self.m_projectionMatrix, self)

/-- The member function `Camera::getViewMatrix`. -/
def Camera.getViewMatrix (qt : QMatrix4x4Ops) (self : Camera) : QMatrix4x4 × Camera :=
  if !self.m_viewMatrixValid then
    let r := self.m_transform.getMatrix qt
    let m := qt.inverted r.1
    (m, { self with m_transform := r.2, m_viewMatrix := m, m_viewMatrixValid := true })
  else
    (self.m_viewMatrix, self)

/-- The calls on a camera. -/
inductive CameraOp
  | setFov (p_fov : float)
  | setAspect (p_aspect : float)
  | setZrange (p_znear p_zfar : float)
  | setPosition (p_position : QVector3D)
  | setRotation (p_rotation : QQuaternion)
  | getProjectionMatrix
  | getViewMatrix

/-- One call on a camera: the camera afterwards and the matrix returned, if the
call is a getter; `none` when an assertion fails. -/
def Camera.step (NDEBUG : Bool) (qt : QMatrix4x4Ops) (self : Camera) :
    CameraOp → Option (Camera × Option QMatrix4x4)
  | .setFov p_fov => (self.setFov NDEBUG p_fov).map (fun c => (c, none))
  | .setAspect p_aspect => (self.setAspect NDEBUG p_aspect).map (fun c => (c, none))
  | .setZrange p_znear p_zfar =>
    (self.setZrange NDEBUG p_znear p_zfar).map (fun c => (c, none))
  | .setPosition p_position => some (self.setPosition p_position, none)
  | .setRotation p_rotation => some (self.setRotation p_rotation, none)
  | .getProjectionMatrix =>
    some ((self.getProjectionMatrix qt).2, some (self.getProjectionMatrix qt).1)
  | .getViewMatrix => some ((self.getViewMatrix qt).2, some (self.getViewMatrix qt).1)

/-- A sequence of calls on a camera; returns the camera afterwards and the
matrices that the getters returned, in call order. -/
def Camera.run (NDEBUG : Bool) (qt : QMatrix4x4Ops) :
    Camera → List CameraOp → Option (Camera × List QMatrix4x4)
  | self, [] => some (self, [])
  | self, op :: rest =>
    match self.step NDEBUG qt op with
    | none => none
    | some (next, result) =>
      match Camera.run NDEBUG qt next rest with
      | none => none
      | some (last, results) => some (last, result.toList ++ results)

/-- The values of a camera, without the cached matrices. -/
structure CameraValues where
  fov : float
  aspect : float
  znear : float
  zfar : float
  transform : TransformValues

/-- The values of a new camera. -/
def CameraValues.initial : CameraValues where
  fov := float.finite 90
  aspect := 1
  znear := 1
  zfar := float.finite 100
  transform := TransformValues.initial

/-- The values of a camera. -/
def Camera.values (self : Camera) : CameraValues where
  fov := self.m_fov
  aspect := self.m_aspect
  znear := self.m_znear
  zfar := self.m_zfar
  transform := self.m_transform.values

/-- The projection matrix computed anew: the perspective matrix of the field
of view, the aspect ratio and the z range. -/
def CameraValues.recomputedProjectionMatrix (qt : QMatrix4x4Ops) (v : CameraValues) :
    QMatrix4x4 :=
  qt.perspective 1 v.fov v.aspect v.znear v.zfar

/-- The view matrix computed anew: the inverse of the matrix of the transform
of the camera. -/
def CameraValues.recomputedViewMatrix (qt : QMatrix4x4Ops) (v : CameraValues) : QMatrix4x4 :=
  qt.inverted (v.transform.recomputedMatrix qt)

/-- What the assertions of a setter require of its arguments. -/
def CameraOp.assertionsHold : CameraOp → Bool
  | .setFov p_fov => float.lt 0 p_fov
  | .setAspect p_aspect => float.lt 0 p_aspect
  | .setZrange p_znear p_zfar =>
    float.lt 0 p_znear && float.lt 0 p_zfar && float.lt p_znear p_zfar
  | _ => true

/-- One call on a camera without caches: the values afterwards and the matrix
returned, computed anew, if the call is a getter; `none` when the arguments
of a setter violate its assertions and assertions are compiled in. -/
def CameraValues.recomputedStep (NDEBUG : Bool) (qt : QMatrix4x4Ops) (v : CameraValues)
    (op : CameraOp) : Option (CameraValues × Option QMatrix4x4) :=
  if !NDEBUG && !op.assertionsHold then none
  else
    match op with
    | .setFov p_fov => some ({ v with fov := p_fov }, none)
    | .setAspect p_aspect => some ({ v with aspect := p_aspect }, none)
    | .setZrange p_znear p_zfar => some ({ v with znear := p_znear, zfar := p_zfar }, none)
    | .setPosition p_position =>
      some ({ v with transform := { v.transform with position := p_position } }, none)
    | .setRotation p_rotation =>
      some ({ v with transform := { v.transform with rotation := p_rotation } }, none)
    | .getProjectionMatrix => some (v, some (v.recomputedProjectionMatrix qt))
    | .getViewMatrix => some (v, some (v.recomputedViewMatrix qt))

/-- A sequence of calls on a camera without caches. -/
def CameraValues.recomputedRun (NDEBUG : Bool) (qt : QMatrix4x4Ops) :
    CameraValues → List CameraOp → Option (List QMatrix4x4)
  | _, [] => some []
  | v, op :: rest =>
    match v.recomputedStep NDEBUG qt op with
    | none => none
    | some (next, result) =>
      match CameraValues.recomputedRun NDEBUG qt next rest with
      | none => none
      | some results => some (result.toList ++ results)

/-- The cached matrices of a camera, when marked valid, are the matrices of
the current values, and the cache of its transform is in sync. -/
def Camera.cacheInSync (qt : QMatrix4x4Ops) (self : Camera) : Prop :=
  (self.m_projectionMatrixValid = true →
    self.m_projectionMatrix = self.values.recomputedProjectionMatrix qt) ∧
  (self.m_viewMatrixValid = true →
    self.m_viewMatrix = self.values.recomputedViewMatrix qt) ∧
  self.m_transform.cacheInSync qt

/-! ## Theorems -/

/-! ### Rounding to float -/

/-- The exponent search returns an exponent in its range, stops only at an
exponent that fits or at the end of the range, and passes no exponent that
fits. -/
theorem ulpExponent_spec (a : ℚ) (fuel : Nat) (lo : Int) :
    lo ≤ float.ulpExponent a fuel lo ∧ float.ulpExponent a fuel lo ≤ lo + fuel ∧
    (float.ulpExponent a fuel lo = lo + fuel ∨ a < 2 ^ (float.ulpExponent a fuel lo + 24)) ∧
    (float.ulpExponent a fuel lo = lo ∨ (2 : ℚ) ^ (float.ulpExponent a fuel lo + 23) ≤ a) := by
  induction fuel generalizing lo with
  | zero => simp [float.ulpExponent]
  | succ fuel ih =>
    unfold float.ulpExponent
    by_cases h : a < 2 ^ (lo + 24)
    · rw [if_pos h]
      refine ⟨le_refl _, ?_, Or.inr h, Or.inl rfl⟩
      push_cast
      omega
    · rw [if_neg h]
      obtain ⟨h1, h2, h3, h4⟩ := ih (lo + 1)
      refine ⟨by omega, by push_cast; omega, ?_, ?_⟩
      · rcases h3 with h3 | h3
        · left; rw [h3]; push_cast; ring
        · exact Or.inr h3
      · right
        rcases h4 with h4 | h4
        · rw [h4]
          have : lo + 1 + 23 = lo + 24 := by ring
          rw [this]
          exact not_lt.mp h
        · exact h4

/-- The exponent search returns the least exponent that fits. -/
theorem ulpExponent_le (a : ℚ) (fuel : Nat) (lo e : Int) (hlo : lo ≤ e)
    (h : a < 2 ^ (e + 24)) : float.ulpExponent a fuel lo ≤ e := by
  obtain ⟨_, _, _, h4⟩ := ulpExponent_spec a fuel lo
  by_contra hgt
  rcases h4 with h4 | h4
  · omega
  · have hle : (2 : ℚ) ^ (e + 24) ≤ 2 ^ (float.ulpExponent a fuel lo + 23) :=
      zpow_le_zpow_right₀ (by norm_num) (by omega)
    exact absurd (lt_of_lt_of_le h (le_trans hle h4)) (lt_irrefl _)

/-- Rounding to the nearest integer leaves an integer as it is. -/
theorem roundHalfEven_intCast (n : Int) : roundHalfEven (n : ℚ) = n := by
  simp [roundHalfEven]

/-- Rounding to the nearest integer moves a rational by at most one half. -/
theorem roundHalfEven_sub_le (k : ℚ) : |(roundHalfEven k : ℚ) - k| ≤ 1 / 2 := by
  have h1 : (⌊k⌋ : ℚ) ≤ k := Int.floor_le k
  have h2 : k < ⌊k⌋ + 1 := Int.lt_floor_add_one k
  unfold roundHalfEven
  rw [abs_le]
  split_ifs with c1 c2 c3 <;> push_cast <;> constructor <;> linarith

/-- Rounding to the nearest integer does not pass an integer. -/
theorem le_roundHalfEven (k : ℚ) (n : Int) (h : (n : ℚ) ≤ k) : n ≤ roundHalfEven k := by
  have h1 := roundHalfEven_sub_le k
  rw [abs_le] at h1
  have h2 : ((n : ℚ) - 1) < (roundHalfEven k : ℚ) := by linarith [h1.1]
  have h3 : ((n - 1 : Int) : ℚ) < (roundHalfEven k : ℚ) := by push_cast; exact h2
  have h4 : n - 1 < roundHalfEven k := by exact_mod_cast h3
  omega


/-- Rounding to the nearest integer does not pass an integer from below. -/
theorem roundHalfEven_le (k : ℚ) (n : Int) (h : k ≤ (n : ℚ)) : roundHalfEven k ≤ n := by
  have h1 := roundHalfEven_sub_le k
  rw [abs_le] at h1
  have h2 : (roundHalfEven k : ℚ) < ((n + 1 : Int) : ℚ) := by push_cast; linarith [h1.2]
  have h4 : roundHalfEven k < n + 1 := by exact_mod_cast h2
  omega

/-- A multiple of a unit in the last place with a significand below 2^24 is
rounded to itself. -/
theorem roundMagnitude_of_representable (m : Nat) (e : Int) (hm : m < 2 ^ 24)
    (he : -149 ≤ e) : float.roundMagnitude ((m : ℚ) * 2 ^ e) = (m : ℚ) * 2 ^ e := by
  have h2 : (2 : ℚ) ≠ 0 := by norm_num
  have hpos : (0 : ℚ) < 2 ^ e := zpow_pos (by norm_num) e
  have hlt : (m : ℚ) * 2 ^ e < 2 ^ (e + 24) := by
    have hm' : (m : ℚ) < 2 ^ (24 : Int) := by
      have h1 : (m : ℚ) < ((2 ^ 24 : Nat) : ℚ) := Nat.cast_lt.mpr hm
      have h3 : (2 : ℚ) ^ (24 : Int) = ((2 ^ 24 : Nat) : ℚ) := by norm_num
      rw [h3]
      exact h1
    rw [zpow_add₀ h2, mul_comm ((2 : ℚ) ^ e)]
    exact mul_lt_mul_of_pos_right hm' hpos
  have hE := ulpExponent_le ((m : ℚ) * 2 ^ e) 253 (-149) e he hlt
  unfold float.roundMagnitude
  generalize float.ulpExponent ((m : ℚ) * 2 ^ e) 253 (-149) = E at hE
  have hk : (m : ℚ) * 2 ^ e / 2 ^ E = (((m * 2 ^ (e - E).toNat : Nat) : Int) : ℚ) := by
    have hn : (((e - E).toNat : Nat) : Int) = e - E := Int.toNat_of_nonneg (by omega)
    rw [mul_div_assoc, ← zpow_sub₀ h2, ← hn, zpow_natCast]
    push_cast
    rfl
  rw [hk, roundHalfEven_intCast, ← hk]
  field_simp

/-- Rounding moves a rational by at most half a unit in the last place. -/
theorem roundMagnitude_sub_le (a : ℚ) :
    |float.roundMagnitude a - a| ≤ 2 ^ float.ulpExponent a 253 (-149) / 2 := by
  unfold float.roundMagnitude
  generalize float.ulpExponent a 253 (-149) = E
  have hpos : (0 : ℚ) < 2 ^ E := zpow_pos (by norm_num) E
  have h := roundHalfEven_sub_le (a / 2 ^ E)
  have heq : (roundHalfEven (a / 2 ^ E) : ℚ) * 2 ^ E - a =
      ((roundHalfEven (a / 2 ^ E) : ℚ) - a / 2 ^ E) * 2 ^ E := by
    field_simp
  rw [heq, abs_mul, abs_of_pos hpos]
  calc |(roundHalfEven (a / 2 ^ E) : ℚ) - a / 2 ^ E| * 2 ^ E ≤ 1 / 2 * 2 ^ E :=
        mul_le_mul_of_nonneg_right h hpos.le
    _ = 2 ^ E / 2 := by ring

/-- Rounding gives no negative number for a non-negative one. -/
theorem roundMagnitude_nonneg (a : ℚ) (ha : 0 ≤ a) : 0 ≤ float.roundMagnitude a := by
  unfold float.roundMagnitude
  have hpos : (0 : ℚ) < 2 ^ float.ulpExponent a 253 (-149) := zpow_pos (by norm_num) _
  have hk : ((0 : Int) : ℚ) ≤ a / 2 ^ float.ulpExponent a 253 (-149) := by
    simpa using div_nonneg ha hpos.le
  have hM := le_roundHalfEven _ 0 hk
  have hM' : (0 : ℚ) ≤ (roundHalfEven (a / 2 ^ float.ulpExponent a 253 (-149)) : ℚ) := by
    exact_mod_cast hM
  exact mul_nonneg hM' hpos.le


/-- From 2^(-126) on, rounding moves a rational by at most one part in 2^24. -/
theorem roundMagnitude_sub_le_mul (a : ℚ) (ha : (2 : ℚ) ^ (-126 : Int) ≤ a) :
    |float.roundMagnitude a - a| ≤ a * 2 ^ (-24 : Int) := by
  have h2 : (2 : ℚ) ≠ 0 := by norm_num
  have h := roundMagnitude_sub_le a
  obtain ⟨_, _, _, h4⟩ := ulpExponent_spec a 253 (-149)
  generalize float.ulpExponent a 253 (-149) = E at h h4
  have hE : (2 : ℚ) ^ (E + 23) ≤ a := by
    rcases h4 with h4 | h4
    · rw [h4]; exact ha
    · exact h4
  have heq : (2 : ℚ) ^ E / 2 = 2 ^ (E + 23) * 2 ^ (-24 : Int) := by
    rw [← zpow_add₀ h2]
    have : E + 23 + -24 = E - 1 := by ring
    rw [this, zpow_sub₀ h2, zpow_one]
  rw [heq] at h
  exact le_trans h (mul_le_mul_of_nonneg_right hE (zpow_pos (by norm_num) _).le)

/-- Below 2^127 rounding stays below 2^128. -/
theorem roundMagnitude_lt (a : ℚ) (ha : a < 2 ^ (127 : Int)) :
    float.roundMagnitude a < 2 ^ (128 : Int) := by
  have h := roundMagnitude_sub_le a
  have hE := ulpExponent_le a 253 (-149) 103 (by norm_num) (by simpa using ha)
  generalize float.ulpExponent a 253 (-149) = E at h hE
  have hle : (2 : ℚ) ^ E ≤ 2 ^ (103 : Int) := zpow_le_zpow_right₀ (by norm_num) hE
  rw [abs_le] at h
  have h1 : (2 : ℚ) ^ (128 : Int) = 2 ^ (127 : Int) + 2 ^ (127 : Int) := by norm_num
  have h3 : (2 : ℚ) ^ (103 : Int) / 2 < 2 ^ (127 : Int) := by norm_num
  linarith [h.2]

/-- What rounding returns below 2^128 is a multiple of a unit in the last place
with a significand below 2^24. -/
theorem roundMagnitude_representable (a : ℚ) (ha : 0 ≤ a)
    (hlt : float.roundMagnitude a < 2 ^ (128 : Int)) :
    ∃ (m : Nat) (e : Int), m < 2 ^ 24 ∧ -149 ≤ e ∧ e ≤ 104 ∧
      float.roundMagnitude a = (m : ℚ) * 2 ^ e := by
  have h2 : (2 : ℚ) ≠ 0 := by norm_num
  obtain ⟨h1, hup, h3, _⟩ := ulpExponent_spec a 253 (-149)
  unfold float.roundMagnitude at hlt ⊢
  generalize float.ulpExponent a 253 (-149) = E at h1 hup h3 hlt
  have hpos : (0 : ℚ) < 2 ^ E := zpow_pos (by norm_num) E
  have hk0 : ((0 : Int) : ℚ) ≤ a / 2 ^ E := by simpa using div_nonneg ha hpos.le
  have hM0 := le_roundHalfEven _ 0 hk0
  generalize hM : roundHalfEven (a / 2 ^ E) = M at hlt hM0
  have hcast : ((M.toNat : Nat) : ℚ) = (M : ℚ) := by
    have : ((M.toNat : Nat) : Int) = M := Int.toNat_of_nonneg hM0
    exact_mod_cast this
  have hE104 : E ≤ 104 := by push_cast at hup; omega
  by_cases hsmall : M < 2 ^ 24
  · refine ⟨M.toNat, E, ?_, h1, hE104, by rw [hcast]⟩
    omega
  · have hM24 : M = 2 ^ 24 := by
      have hle : M ≤ 2 ^ 24 := by
        rcases h3 with h3 | h3
        · exfalso
          have hE : E = 104 := by push_cast at h3; omega
          subst hE
          have hMq : ((2 : Int) ^ 24 : ℚ) ≤ (M : ℚ) := by exact_mod_cast (not_lt.mp hsmall)
          have : (2 : ℚ) ^ (128 : Int) ≤ (M : ℚ) * 2 ^ (104 : Int) := by
            have h128 : (2 : ℚ) ^ (128 : Int) = ((2 : Int) ^ 24 : ℚ) * 2 ^ (104 : Int) := by
              norm_num
            rw [h128]
            exact mul_le_mul_of_nonneg_right hMq (by positivity)
          exact absurd hlt (not_lt.mpr this)
        · rw [← hM]
          apply roundHalfEven_le
          have : a / 2 ^ E < 2 ^ (24 : Int) := by
            rw [div_lt_iff₀ hpos, ← zpow_add₀ h2, add_comm]
            exact h3
          have h24 : (((2 : Int) ^ 24 : Int) : ℚ) = 2 ^ (24 : Int) := by norm_num
          rw [h24]
          exact this.le
      omega
    subst hM24
    have hEq : (((2 : Int) ^ 24 : Int) : ℚ) * 2 ^ E = 2 ^ (E + 24) := by
      rw [zpow_add₀ h2, mul_comm]
      norm_num
    rw [hEq] at hlt
    have hE103 : E + 24 < 128 := (zpow_lt_zpow_iff_right₀ (by norm_num : (1 : ℚ) < 2)).mp hlt
    refine ⟨2 ^ 23, E + 1, by norm_num, by omega, by omega, ?_⟩
    rw [hEq, zpow_add₀ h2, zpow_add₀ h2]
    norm_num
    ring

/-- A rational that is a float value is converted to itself. -/
theorem ofRat_of_representable (q : ℚ) (h : float.representable q) :
    float.ofRat q = float.finite q := by
  obtain ⟨m, e, hm, he1, he2, hq⟩ := h
  have h2 : (2 : ℚ) ≠ 0 := by norm_num
  have hr : float.roundMagnitude |q| = |q| := by
    rw [hq]; exact roundMagnitude_of_representable m e hm he1
  have hlt : |q| < 2 ^ (128 : Int) := by
    rw [hq]
    have hm' : (m : ℚ) < 2 ^ (24 : Int) := by
      have h1 : (m : ℚ) < ((2 ^ 24 : Nat) : ℚ) := Nat.cast_lt.mpr hm
      have h3 : (2 : ℚ) ^ (24 : Int) = ((2 ^ 24 : Nat) : ℚ) := by norm_num
      rw [h3]
      exact h1
    have hle : (2 : ℚ) ^ e ≤ 2 ^ (104 : Int) := zpow_le_zpow_right₀ (by norm_num) he2
    have hpos : (0 : ℚ) < 2 ^ e := zpow_pos (by norm_num) e
    calc (m : ℚ) * 2 ^ e < 2 ^ (24 : Int) * 2 ^ e := mul_lt_mul_of_pos_right hm' hpos
      _ ≤ 2 ^ (24 : Int) * 2 ^ (104 : Int) := mul_le_mul_of_nonneg_left hle (by positivity)
      _ = 2 ^ (128 : Int) := by norm_num
  unfold float.ofRat
  rw [hr, if_neg (not_le.mpr hlt)]
  congr 1
  split_ifs with hneg
  · rw [abs_of_neg hneg]; ring
  · exact abs_of_nonneg (not_lt.mp hneg)

/-- A finite result of the conversion to float is a float value. -/
theorem ofRat_representable (q r : ℚ) (h : float.ofRat q = float.finite r) :
    float.representable r := by
  unfold float.ofRat at h
  split_ifs at h with hbig hneg
  · have hr : r = -float.roundMagnitude |q| := by injection h with h; exact h.symm
    obtain ⟨m, e, hm, he1, he2, heq⟩ :=
      roundMagnitude_representable |q| (abs_nonneg q) (not_le.mp hbig)
    refine ⟨m, e, hm, he1, he2, ?_⟩
    rw [hr, abs_neg, abs_of_nonneg (roundMagnitude_nonneg _ (abs_nonneg q)), heq]
  · have hr : r = float.roundMagnitude |q| := by injection h with h; exact h.symm
    obtain ⟨m, e, hm, he1, he2, heq⟩ :=
      roundMagnitude_representable |q| (abs_nonneg q) (not_le.mp hbig)
    refine ⟨m, e, hm, he1, he2, ?_⟩
    rw [hr, abs_of_nonneg (roundMagnitude_nonneg _ (abs_nonneg q)), heq]

/-- Converting a finite result of the conversion again returns it. -/
theorem ofRat_ofRat (q r : ℚ) (h : float.ofRat q = float.finite r) :
    float.ofRat r = float.finite r :=
  ofRat_of_representable r (ofRat_representable q r h)


/-- The conversion of a non-negative rational below 2^127 is finite. -/
theorem ofRat_of_nonneg (q : ℚ) (h0 : 0 ≤ q) (h : q < 2 ^ (127 : Int)) :
    float.ofRat q = float.finite (float.roundMagnitude q) := by
  unfold float.ofRat
  rw [abs_of_nonneg h0, if_neg (not_le.mpr (roundMagnitude_lt q h)), if_neg (not_lt.mpr h0)]

/-- An integer of magnitude below 2^24 is a float value. -/
theorem representable_intCast (n : Int) (h : n.natAbs < 2 ^ 24) :
    float.representable (n : ℚ) := by
  refine ⟨n.natAbs, 0, h, by norm_num, by norm_num, ?_⟩
  rw [zpow_zero, mul_one, Nat.cast_natAbs, Int.cast_abs]

/-- An unsigned integer below 2^24 is converted to `float` without rounding. -/
theorem ofNat_of_lt (n : Nat) (h : n < 2 ^ 24) : float.ofNat n = float.finite n := by
  have := ofRat_of_representable ((n : Int) : ℚ) (representable_intCast n (by simpa using h))
  simpa [float.ofNat] using this

/-- An `int` of magnitude below 2^24 is converted to `float` without rounding. -/
theorem ofInt_of_lt (n : Int) (h : n.natAbs < 2 ^ 24) : float.ofInt n = float.finite n :=
  ofRat_of_representable (n : ℚ) (representable_intCast n h)

/-- The conversion of an unsigned 32-bit integer to `float` is finite, and not
below one half for an integer that is not 0. -/
theorem ofNat_finite (n : Nat) (h : n < 2 ^ 32) :
    ∃ f : ℚ, float.ofNat n = float.finite f ∧ 0 ≤ f ∧ f ≤ 2 ^ (33 : Int) ∧
      (0 < n → 1 / 2 ≤ f) := by
  have hn0 : (0 : ℚ) ≤ (n : ℚ) := Nat.cast_nonneg n
  have hn32 : (n : ℚ) < 2 ^ (32 : Int) := by
    have h1 : (n : ℚ) < ((2 ^ 32 : Nat) : ℚ) := Nat.cast_lt.mpr h
    have h3 : (2 : ℚ) ^ (32 : Int) = ((2 ^ 32 : Nat) : ℚ) := by norm_num
    rw [h3]; exact h1
  have hlt : (n : ℚ) < 2 ^ (127 : Int) :=
    lt_trans hn32 (zpow_lt_zpow_right₀ (by norm_num) (by norm_num))
  refine ⟨float.roundMagnitude n, ofRat_of_nonneg n hn0 hlt, roundMagnitude_nonneg n hn0, ?_, ?_⟩
  · rcases Nat.eq_zero_or_pos n with h0 | hpos
    · subst h0
      have := roundMagnitude_of_representable 0 0 (by norm_num) (by norm_num)
      simp only [Nat.cast_zero, zero_mul] at this
      rw [Nat.cast_zero, this]
      positivity
    · have h1 : (1 : ℚ) ≤ (n : ℚ) := by exact_mod_cast hpos
      have hb := roundMagnitude_sub_le_mul (n : ℚ) (le_trans (by norm_num) h1)
      rw [abs_le] at hb
      have h24 : (2 : ℚ) ^ (-24 : Int) ≤ 1 := by norm_num
      have h33 : (2 : ℚ) ^ (33 : Int) = 2 ^ (32 : Int) + 2 ^ (32 : Int) := by norm_num
      generalize (2 : ℚ) ^ (-24 : Int) = c at hb h24
      have hmul := mul_le_mul_of_nonneg_left h24 hn0
      obtain ⟨_, hb2⟩ := hb
      linarith
  · intro hpos
    have h1 : (1 : ℚ) ≤ (n : ℚ) := by exact_mod_cast hpos
    have hb := roundMagnitude_sub_le_mul (n : ℚ) (le_trans (by norm_num) h1)
    rw [abs_le] at hb
    have h24 : (2 : ℚ) ^ (-24 : Int) ≤ 1 / 2 := by norm_num
    generalize (2 : ℚ) ^ (-24 : Int) = c at hb h24
    have hmul := mul_le_mul_of_nonneg_left h24 hn0
    obtain ⟨hb1, _⟩ := hb
    linarith

/-- The float product of 1 and a converted rational is the converted rational. -/
theorem mul_one_ofRat (q : ℚ) :
    float.mul (float.finite 1) (float.ofRat q) = float.ofRat q := by
  cases h : float.ofRat q with
  | finite r =>
    simp only [float.mul, one_mul]
    exact ofRat_ofRat q r h
  | infinity negative =>
    have h10 : ¬ ((1 : ℚ) < 0) := by norm_num
    simp [float.mul, h10]
  | nan => rfl

/-- The conversion of 0 is 0. -/
theorem ofRat_zero : float.ofRat 0 = float.finite 0 :=
  ofRat_of_representable 0 ⟨0, 0, by norm_num, by norm_num, by norm_num, by simp⟩

/-- The conversion of 1 is 1. -/
theorem ofRat_one : float.ofRat 1 = float.finite 1 :=
  ofRat_of_representable 1 ⟨1, 0, by norm_num, by norm_num, by norm_num, by simp⟩

/-- The float quotient of two unsigned 32-bit integers with a divisor that is
not 0 is the conversion of the quotient of their conversions, and finite. -/
theorem div_ofNat_finite (n d : Nat) (hn : n < 2 ^ 32) (hd : d < 2 ^ 32) (hpos : 0 < d) :
    ∃ s : ℚ, float.div (float.ofNat n) (float.ofNat d) = float.finite s ∧
      float.ofRat s = float.finite s ∧ 0 ≤ s := by
  obtain ⟨f, hf, hf0, hf33, _⟩ := ofNat_finite n hn
  obtain ⟨t, ht, _, _, ht2⟩ := ofNat_finite d hd
  have ht' : 1 / 2 ≤ t := ht2 hpos
  have htpos : 0 < t := by linarith
  have hq0 : 0 ≤ f / t := div_nonneg hf0 htpos.le
  have hq : f / t < 2 ^ (127 : Int) := by
    rw [div_lt_iff₀ htpos]
    have h127 : (2 : ℚ) ^ (127 : Int) = 2 ^ (34 : Int) * 2 ^ (93 : Int) := by norm_num
    have h34 : (2 : ℚ) ^ (34 : Int) = 2 * 2 ^ (33 : Int) := by norm_num
    have h93 : (1 : ℚ) ≤ 2 ^ (93 : Int) := by norm_num
    nlinarith
  have hdiv : float.div (float.ofNat n) (float.ofNat d) = float.ofRat (f / t) := by
    rw [hf, ht]
    simp [float.div, htpos.ne']
  refine ⟨float.roundMagnitude (f / t), ?_, ?_, roundMagnitude_nonneg _ hq0⟩
  · rw [hdiv]; exact ofRat_of_nonneg _ hq0 hq
  · exact ofRat_ofRat _ _ (ofRat_of_nonneg _ hq0 hq)


/-! ### Comparison of matrices -/

/-- The float quotient of two unsigned integers below 2^24 with a divisor that
is not 0 is the exact quotient when that is a float value. -/
theorem div_ofNat_of_representable (n d : Nat) (hn : n < 2 ^ 24) (hd : d < 2 ^ 24)
    (hpos : 0 < d) (hrep : float.representable ((n : ℚ) / (d : ℚ))) :
    float.div (float.ofNat n) (float.ofNat d) = float.finite ((n : ℚ) / (d : ℚ)) := by
  have hdq : (0 : ℚ) < (d : ℚ) := by exact_mod_cast hpos
  rw [ofNat_of_lt _ hn, ofNat_of_lt _ hd]
  simp only [float.div, hdq.ne', if_false]
  exact ofRat_of_representable _ hrep

/-- Two floats that `!=` does not tell apart are the same value. -/
theorem float_eq_of_ne_false (a b : float) (h : float.ne a b = false) : a = b := by
  cases a <;> cases b <;> simp_all [float.ne]

/-- A float that is not NaN does not differ from itself. -/
theorem float_ne_self (a : float) (h : a ≠ float.nan) : float.ne a a = false := by
  cases a <;> simp_all [float.ne]

/-- Two matrices that `!=` does not tell apart are the same matrix. -/
theorem matrix_eq_of_ne_false (a b : QMatrix4x4) (h : QMatrix4x4.ne a b = false) : a = b := by
  simp only [QMatrix4x4.ne, decide_eq_false_iff_not, not_exists, Bool.not_eq_true] at h
  ext i j
  exact float_eq_of_ne_false _ _ (h i j)

/-- A matrix without a NaN entry does not differ from itself. -/
theorem matrix_ne_self (a : QMatrix4x4) (h : ∀ i j, a i j ≠ float.nan) :
    QMatrix4x4.ne a a = false := by
  simp only [QMatrix4x4.ne, decide_eq_false_iff_not, not_exists, Bool.not_eq_true]
  intro i j
  exact float_ne_self _ (h i j)

/-- A matrix with a NaN entry differs from itself. -/
theorem matrix_ne_self_of_nan (a : QMatrix4x4) (i j : Fin 4) (h : a i j = float.nan) :
    QMatrix4x4.ne a a = true := by
  simp only [QMatrix4x4.ne, decide_eq_true_eq]
  exact ⟨i, j, by rw [h]; rfl⟩

/-- The identity matrix does not differ from itself. -/
theorem matrix_ne_one_one : QMatrix4x4.ne 1 1 = false := by
  apply matrix_ne_self
  intro i j
  by_cases hij : i = j
  · rw [hij, Matrix.one_apply_eq]; exact fun h => nomatch h
  · rw [Matrix.one_apply_ne hij]; exact fun h => nomatch h

/-- The float product of the identity matrix and itself is the identity
matrix. -/
theorem matrix_mul_one_one : QMatrix4x4.mul 1 1 = 1 := by
  decide!

/-- A float product with the factor NaN is NaN. -/
theorem mul_nan (a : float) : float.mul a float.nan = float.nan := by
  cases a <;> rfl

/-- A float sum with the first term NaN is NaN. -/
theorem nan_add (a : float) : float.add float.nan a = float.nan := by
  cases a <;> rfl

/-- A float sum with the second term NaN is NaN. -/
theorem add_nan (a : float) : float.add a float.nan = float.nan := by
  cases a <;> rfl

/-- A NaN entry in the second factor of a float matrix product makes every
entry of its column of the product NaN. -/
theorem mul_nan_entry (a b : QMatrix4x4) (i j k : Fin 4) (h : b k j = float.nan) :
    QMatrix4x4.mul a b i j = float.nan := by
  simp only [QMatrix4x4.mul, Matrix.of_apply]
  fin_cases k <;> simp only [Fin.zero_eta, Fin.mk_one, Fin.reduceFinMk] at h <;>
    rw [h] <;> simp only [mul_nan, nan_add, add_nan]

/-- A matrix with a NaN entry differs from every matrix. -/
theorem matrix_ne_of_nan (a b : QMatrix4x4) (i j : Fin 4) (h : b i j = float.nan) :
    QMatrix4x4.ne a b = true := by
  simp only [QMatrix4x4.ne, decide_eq_true_eq]
  refine ⟨i, j, ?_⟩
  rw [h]
  cases a i j <;> rfl

/-! ### Caps-change detection of the player -/

/-- The caps against which call number `i` of a sequence of pulls compares its
sample: those of the preceding non-null sample, or else the caps the player
remembered before the sequence. -/
theorem previousSample_cons_succ (x : Option GstSample) (rest : List (Option GstSample))
    (i : Nat) (c : Option GstCaps) :
    (match previousSample (x :: rest) (i + 1) with
      | some prev => some prev.caps
      | none => c) =
    (match previousSample rest i with
      | some prev => some prev.caps
      | none => (match x with
        | some t => some t.caps
        | none => c)) := by
  unfold previousSample
  cases x with
  | none => simp [List.reduceOption_cons_of_none]
  | some t =>
    simp only [List.take_succ_cons, List.reduceOption_cons_of_some]
    cases hl : ((rest.take i).reduceOption) with
    | nil => simp
    | cons a l =>
      rw [List.getLast?_cons_cons, List.getLast?_eq_getLast (a :: l) (by simp)]

/-- Call number `i` of a sequence of pulls, when the appsink hands out the
sample `s` there, returns `s` with the flag computed from the comparison caps. -/
theorem pullVideoSamples_getElem? (gst_caps_is_equal : GstCaps → GstCaps → Bool)
    (pulls : List (Option GstSample)) :
    ∀ (p : GStreamerPlayer) (i : Nat) (s : GstSample), pulls[i]? = some (some s) →
      (p.pullVideoSamples gst_caps_is_equal pulls)[i]? =
        some { m_sample := some s
               m_sampleHasNewCaps :=
                 match (match previousSample pulls i with
                   | some prev => some prev.caps
                   | none => p.m_lastSampleCaps) with
                 | none => true
                 | some last => !gst_caps_is_equal last s.caps } := by
  induction pulls with
  | nil => intro p i s h; simp at h
  | cons x rest ih =>
    intro p i s h
    cases i with
    | zero =>
      simp only [List.getElem?_cons_zero, Option.some.injEq] at h
      subst h
      simp [GStreamerPlayer.pullVideoSamples, GStreamerPlayer.pullVideoSample, previousSample]
    | succ i =>
      simp only [List.getElem?_cons_succ] at h
      rw [previousSample_cons_succ]
      simp only [GStreamerPlayer.pullVideoSamples, List.getElem?_cons_succ]
      rw [ih _ i s h]
      cases x <;> simp [GStreamerPlayer.pullVideoSample]

/-- Claim C1: in every sequence of `pullVideoSample` calls on a freshly
constructed player, a call that returns a non-null sample reports new caps
exactly when there is no earlier non-null sample or the caps of the previous
non-null sample are not equal (by `gst_caps_is_equal`) to its caps. -/
theorem pullVideoSample_hasNewCaps_iff (gst_caps_is_equal : GstCaps → GstCaps → Bool)
    (pulls : List (Option GstSample)) (i : Nat) (s : GstSample)
    (h : pulls[i]? = some (some s)) :
    ∃ ms : GStreamerMediaSample,
      (GStreamerPlayer.new.pullVideoSamples gst_caps_is_equal pulls)[i]? = some ms ∧
      ms.getSample = some s ∧
      (ms.sampleHasNewCaps = true ↔
        (previousSample pulls i = none ∨
          ∃ prev, previousSample pulls i = some prev ∧
            gst_caps_is_equal prev.caps s.caps = false)) := by
  refine ⟨_, pullVideoSamples_getElem? gst_caps_is_equal pulls _ i s h, rfl, ?_⟩
  simp only [GStreamerMediaSample.sampleHasNewCaps, GStreamerPlayer.new]
  cases previousSample pulls i with
  | none => simp
  | some prev => simp

/-- Witness of claim C1: three frames with caps 1, 1, 2 and an empty pull in
between; the second frame with caps 1 is the call at index 2. -/
theorem pullVideoSample_hasNewCaps_iff_witness :
    [some (GstSample.mk 1 10), none, some ⟨1, 11⟩, some ⟨2, 12⟩][2]? = some (some ⟨1, 11⟩) ∧
    ∃ ms : GStreamerMediaSample,
      (GStreamerPlayer.new.pullVideoSamples (fun a b => a == b)
        [some ⟨1, 10⟩, none, some ⟨1, 11⟩, some ⟨2, 12⟩])[2]? = some ms ∧
      ms.getSample = some ⟨1, 11⟩ ∧
      (ms.sampleHasNewCaps = true ↔
        (previousSample [some ⟨1, 10⟩, none, some ⟨1, 11⟩, some ⟨2, 12⟩] 2 = none ∨
          ∃ prev, previousSample [some ⟨1, 10⟩, none, some ⟨1, 11⟩, some ⟨2, 12⟩] 2 = some prev ∧
            (fun a b => a == b) prev.caps (GstSample.mk 1 11).caps = false)) :=
  ⟨by decide, pullVideoSample_hasNewCaps_iff (fun a b => a == b)
    [some ⟨1, 10⟩, none, some ⟨1, 11⟩, some ⟨2, 12⟩] 2 ⟨1, 11⟩ (by decide)⟩

/-- Claim C2: when the appsink has no pending frame, `pullVideoSample` returns
a media sample with a null sample and a false new-caps flag and leaves the
player, and so the remembered caps, unchanged; the next frame is compared
against the same caps as if the empty pull had not happened. -/
theorem pullVideoSample_none (gst_caps_is_equal : GstCaps → GstCaps → Bool)
    (p : GStreamerPlayer) :
    (p.pullVideoSample gst_caps_is_equal none).1.getSample = none ∧
    (p.pullVideoSample gst_caps_is_equal none).1.sampleHasNewCaps = false ∧
    (p.pullVideoSample gst_caps_is_equal none).2 = p ∧
    (p.pullVideoSample gst_caps_is_equal none).2.m_lastSampleCaps = p.m_lastSampleCaps ∧
    ∀ next : GstSample,
      (p.pullVideoSample gst_caps_is_equal none).2.pullVideoSample gst_caps_is_equal (some next) =
        p.pullVideoSample gst_caps_is_equal (some next) :=
  ⟨rfl, rfl, rfl, rfl, fun _ => rfl⟩


/-! ### The upload precondition in the renderer -/

/-- The synchronize call changes neither the video info nor the buffer of the material. -/
theorem synchronize_videoInfo (mul : QMatrix4x4 → QMatrix4x4 → QMatrix4x4)
    (getMesh : String → Mesh) (r : Renderer) (item : VideoObjectItem) :
    (r.synchronize mul getMesh item).m_videoMaterial.m_videoInfo = r.m_videoMaterial.m_videoInfo ∧
    (r.synchronize
        mul getMesh item).m_videoMaterial.m_curBuffer = r.m_videoMaterial.m_curBuffer := by
  unfold Renderer.synchronize
  simp only [VideoMaterial.setCropRectangle, VideoMaterial.setTextureRotation]
  constructor <;> (repeat' split) <;> rfl

/-- A render call keeps the upload precondition, provided a player that
remembers caps implies a material that has a video info. -/
theorem render_keeps_precondition {P : Type} (gst : GStreamer) (iface : VideoMaterialPrivIFace P)
    (vaoCreated : Bool) (r : Renderer) (player : GStreamerPlayer) (provider : P)
    (pending : Option GstSample)
    (h1 : player.m_lastSampleCaps.isSome = true → r.m_videoMaterial.m_videoInfo.isSome = true)
    (h2 : r.m_videoMaterial.uploadedWithVideoInfo) :
    ((r.render gst iface vaoCreated player provider pending).player.m_lastSampleCaps.isSome = true →
      (r.render gst iface vaoCreated player provider pending).renderer.m_videoMaterial.m_videoInfo.isSome
        = true) ∧
    (r.render gst iface vaoCreated player provider pending).renderer.m_videoMaterial.uploadedWithVideoInfo := by
  unfold VideoMaterial.uploadedWithVideoInfo at *
  unfold Renderer.render
  cases hm : r.m_mesh with
  | none => simpa [hm] using ⟨h1, h2⟩
  | some mesh =>
    cases hc : mesh.hasContents with
    | false => simpa [hm, hc] using ⟨h1, h2⟩
    | true =>
      cases pending with
      | none =>
        simp only [hm, hc, GStreamerPlayer.pullVideoSample, GStreamerMediaSample.getSample]
        split_ifs <;> exact ⟨h1, h2⟩
      | some s =>
        cases hl : player.m_lastSampleCaps with
        | none =>
          simp [hm, hc, GStreamerPlayer.pullVideoSample, GStreamerMediaSample.getSample, hl,
            GStreamerMediaSample.sampleHasNewCaps, VideoMaterial.setVideoInfo,
            VideoMaterial.setVideoGstbuffer, VideoMaterial.hasVideoGstbuffer]
        | some c =>
          have h3 := h1 (by simp [hl])
          cases he : gst.gst_caps_is_equal c s.caps <;>
          simp [hm, hc, GStreamerPlayer.pullVideoSample, GStreamerMediaSample.getSample, hl, he,
            h3, GStreamerMediaSample.sampleHasNewCaps, VideoMaterial.setVideoInfo,
            VideoMaterial.setVideoGstbuffer, VideoMaterial.hasVideoGstbuffer]

/-- One renderer operation keeps the upload precondition. -/
theorem step_keeps_precondition {P : Type} (gst : GStreamer) (iface : VideoMaterialPrivIFace P)
    (vaoCreated : Bool) (mul : QMatrix4x4 → QMatrix4x4 → QMatrix4x4)
    (getMesh : String → Mesh) (s : Scene P) (op : RendererOp)
    (h1 : s.player.m_lastSampleCaps.isSome = true →
      s.renderer.m_videoMaterial.m_videoInfo.isSome = true)
    (h2 : s.renderer.m_videoMaterial.uploadedWithVideoInfo) :
    ((s.step gst iface vaoCreated mul getMesh op).1.player.m_lastSampleCaps.isSome = true →
      (s.step gst iface vaoCreated mul getMesh op).1.renderer.m_videoMaterial.m_videoInfo.isSome
        = true) ∧
    (s.step gst iface vaoCreated
        mul getMesh op).1.renderer.m_videoMaterial.uploadedWithVideoInfo := by
  cases op with
  | synchronize item =>
    have hs := synchronize_videoInfo mul getMesh s.renderer item
    unfold VideoMaterial.uploadedWithVideoInfo at *
    simp only [Scene.step, hs.1, hs.2]
    exact ⟨h1, h2⟩
  | render pending =>
    exact render_keeps_precondition gst iface vaoCreated s.renderer s.player s.provider pending
      h1 h2
  | createFramebufferObject =>
    unfold VideoMaterial.uploadedWithVideoInfo at *
    simp only [Scene.step, Renderer.createFramebufferObject]
    exact ⟨h1, h2⟩

/-- With a freshly constructed player the upload precondition holds after
every sequence of operations on a new renderer. -/
theorem run_uploadedWithVideoInfo_of_new_player {P : Type} (gst : GStreamer)
    (iface : VideoMaterialPrivIFace P) (vaoCreated : Bool)
        (mul : QMatrix4x4 → QMatrix4x4 → QMatrix4x4)
    (getMesh : String → Mesh)
    (textureId : Nat) (provider : P) (ops : List RendererOp) :
    (Scene.run gst iface vaoCreated mul getMesh
      { renderer := Renderer.new textureId, player := GStreamerPlayer.new, provider := provider }
      ops).renderer.m_videoMaterial.uploadedWithVideoInfo := by
  have key : ∀ (ops : List RendererOp) (s : Scene P),
      (s.player.m_lastSampleCaps.isSome = true →
        s.renderer.m_videoMaterial.m_videoInfo.isSome = true) →
      s.renderer.m_videoMaterial.uploadedWithVideoInfo →
      (Scene.run gst iface vaoCreated
          mul getMesh s ops).renderer.m_videoMaterial.uploadedWithVideoInfo := by
    intro ops
    induction ops with
    | nil => intro s _ h2; exact h2
    | cons op rest ih =>
      intro s h1 h2
      have hstep := step_keeps_precondition gst iface vaoCreated mul getMesh s op h1 h2
      exact ih _ hstep.1 hstep.2
  apply key
  · simp [GStreamerPlayer.new]
  · simp [VideoMaterial.uploadedWithVideoInfo, Renderer.new,
      VideoMaterialProvider.createVideoMaterial, VideoMaterial.new]

/-- The first renderer leaves a player that remembers the caps 7. -/
theorem firstScene_lastSampleCaps : firstScene.player.m_lastSampleCaps = some 7 := by
  simp [firstScene, Scene.run, Scene.step, Renderer.synchronize, Renderer.render, Renderer.new,
    cubeItem, matrix_mul_one_one, matrix_ne_one_one, filledMesh, Mesh.hasContents,
      GStreamerPlayer.pullVideoSample, GStreamerPlayer.new,
    GStreamerMediaSample.getSample, VideoMaterialProvider.createVideoMaterial, VideoMaterial.new,
    VideoMaterial.setCropRectangle, VideoMaterial.setTextureRotation,
    GStreamerMediaSample.sampleHasNewCaps, VideoMaterial.setVideoInfo,
    VideoMaterial.setVideoGstbuffer, VideoMaterial.hasVideoGstbuffer, rgbaGStreamer,
    VideoMaterialProviderGeneric.iface, VideoMaterialProviderGeneric.new,
    VideoMaterialProviderGeneric.uploadGstFrame,
    VideoMaterialProviderGeneric.setVideoInfoChangedFlag]

/-- Claim C3, evaluated where it fails: a renderer created for an item whose
player remembers the caps of an earlier renderer gets the next frame of the
same caps through `setVideoGstbuffer` although its material was never given
a video info; the upload precondition does not hold. -/
theorem secondScene_upload_without_videoInfo :
    secondScene.renderer.m_videoMaterial.m_curBuffer = some 21 ∧
    secondScene.renderer.m_videoMaterial.m_videoInfo.isSome = false ∧
    ¬ secondScene.renderer.m_videoMaterial.uploadedWithVideoInfo := by
  have h : secondScene.renderer.m_videoMaterial.m_curBuffer = some 21 ∧
      secondScene.renderer.m_videoMaterial.m_videoInfo.isSome = false := by
    simp [secondScene, firstScene_lastSampleCaps, Scene.run, Scene.step, Renderer.synchronize,
      Renderer.render, Renderer.new,
      cubeItem, matrix_mul_one_one, matrix_ne_one_one, filledMesh, Mesh.hasContents,
      GStreamerPlayer.pullVideoSample,
      GStreamerMediaSample.getSample, VideoMaterialProvider.createVideoMaterial, VideoMaterial.new,
      VideoMaterial.setCropRectangle, VideoMaterial.setTextureRotation,
      GStreamerMediaSample.sampleHasNewCaps, VideoMaterial.setVideoInfo,
      VideoMaterial.setVideoGstbuffer, VideoMaterial.hasVideoGstbuffer, rgbaGStreamer,
      VideoMaterialProviderGeneric.iface,
      VideoMaterialProviderGeneric.uploadGstFrame,
      VideoMaterialProviderGeneric.setVideoInfoChangedFlag]
  refine ⟨h.1, h.2, ?_⟩
  unfold VideoMaterial.uploadedWithVideoInfo
  rw [h.1, h.2]
  simp

/-! ### Full allocation or sub-region copy in the generic provider -/

/-- The upload test of the claim, read off the last operation: there has been
no upload since the most recent `setVideoInfo` exactly when the operations so
far are empty or end in a `setVideoInfo`. -/
theorem noUploadSinceVideoInfo_eq (before : List MaterialOp) :
    noUploadSinceVideoInfo before = before.getLast?.elim true MaterialOp.isSetVideoInfo := by
  unfold noUploadSinceVideoInfo
  rw [List.getLast?_eq_head?_reverse]
  cases before.reverse with
  | nil => rfl
  | cons op l =>
    cases op <;> simp [MaterialOp.isSetVideoInfo, MaterialOp.isUpload, List.takeWhile]

/-- The last element of a list with one more element in front. -/
theorem getLast?_cons_elim {α β : Type} (a : α) (l : List α) (d : β) (f : α → β) :
    (a :: l).getLast?.elim d f = l.getLast?.elim (f a) f := by
  cases l with
  | nil => rfl
  | cons x xs =>
    rw [List.getLast?_cons_cons, List.getLast?_eq_getLast (x :: xs) (by simp)]
    rfl

/-- The texture name of a material does not change. -/
theorem applyOp_textureId {P : Type} (iface : VideoMaterialPrivIFace P)
    (gst_video_frame_map : Option GstVideoInfo → GstBuffer → GstVideoFrame)
    (provider : P) (m : VideoMaterial) (op : MaterialOp) :
    (m.applyOp iface gst_video_frame_map provider op).2.1.m_textureId = m.m_textureId := by
  cases op <;> rfl

/-- After an operation the flag of the generic provider tells whether the
operation was a `setVideoInfo`. -/
theorem applyOp_generic_flag
    (gst_video_frame_map : Option GstVideoInfo → GstBuffer → GstVideoFrame)
    (provider : VideoMaterialProviderGeneric) (m : VideoMaterial) (op : MaterialOp) :
    (m.applyOp VideoMaterialProviderGeneric.iface gst_video_frame_map provider op).1.m_videoInfoChanged
      = op.isSetVideoInfo := by
  cases op with
  | setVideoInfo info => rfl
  | setVideoGstbuffer b =>
    simp only [VideoMaterial.applyOp, VideoMaterial.setVideoGstbuffer,
      VideoMaterialProviderGeneric.iface, VideoMaterialProviderGeneric.uploadGstFrame,
      MaterialOp.isSetVideoInfo]
    by_cases h : provider.m_videoInfoChanged = true <;> simp [h]

/-- The calls of upload number `i` in a sequence of operations that starts from
any state of the generic provider. -/
theorem runOps_generic_getElem?
    (gst_video_frame_map : Option GstVideoInfo → GstBuffer → GstVideoFrame)
    (ops : List MaterialOp) :
    ∀ (provider : VideoMaterialProviderGeneric) (m : VideoMaterial) (i : Nat) (b : GstBuffer),
      ops[i]? = some (MaterialOp.setVideoGstbuffer b) →
      ∃ w h : Nat,
        (VideoMaterial.runOps VideoMaterialProviderGeneric.iface gst_video_frame_map
          provider m ops)[i]? =
        some [Call.glActiveTexture0, Call.glBindTexture m.m_textureId,
          (if (ops.take i).getLast?.elim provider.m_videoInfoChanged MaterialOp.isSetVideoInfo
            then Call.glTexImage2D w h else Call.glTexSubImage2D w h),
          Call.glBindTexture 0] := by
  induction ops with
  | nil => intro provider m i b h; simp at h
  | cons op rest ih =>
    intro provider m i b h
    cases i with
    | zero =>
      simp only [List.getElem?_cons_zero, Option.some.injEq] at h
      subst h
      simp only [VideoMaterial.runOps, VideoMaterial.applyOp, VideoMaterial.setVideoGstbuffer,
        VideoMaterialProviderGeneric.iface, VideoMaterialProviderGeneric.uploadGstFrame,
        List.getElem?_cons_zero, List.take_zero, List.getLast?_nil, Option.elim]
      split_ifs <;> exact ⟨_, _, rfl⟩
    | succ i =>
      simp only [List.getElem?_cons_succ] at h
      obtain ⟨w, h', hcalls⟩ := ih
        (m.applyOp VideoMaterialProviderGeneric.iface gst_video_frame_map provider op).1
        (m.applyOp VideoMaterialProviderGeneric.iface gst_video_frame_map provider op).2.1 i b h
      refine ⟨w, h', ?_⟩
      simp only [VideoMaterial.runOps, List.getElem?_cons_succ, hcalls, applyOp_textureId,
        applyOp_generic_flag, List.take_succ_cons]
      simp only [getLast?_cons_elim]

/-- Claim C4: in every sequence of `setVideoInfo` and upload operations on the
single material of a generic provider, an upload issues `glTexImage2D` when no
upload has happened since the construction of the provider or since the most
recent `setVideoInfo`, and `glTexSubImage2D` in every other case; it is
the only texture call between binding and unbinding the texture of the material. -/
theorem generic_upload_texImage2D_iff
    (gst_video_frame_map : Option GstVideoInfo → GstBuffer → GstVideoFrame)
    (m : VideoMaterial) (ops : List MaterialOp) (i : Nat) (b : GstBuffer)
    (hop : ops[i]? = some (MaterialOp.setVideoGstbuffer b)) :
    ∃ (calls : List Call) (upload : Call),
      (VideoMaterial.runOps VideoMaterialProviderGeneric.iface gst_video_frame_map
        VideoMaterialProviderGeneric.new m ops)[i]? = some calls ∧
      calls = [Call.glActiveTexture0, Call.glBindTexture m.m_textureId, upload,
        Call.glBindTexture 0] ∧
      (upload.isTexImage2D = true ↔ noUploadSinceVideoInfo (ops.take i) = true) ∧
      (upload.isTexSubImage2D = true ↔ noUploadSinceVideoInfo (ops.take i) = false) := by
  obtain ⟨w, h, hcalls⟩ := runOps_generic_getElem? gst_video_frame_map ops
    VideoMaterialProviderGeneric.new m i b hop
  refine ⟨_, _, hcalls, rfl, ?_, ?_⟩ <;>
  · rw [noUploadSinceVideoInfo_eq]
    simp only [VideoMaterialProviderGeneric.new]
    split_ifs with hc <;> simp [Call.isTexImage2D, Call.isTexSubImage2D, hc]


/-- Witness of claim C4: a `setVideoInfo` followed by two uploads; the
second upload is the operation at index 2. -/
theorem generic_upload_texImage2D_iff_witness :
    [MaterialOp.setVideoInfo (rgbaFrame 4 4 4 4).info, MaterialOp.setVideoGstbuffer 10,
      MaterialOp.setVideoGstbuffer 11][2]? = some (MaterialOp.setVideoGstbuffer 11) ∧
    ∃ (calls : List Call) (upload : Call),
      (VideoMaterial.runOps VideoMaterialProviderGeneric.iface (fun _ _ => rgbaFrame 4 4 4 4)
        VideoMaterialProviderGeneric.new (VideoMaterial.new 1)
        [MaterialOp.setVideoInfo (rgbaFrame 4 4 4 4).info, MaterialOp.setVideoGstbuffer 10,
          MaterialOp.setVideoGstbuffer 11])[2]? = some calls ∧
      calls = [Call.glActiveTexture0, Call.glBindTexture (VideoMaterial.new 1).m_textureId, upload,
        Call.glBindTexture 0] ∧
      (upload.isTexImage2D = true ↔
        noUploadSinceVideoInfo
          ([MaterialOp.setVideoInfo (rgbaFrame 4 4 4 4).info, MaterialOp.setVideoGstbuffer 10,
            MaterialOp.setVideoGstbuffer 11].take 2) = true) ∧
      (upload.isTexSubImage2D = true ↔
        noUploadSinceVideoInfo
          ([MaterialOp.setVideoInfo (rgbaFrame 4 4 4 4).info, MaterialOp.setVideoGstbuffer 10,
            MaterialOp.setVideoGstbuffer 11].take 2) = false) :=
  ⟨rfl, generic_upload_texImage2D_iff (fun _ _ => rgbaFrame 4 4 4 4) (VideoMaterial.new 1)
    [MaterialOp.setVideoInfo (rgbaFrame 4 4 4 4).info, MaterialOp.setVideoGstbuffer 10,
      MaterialOp.setVideoGstbuffer 11] 2 11 rfl⟩

/-! ### Several materials on one generic provider -/

/-- Conversion to `guint` of a value in range. -/
theorem toGuint_of_lt (x : Int) (h0 : 0 ≤ x) (h1 : x < 2 ^ 32) : toGuint x = x.toNat := by
  unfold toGuint
  rw [Int.emod_eq_of_lt h0 h1]

/-- Conversion to `gsize` of a value in range. -/
theorem toGsize_of_lt (x : Int) (h0 : 0 ≤ x) (h1 : x < 2 ^ 64) : toGsize x = x.toNat := by
  unfold toGsize
  rw [Int.emod_eq_of_lt h0 h1]

/-- Claim C5, evaluated where it fails: two materials (textures 1 and 2) of one
generic provider each get `setVideoInfo` and then their first upload.  The
first upload into texture 1 is a `glTexImage2D`; it clears the flag of the
provider, so the first upload into texture 2 is a `glTexSubImage2D`. -/
theorem shared_generic_first_upload_is_subimage :
    VideoMaterial.runSharedOps VideoMaterialProviderGeneric.iface (fun _ _ => rgbaFrame 4 4 4 4)
      VideoMaterialProviderGeneric.new (fun k => VideoMaterial.new (k + 1))
      [(0, MaterialOp.setVideoInfo (rgbaFrame 4 4 4 4).info),
       (1, MaterialOp.setVideoInfo (rgbaFrame 4 4 4 4).info),
       (0, MaterialOp.setVideoGstbuffer 10),
       (1, MaterialOp.setVideoGstbuffer 11)] =
    [[], [],
     [Call.glActiveTexture0, Call.glBindTexture 1, Call.glTexImage2D 4 4, Call.glBindTexture 0],
     [Call.glActiveTexture0, Call.glBindTexture 2, Call.glTexSubImage2D 4 4,
       Call.glBindTexture 0]] := by
  have h4 : toGuint 4 = 4 := by decide
  have h16 : toGuint (Int.tdiv 16 4) = 4 := by decide
  simp [VideoMaterial.runSharedOps, VideoMaterial.applyOp, VideoMaterial.setVideoInfo,
    VideoMaterial.setVideoGstbuffer, VideoMaterialProviderGeneric.iface,
    VideoMaterialProviderGeneric.new, VideoMaterialProviderGeneric.uploadGstFrame,
    VideoMaterialProviderGeneric.setVideoInfoChangedFlag, VideoMaterial.new, rgbaFrame,
    Function.update, h4, h16]


/-! ### Frame and total sizes -/

/-- Conversion to `guint` of a natural number in range. -/
theorem toGuint_natCast (n : Nat) (h : n < 2 ^ 32) : toGuint (n : Int) = n := by
  rw [toGuint_of_lt _ (Int.natCast_nonneg n) (by exact_mod_cast h)]
  simp

/-- Conversion to `gsize` of the difference of two ordered offsets. -/
theorem toGsize_sub (a b : Nat) (hab : a ≤ b) (hb : b < 2 ^ 64) :
    toGsize ((b : Int) - (a : Int)) = b - a := by
  have h1 : ((b : Int) - (a : Int)) = ((b - a : Nat) : Int) := by omega
  rw [h1, toGsize_of_lt _ (Int.natCast_nonneg _) (by exact_mod_cast (by omega : b - a < 2 ^ 64))]
  simp

/-- The four sizes that `setVideoGstbuffer` computes, for a frame whose video
info is in range, in exact arithmetic. -/
theorem sizes_of_inRange (info : GstVideoInfo) (hr : info.inRange) :
    toGuint info.width = info.width.toNat ∧
    toGuint info.height = info.height.toNat ∧
    toGuint (Int.tdiv (info.stride 0) (info.comp_pstride 0)) =
      (info.stride 0).toNat / (info.comp_pstride 0).toNat ∧
    (1 < info.n_planes →
      toGuint ((toGsize ((info.offset 1 : Int) - (info.offset 0 : Int)) /
          toGsize (info.stride 0) : Nat) : Int) =
        (info.offset 1 - info.offset 0) / (info.stride 0).toNat) := by
  obtain ⟨hw0, hw1, hh0, hh1, hp, hs0, hs1, hplanes⟩ := hr
  refine ⟨toGuint_of_lt _ hw0 (by omega), toGuint_of_lt _ hh0 (by omega), ?_, ?_⟩
  · generalize info.stride 0 = s at *
    generalize info.comp_pstride 0 = p at *
    obtain ⟨s', rfl⟩ := Int.eq_ofNat_of_zero_le hs0
    obtain ⟨p', rfl⟩ := Int.eq_ofNat_of_zero_le hp.le
    rw [Int.tdiv_eq_ediv hs0 hp.le]
    have hcast : ((s' : Int) / (p' : Int)) = ((s' / p' : Nat) : Int) :=
      (Int.natCast_div s' p').symm
    have hle : s' / p' ≤ s' := Nat.div_le_self _ _
    have hs' : s' < 2 ^ 31 := by exact_mod_cast hs1
    rw [hcast, toGuint_natCast _ (by omega)]
    simp
  · intro hn
    obtain ⟨hs, ho, ho1, hq⟩ := hplanes hn
    rw [toGsize_sub _ _ ho ho1, toGsize_of_lt _ hs0 (by omega), toGuint_natCast _ hq]

/-- Claim C6: for a mapped frame whose video info is in range,
`setVideoGstbuffer` sets the frame width and height to the width and height of
the frame, the total width to the stride of plane 0 divided by the pixel
stride of component 0, and the total height to the distance of the offsets of
planes 1 and 0 divided by the stride of plane 0 when the frame has more than
one plane and to the frame height otherwise; the divisions round down. -/
theorem setVideoGstbuffer_sizes {P : Type} (iface : VideoMaterialPrivIFace P)
    (gst_video_frame_map : Option GstVideoInfo → GstBuffer → GstVideoFrame)
    (provider : P) (m : VideoMaterial) (p_buffer : GstBuffer)
    (hr : (gst_video_frame_map m.m_videoInfo p_buffer).info.inRange) :
    (m.setVideoGstbuffer iface gst_video_frame_map provider p_buffer).2.1.m_frameWidth =
      (gst_video_frame_map m.m_videoInfo p_buffer).info.width.toNat ∧
    (m.setVideoGstbuffer iface gst_video_frame_map provider p_buffer).2.1.m_frameHeight =
      (gst_video_frame_map m.m_videoInfo p_buffer).info.height.toNat ∧
    (m.setVideoGstbuffer iface gst_video_frame_map provider p_buffer).2.1.m_totalWidth =
      ((gst_video_frame_map m.m_videoInfo p_buffer).info.stride 0).toNat /
        ((gst_video_frame_map m.m_videoInfo p_buffer).info.comp_pstride 0).toNat ∧
    (m.setVideoGstbuffer iface gst_video_frame_map provider p_buffer).2.1.m_totalHeight =
      (if 1 < (gst_video_frame_map m.m_videoInfo p_buffer).info.n_planes then
        ((gst_video_frame_map m.m_videoInfo p_buffer).info.offset 1 -
          (gst_video_frame_map m.m_videoInfo p_buffer).info.offset 0) /
          ((gst_video_frame_map m.m_videoInfo p_buffer).info.stride 0).toNat
      else (gst_video_frame_map m.m_videoInfo p_buffer).info.height.toNat) := by
  obtain ⟨h1, h2, h3, h4⟩ := sizes_of_inRange _ hr
  refine ⟨h1, h2, h3, ?_⟩
  simp only [VideoMaterial.setVideoGstbuffer, gt_iff_lt]
  split_ifs with hn
  · exact h4 hn
  · exact h2

/-- The example frame with two planes is in range. -/
theorem paddedTwoPlaneFrame_inRange : paddedTwoPlaneFrame.info.inRange := by
  simp only [GstVideoInfo.inRange, paddedTwoPlaneFrame]
  decide


/-- Witness of claim C6: the frame with two planes, 509 x 240 pixels in rows of
512 bytes, second plane 256 rows after the first. -/
theorem setVideoGstbuffer_sizes_witness :
    paddedTwoPlaneFrame.info.inRange ∧
    ((VideoMaterial.new 1).setVideoGstbuffer VideoMaterialProviderGeneric.iface
      (fun _ _ => paddedTwoPlaneFrame) VideoMaterialProviderGeneric.new 10).2.1.m_frameWidth
      = 509 ∧
    ((VideoMaterial.new 1).setVideoGstbuffer VideoMaterialProviderGeneric.iface
      (fun _ _ => paddedTwoPlaneFrame) VideoMaterialProviderGeneric.new 10).2.1.m_frameHeight
      = 240 ∧
    ((VideoMaterial.new 1).setVideoGstbuffer VideoMaterialProviderGeneric.iface
      (fun _ _ => paddedTwoPlaneFrame) VideoMaterialProviderGeneric.new 10).2.1.m_totalWidth
      = 512 ∧
    ((VideoMaterial.new 1).setVideoGstbuffer VideoMaterialProviderGeneric.iface
      (fun _ _ => paddedTwoPlaneFrame) VideoMaterialProviderGeneric.new 10).2.1.m_totalHeight
      = 256 := by
  have h := setVideoGstbuffer_sizes VideoMaterialProviderGeneric.iface
    (fun _ _ => paddedTwoPlaneFrame) VideoMaterialProviderGeneric.new (VideoMaterial.new 1) 10
    paddedTwoPlaneFrame_inRange
  refine ⟨paddedTwoPlaneFrame_inRange, ?_⟩
  simpa [paddedTwoPlaneFrame] using h

/-- Claim C7 as stated fails: an RGBA frame of 2 x 2 visible pixels in a
memory block of 2 x 3 pixels gives the total height 2 after an upload through
the generic provider, not 3. -/
theorem rgba_padded_rows_counterexample :
    ¬ (((VideoMaterial.new 1).setVideoGstbuffer VideoMaterialProviderGeneric.iface
          (fun _ _ => rgbaFrame 2 2 2 3) VideoMaterialProviderGeneric.new 10).2.1.m_frameWidth = 2 ∧
       ((VideoMaterial.new 1).setVideoGstbuffer VideoMaterialProviderGeneric.iface
          (fun _ _ => rgbaFrame 2 2 2 3) VideoMaterialProviderGeneric.new 10).2.1.m_frameHeight = 2 ∧
       ((VideoMaterial.new 1).setVideoGstbuffer VideoMaterialProviderGeneric.iface
          (fun _ _ => rgbaFrame 2 2 2 3) VideoMaterialProviderGeneric.new 10).2.1.m_totalWidth = 2 ∧
       ((VideoMaterial.new 1).setVideoGstbuffer VideoMaterialProviderGeneric.iface
          (fun _ _ => rgbaFrame 2 2 2 3) VideoMaterialProviderGeneric.new 10).2.1.m_totalHeight = 3) := by
  have h2 : toGuint 2 = 2 := by decide
  simp [VideoMaterial.setVideoGstbuffer, rgbaFrame, h2]

/-- An RGBA frame whose row stride fits a `gint` has a video info in range. -/
theorem rgbaFrame_inRange (W H W' H' : Nat) (hW : W ≤ W') (hs : 4 * W' < 2 ^ 31)
    (hh : H < 2 ^ 31) : (rgbaFrame W H W' H').info.inRange := by
  simp only [GstVideoInfo.inRange, rgbaFrame]
  refine ⟨by omega, by omega, by omega, by omega, by omega, by omega, by omega, ?_⟩
  intro h
  omega

/-- Claim C7, amended: for an RGBA frame of visible size `W` x `H` in a memory
block of `W'` x `H'` pixels (`W ≤ W'`, `H ≤ H'`, row stride and height in the
`gint` range), an upload through the generic provider leaves the frame width
`W`, the frame height `H`, the total width `W'` and the total height `H`: a
frame with one plane has its total height set to the frame height. -/
theorem rgba_upload_sizes (provider : VideoMaterialProviderGeneric) (m : VideoMaterial)
    (p_buffer : GstBuffer) (W H W' H' : Nat) (hW : W ≤ W') (_hH : H ≤ H')
    (hs : 4 * W' < 2 ^ 31) (hh : H < 2 ^ 31) :
    (m.setVideoGstbuffer VideoMaterialProviderGeneric.iface (fun _ _ => rgbaFrame W H W' H')
      provider p_buffer).2.1.m_frameWidth = W ∧
    (m.setVideoGstbuffer VideoMaterialProviderGeneric.iface (fun _ _ => rgbaFrame W H W' H')
      provider p_buffer).2.1.m_frameHeight = H ∧
    (m.setVideoGstbuffer VideoMaterialProviderGeneric.iface (fun _ _ => rgbaFrame W H W' H')
      provider p_buffer).2.1.m_totalWidth = W' ∧
    (m.setVideoGstbuffer VideoMaterialProviderGeneric.iface (fun _ _ => rgbaFrame W H W' H')
      provider p_buffer).2.1.m_totalHeight = H := by
  obtain ⟨h1, h2, h3, -⟩ := sizes_of_inRange _ (rgbaFrame_inRange W H W' H' hW hs hh)
  simp only [rgbaFrame] at h1 h2 h3
  have h3' : toGuint (Int.tdiv (4 * (W' : Int)) 4) = W' := by
    rw [h3]
    have : (4 * (W' : Int)).toNat = 4 * W' := by omega
    rw [this]
    have : (4 : Int).toNat = 4 := rfl
    rw [this]
    omega
  simp only [VideoMaterial.setVideoGstbuffer, rgbaFrame, h1, h2, h3']
  simp

/-- Witness of claim C7 as amended: 509 x 240 visible pixels in a block of
512 x 256 pixels. -/
theorem rgba_upload_sizes_witness :
    509 ≤ 512 ∧ 240 ≤ 256 ∧ 4 * 512 < 2 ^ 31 ∧ 240 < 2 ^ 31 ∧
    ((VideoMaterial.new 1).setVideoGstbuffer VideoMaterialProviderGeneric.iface
      (fun _ _ => rgbaFrame 509 240 512 256) VideoMaterialProviderGeneric.new 10).2.1.m_frameWidth
      = 509 ∧
    ((VideoMaterial.new 1).setVideoGstbuffer VideoMaterialProviderGeneric.iface
      (fun _ _ => rgbaFrame 509 240 512 256) VideoMaterialProviderGeneric.new 10).2.1.m_frameHeight
      = 240 ∧
    ((VideoMaterial.new 1).setVideoGstbuffer VideoMaterialProviderGeneric.iface
      (fun _ _ => rgbaFrame 509 240 512 256) VideoMaterialProviderGeneric.new 10).2.1.m_totalWidth
      = 512 ∧
    ((VideoMaterial.new 1).setVideoGstbuffer VideoMaterialProviderGeneric.iface
      (fun _ _ => rgbaFrame 509 240 512 256) VideoMaterialProviderGeneric.new 10).2.1.m_totalHeight
      = 240 :=
  ⟨by decide, by decide, by decide, by decide,
    rgba_upload_sizes VideoMaterialProviderGeneric.new (VideoMaterial.new 1) 10 509 240 512 256
      (by decide) (by decide) (by decide) (by decide)⟩


/-- A quotient of natural numbers with numerator at most the denominator is at
most 1, in the rationals. -/
theorem ratio_le_one (a b : Nat) (h : a ≤ b) : (a : ℚ) / (b : ℚ) ≤ 1 :=
  div_le_one_of_le₀ (by exact_mod_cast h) (Nat.cast_nonneg b)

/-- Claim C8: after `setVideoGstbuffer` with a frame (video info in range)
whose plane 0 stride is at least the width times the pixel stride and, when it
has more than one plane, whose plane 1 offset is at least the plane 0 offset
plus the height times the plane 0 stride, the frame width is at most the total
width and the frame height at most the total height, so both ratios that
`setShaderUniformValues` uses as scale are at most 1. -/
theorem setVideoGstbuffer_frame_le_total {P : Type} (iface : VideoMaterialPrivIFace P)
    (gst_video_frame_map : Option GstVideoInfo → GstBuffer → GstVideoFrame)
    (provider : P) (m : VideoMaterial) (p_buffer : GstBuffer)
    (hr : (gst_video_frame_map m.m_videoInfo p_buffer).info.inRange)
    (hstride : (gst_video_frame_map m.m_videoInfo p_buffer).info.width *
        (gst_video_frame_map m.m_videoInfo p_buffer).info.comp_pstride 0 ≤
      (gst_video_frame_map m.m_videoInfo p_buffer).info.stride 0)
    (hoffset : 1 < (gst_video_frame_map m.m_videoInfo p_buffer).info.n_planes →
      ((gst_video_frame_map m.m_videoInfo p_buffer).info.offset 0 : Int) +
        (gst_video_frame_map m.m_videoInfo p_buffer).info.height *
          (gst_video_frame_map m.m_videoInfo p_buffer).info.stride 0 ≤
      ((gst_video_frame_map m.m_videoInfo p_buffer).info.offset 1 : Int)) :
    (m.setVideoGstbuffer iface gst_video_frame_map provider p_buffer).2.1.m_frameWidth ≤
      (m.setVideoGstbuffer iface gst_video_frame_map provider p_buffer).2.1.m_totalWidth ∧
    (m.setVideoGstbuffer iface gst_video_frame_map provider p_buffer).2.1.m_frameHeight ≤
      (m.setVideoGstbuffer iface gst_video_frame_map provider p_buffer).2.1.m_totalHeight ∧
    ((m.setVideoGstbuffer iface gst_video_frame_map provider p_buffer).2.1.m_frameWidth : ℚ) /
      ((m.setVideoGstbuffer iface gst_video_frame_map provider p_buffer).2.1.m_totalWidth : ℚ)
      ≤ 1 ∧
    ((m.setVideoGstbuffer iface gst_video_frame_map provider p_buffer).2.1.m_frameHeight : ℚ) /
      ((m.setVideoGstbuffer iface gst_video_frame_map provider p_buffer).2.1.m_totalHeight : ℚ)
      ≤ 1 := by
  have key :
      (m.setVideoGstbuffer iface gst_video_frame_map provider p_buffer).2.1.m_frameWidth ≤
        (m.setVideoGstbuffer iface gst_video_frame_map provider p_buffer).2.1.m_totalWidth ∧
      (m.setVideoGstbuffer iface gst_video_frame_map provider p_buffer).2.1.m_frameHeight ≤
        (m.setVideoGstbuffer iface gst_video_frame_map provider p_buffer).2.1.m_totalHeight := by
    obtain ⟨h1, h2, h3, h4⟩ := sizes_of_inRange _ hr
    obtain ⟨hw0, hw1, hh0, hh1, hp, hs0, hs1, hplanes⟩ := hr
    simp only [VideoMaterial.setVideoGstbuffer, gt_iff_lt, h1, h2, h3]
    generalize (gst_video_frame_map m.m_videoInfo p_buffer).info = info at *
    constructor
    · rw [Nat.le_div_iff_mul_le (by omega)]
      have : ((info.width.toNat * (info.comp_pstride 0).toNat : Nat) : Int) ≤
          ((info.stride 0).toNat : Int) := by
        rw [Nat.cast_mul, Int.toNat_of_nonneg hw0, Int.toNat_of_nonneg hp.le,
          Int.toNat_of_nonneg hs0]
        exact hstride
      exact_mod_cast this
    · split_ifs with hn
      · obtain ⟨hs, ho, ho1, hq⟩ := hplanes hn
        rw [h4 hn, Nat.le_div_iff_mul_le (by omega)]
        have h5 := hoffset hn
        have : ((info.height.toNat * (info.stride 0).toNat : Nat) : Int) ≤
            ((info.offset 1 - info.offset 0 : Nat) : Int) := by
          rw [Nat.cast_mul, Int.toNat_of_nonneg hh0, Int.toNat_of_nonneg hs0, Nat.cast_sub ho]
          linarith
        exact_mod_cast this
      · exact le_refl _
  exact ⟨key.1, key.2, ratio_le_one _ _ key.1, ratio_le_one _ _ key.2⟩

/-- Witness of claim C8: the frame with two planes, 509 x 240 pixels in rows of
512 bytes, second plane 256 rows after the first. -/
theorem setVideoGstbuffer_frame_le_total_witness :
    paddedTwoPlaneFrame.info.inRange ∧
    paddedTwoPlaneFrame.info.width * paddedTwoPlaneFrame.info.comp_pstride 0 ≤
      paddedTwoPlaneFrame.info.stride 0 ∧
    (1 < paddedTwoPlaneFrame.info.n_planes →
      (paddedTwoPlaneFrame.info.offset 0 : Int) +
        paddedTwoPlaneFrame.info.height * paddedTwoPlaneFrame.info.stride 0 ≤
      (paddedTwoPlaneFrame.info.offset 1 : Int)) ∧
    ((VideoMaterial.new 1).setVideoGstbuffer VideoMaterialProviderGeneric.iface
        (fun _ _ => paddedTwoPlaneFrame) VideoMaterialProviderGeneric.new 10).2.1.m_frameWidth ≤
      ((VideoMaterial.new 1).setVideoGstbuffer VideoMaterialProviderGeneric.iface
        (fun _ _ => paddedTwoPlaneFrame) VideoMaterialProviderGeneric.new 10).2.1.m_totalWidth ∧
    ((VideoMaterial.new 1).setVideoGstbuffer VideoMaterialProviderGeneric.iface
        (fun _ _ => paddedTwoPlaneFrame) VideoMaterialProviderGeneric.new 10).2.1.m_frameHeight ≤
      ((VideoMaterial.new 1).setVideoGstbuffer VideoMaterialProviderGeneric.iface
        (fun _ _ => paddedTwoPlaneFrame) VideoMaterialProviderGeneric.new 10).2.1.m_totalHeight ∧
    (((VideoMaterial.new 1).setVideoGstbuffer VideoMaterialProviderGeneric.iface
        (fun _ _ => paddedTwoPlaneFrame) VideoMaterialProviderGeneric.new 10).2.1.m_frameWidth : ℚ) /
      (((VideoMaterial.new 1).setVideoGstbuffer VideoMaterialProviderGeneric.iface
        (fun _ _ => paddedTwoPlaneFrame) VideoMaterialProviderGeneric.new 10).2.1.m_totalWidth : ℚ)
      ≤ 1 ∧
    (((VideoMaterial.new 1).setVideoGstbuffer VideoMaterialProviderGeneric.iface
        (fun _ _ => paddedTwoPlaneFrame) VideoMaterialProviderGeneric.new 10).2.1.m_frameHeight : ℚ) /
      (((VideoMaterial.new 1).setVideoGstbuffer VideoMaterialProviderGeneric.iface
        (fun _ _ => paddedTwoPlaneFrame) VideoMaterialProviderGeneric.new 10).2.1.m_totalHeight : ℚ)
      ≤ 1 :=
  ⟨paddedTwoPlaneFrame_inRange, by decide, by decide,
    setVideoGstbuffer_frame_le_total VideoMaterialProviderGeneric.iface
      (fun _ _ => paddedTwoPlaneFrame) VideoMaterialProviderGeneric.new (VideoMaterial.new 1) 10
      paddedTwoPlaneFrame_inRange (by decide) (by decide)⟩


/-! ### Crop values passed to the shader -/

/-- The sizes of the example material of the generic provider with the crop
rectangle (10, 20, 30, 40). -/
theorem croppedRgbaMaterial_sizes :
    croppedRgbaMaterial.m_frameWidth = 4 ∧ croppedRgbaMaterial.m_totalWidth = 8 ∧
    croppedRgbaMaterial.m_frameHeight = 4 ∧ croppedRgbaMaterial.m_totalHeight = 4 ∧
    croppedRgbaMaterial.m_cropRectangle = { x := 10, y := 20, width := 30, height := 40 } ∧
    croppedRgbaMaterial.m_textureRotationMatrix = QMatrix2x2.identity := by
  have h4 : toGuint 4 = 4 := by decide
  have h8 : toGuint (Int.tdiv 32 4) = 8 := by decide
  simp [croppedRgbaMaterial, VideoMaterial.setVideoGstbuffer, VideoMaterial.setCropRectangle,
    rgbaFrame, VideoMaterial.new, h4, h8]

/-- The sizes of the example material with 1366 visible columns of 1376. -/
theorem wideRgbaMaterial_sizes :
    wideRgbaMaterial.m_frameWidth = 1366 ∧ wideRgbaMaterial.m_totalWidth = 1376 ∧
    wideRgbaMaterial.m_frameHeight = 768 ∧ wideRgbaMaterial.m_totalHeight = 768 ∧
    wideRgbaMaterial.m_cropRectangle = { x := 0, y := 0, width := 100, height := 100 } ∧
    wideRgbaMaterial.m_textureRotationMatrix = QMatrix2x2.identity := by
  have h1 : toGuint 1366 = 1366 := by decide
  have h2 : toGuint 768 = 768 := by decide
  have h3 : toGuint (Int.tdiv 5504 4) = 1376 := by decide
  simp [wideRgbaMaterial, VideoMaterial.setVideoGstbuffer, VideoMaterial.setCropRectangle,
    rgbaFrame, VideoMaterial.new, h1, h2, h3]

/-- Claim C9 as stated fails: the crop values are computed in `float`.  For
1366 visible columns of 1376 and the crop rectangle (0, 0, 100, 100) the crop
width passed is the float 16655289 / 2^24, not 1366 / 1376; and for 4 visible
columns of 8 and the crop rectangle (10, 20, 30, 40) the crop width passed is
the float 5033165 / 2^25, not min (30 / 100) (1 - 10 / 100) * 4 / 8. -/
theorem setShaderUniformValues_exact_counterexample :
    0 < wideRgbaMaterial.m_totalWidth ∧ 0 < wideRgbaMaterial.m_totalHeight ∧
    wideRgbaMaterial.m_cropRectangle = { x := 0, y := 0, width := 100, height := 100 } ∧
    wideRgbaMaterial.m_frameWidth = 1366 ∧ wideRgbaMaterial.m_totalWidth = 1376 ∧
    VideoMaterialProvider.setShaderUniformValues wideRgbaMaterial =
      [Call.setCropRectangleUniform (float.finite 0) (float.finite 0)
        (float.finite (16655289 / 16777216)) (float.finite 1),
       Call.setTextureRotationMatrixUniform QMatrix2x2.identity] ∧
    (16655289 / 16777216 : ℚ) ≠ 1366 / 1376 ∧
    croppedRgbaMaterial.m_cropRectangle = { x := 10, y := 20, width := 30, height := 40 } ∧
    croppedRgbaMaterial.m_frameWidth = 4 ∧ croppedRgbaMaterial.m_totalWidth = 8 ∧
    VideoMaterialProvider.setShaderUniformValues croppedRgbaMaterial =
      [Call.setCropRectangleUniform (float.finite (13421773 / 268435456))
        (float.finite (13421773 / 134217728)) (float.finite (5033165 / 33554432))
        (float.finite (13421773 / 33554432)),
       Call.setTextureRotationMatrixUniform QMatrix2x2.identity] ∧
    (5033165 / 33554432 : ℚ) ≠ min (30 / 100) (1 - 10 / 100) * (4 / 8) := by
  obtain ⟨h1, h2, h3, h4, h5, h6⟩ := wideRgbaMaterial_sizes
  obtain ⟨k1, k2, k3, k4, k5, k6⟩ := croppedRgbaMaterial_sizes
  have a1 : float.mul (float.div (float.ofInt 0) (float.finite 100))
      (float.div (float.ofNat 1366) (float.ofNat 1376)) = float.finite 0 := by decide!
  have a2 : float.mul
      (float.min (float.div (float.ofInt 100) (float.finite 100))
        (float.sub (float.finite 1) (float.div (float.ofInt 0) (float.finite 100))))
      (float.div (float.ofNat 1366) (float.ofNat 1376)) =
        float.finite (16655289 / 16777216) := by decide!
  have a3 : float.mul
      (float.min (float.div (float.ofInt 100) (float.finite 100))
        (float.sub (float.finite 1) (float.div (float.ofInt 0) (float.finite 100))))
      (float.div (float.ofNat 768) (float.ofNat 768)) = float.finite 1 := by decide!
  have b1 : float.mul (float.div (float.ofInt 10) (float.finite 100))
      (float.div (float.ofNat 4) (float.ofNat 8)) = float.finite (13421773 / 268435456) := by
    decide!
  have b2 : float.mul (float.div (float.ofInt 20) (float.finite 100))
      (float.div (float.ofNat 4) (float.ofNat 8)) = float.finite (13421773 / 134217728) := by
    decide!
  have b3 : float.mul
      (float.min (float.div (float.ofInt 30) (float.finite 100))
        (float.sub (float.finite 1) (float.div (float.ofInt 10) (float.finite 100))))
      (float.div (float.ofNat 4) (float.ofNat 8)) = float.finite (5033165 / 33554432) := by
    decide!
  have b4 : float.mul
      (float.min (float.div (float.ofInt 40) (float.finite 100))
        (float.sub (float.finite 1) (float.div (float.ofInt 20) (float.finite 100))))
      (float.div (float.ofNat 4) (float.ofNat 4)) = float.finite (13421773 / 33554432) := by
    decide!
  refine ⟨by rw [h2]; decide, by rw [h4]; decide, h5, h1, h2, ?_, by norm_num, k5, k1, k2, ?_,
    by norm_num⟩
  · simp only [VideoMaterialProvider.setShaderUniformValues, h1, h2, h3, h4, h5, h6, a1, a2, a3]
  · simp only [VideoMaterialProvider.setShaderUniformValues, k1, k2, k3, k4, k5, k6, b1, b2, b3,
      b4]

/-- The crop values for the crop rectangle (0, 0, 100, 100): the offsets are 0
and the sizes are the float quotients of the sizes of the material. -/
theorem setShaderUniformValues_full_crop (m : VideoMaterial)
    (hc : m.m_cropRectangle = { x := 0, y := 0, width := 100, height := 100 })
    (htw : 0 < m.m_totalWidth) (hth : 0 < m.m_totalHeight)
    (hfw32 : m.m_frameWidth < 2 ^ 32) (htw32 : m.m_totalWidth < 2 ^ 32)
    (hfh32 : m.m_frameHeight < 2 ^ 32) (hth32 : m.m_totalHeight < 2 ^ 32) :
    VideoMaterialProvider.setShaderUniformValues m =
      [Call.setCropRectangleUniform (float.finite 0) (float.finite 0)
        (float.div (float.ofNat m.m_frameWidth) (float.ofNat m.m_totalWidth))
        (float.div (float.ofNat m.m_frameHeight) (float.ofNat m.m_totalHeight)),
       Call.setTextureRotationMatrixUniform m.m_textureRotationMatrix] := by
  obtain ⟨sw, hsw, hsw', _⟩ := div_ofNat_finite _ _ hfw32 htw32 htw
  obtain ⟨sh, hsh, hsh', _⟩ := div_ofNat_finite _ _ hfh32 hth32 hth
  have e0 : float.div (float.ofInt 0) (float.finite 100) = float.finite 0 := by decide!
  have e1 : float.min (float.div (float.ofInt 100) (float.finite 100))
      (float.sub (float.finite 1) (float.finite 0)) = float.finite 1 := by decide!
  simp only [VideoMaterialProvider.setShaderUniformValues, hc, e0, e1, hsw, hsh]
  simp only [float.mul, zero_mul, one_mul, ofRat_zero, hsw', hsh']

/-- Claim C9, amended: for a material whose sizes are unsigned 32-bit values
with positive total width and height, `setShaderUniformValues` passes, for the
crop rectangle (0, 0, 100, 100), the crop vector with offsets 0 and with the
float quotients frameWidth / totalWidth and frameHeight / totalHeight as
sizes; with total width 512 and frame width 509 the crop width is 509 / 512;
for every crop rectangle (x, y, cw, ch) the width passed is the float product
of the float minimum of cw / 100 and 1 - x / 100 and the float quotient
frameWidth / totalWidth; the float quotient of two sizes below 2^24 is the
exact quotient when that is a float value, and for a frame width that is not
0 it differs from the exact quotient by at most one part in 2^24. -/
theorem setShaderUniformValues_crop (m : VideoMaterial) (htw : 0 < m.m_totalWidth)
    (hth : 0 < m.m_totalHeight) (hfw32 : m.m_frameWidth < 2 ^ 32)
    (htw32 : m.m_totalWidth < 2 ^ 32) (hfh32 : m.m_frameHeight < 2 ^ 32)
    (hth32 : m.m_totalHeight < 2 ^ 32) :
    (m.m_cropRectangle = { x := 0, y := 0, width := 100, height := 100 } →
      VideoMaterialProvider.setShaderUniformValues m =
        [Call.setCropRectangleUniform (float.finite 0) (float.finite 0)
          (float.div (float.ofNat m.m_frameWidth) (float.ofNat m.m_totalWidth))
          (float.div (float.ofNat m.m_frameHeight) (float.ofNat m.m_totalHeight)),
         Call.setTextureRotationMatrixUniform m.m_textureRotationMatrix]) ∧
    (m.m_cropRectangle = { x := 0, y := 0, width := 100, height := 100 } →
      m.m_totalWidth = 512 → m.m_frameWidth = 509 →
      ∃ x y h : float, VideoMaterialProvider.setShaderUniformValues m =
        [Call.setCropRectangleUniform x y (float.finite (509 / 512)) h,
         Call.setTextureRotationMatrixUniform m.m_textureRotationMatrix]) ∧
    (∃ x y h : float, VideoMaterialProvider.setShaderUniformValues m =
        [Call.setCropRectangleUniform x y
          (float.mul
            (float.min (float.div (float.ofInt m.m_cropRectangle.width) (float.finite 100))
              (float.sub (float.finite 1)
                (float.div (float.ofInt m.m_cropRectangle.x) (float.finite 100))))
            (float.div (float.ofNat m.m_frameWidth) (float.ofNat m.m_totalWidth))) h,
         Call.setTextureRotationMatrixUniform m.m_textureRotationMatrix]) ∧
    (m.m_frameWidth < 2 ^ 24 → m.m_totalWidth < 2 ^ 24 →
      float.representable ((m.m_frameWidth : ℚ) / (m.m_totalWidth : ℚ)) →
      float.div (float.ofNat m.m_frameWidth) (float.ofNat m.m_totalWidth) =
        float.finite ((m.m_frameWidth : ℚ) / (m.m_totalWidth : ℚ))) ∧
    (0 < m.m_frameWidth → m.m_frameWidth < 2 ^ 24 → m.m_totalWidth < 2 ^ 24 →
      ∃ w : ℚ, float.div (float.ofNat m.m_frameWidth) (float.ofNat m.m_totalWidth) =
          float.finite w ∧
        |w - (m.m_frameWidth : ℚ) / (m.m_totalWidth : ℚ)| ≤
          (m.m_frameWidth : ℚ) / (m.m_totalWidth : ℚ) * 2 ^ (-24 : Int)) := by
  have htq : (0 : ℚ) < (m.m_totalWidth : ℚ) := by exact_mod_cast htw
  refine ⟨fun hc => setShaderUniformValues_full_crop m hc htw hth hfw32 htw32 hfh32 hth32, ?_,
    ⟨_, _, _, rfl⟩, ?_, ?_⟩
  · intro hc htw' hfw'
    have e : float.div (float.ofNat 509) (float.ofNat 512) = float.finite (509 / 512) := by
      decide!
    rw [setShaderUniformValues_full_crop m hc htw hth hfw32 htw32 hfh32 hth32, htw', hfw', e]
    exact ⟨_, _, _, rfl⟩
  · exact fun hfw htw24 hrep => div_ofNat_of_representable _ _ hfw htw24 htw hrep
  · intro hfw0 hfw htw24
    have hfq : (1 : ℚ) ≤ (m.m_frameWidth : ℚ) := by exact_mod_cast hfw0
    have hfq24 : (m.m_frameWidth : ℚ) < 2 ^ (24 : Int) := by
      have h1 : (m.m_frameWidth : ℚ) < ((2 ^ 24 : Nat) : ℚ) := Nat.cast_lt.mpr hfw
      have h3 : (2 : ℚ) ^ (24 : Int) = ((2 ^ 24 : Nat) : ℚ) := by norm_num
      rw [h3]; exact h1
    have htq24 : (m.m_totalWidth : ℚ) < 2 ^ (24 : Int) := by
      have h1 : (m.m_totalWidth : ℚ) < ((2 ^ 24 : Nat) : ℚ) := Nat.cast_lt.mpr htw24
      have h3 : (2 : ℚ) ^ (24 : Int) = ((2 ^ 24 : Nat) : ℚ) := by norm_num
      rw [h3]; exact h1
    have htq1 : (1 : ℚ) ≤ (m.m_totalWidth : ℚ) := by exact_mod_cast htw
    have hq0 : (0 : ℚ) ≤ (m.m_frameWidth : ℚ) / (m.m_totalWidth : ℚ) := by positivity
    have hqlo : (2 : ℚ) ^ (-126 : Int) ≤ (m.m_frameWidth : ℚ) / (m.m_totalWidth : ℚ) := by
      rw [le_div_iff₀ htq]
      have h126 : (2 : ℚ) ^ (-126 : Int) * 2 ^ (24 : Int) ≤ 1 := by norm_num
      have hpos : (0 : ℚ) ≤ 2 ^ (-126 : Int) := by positivity
      nlinarith
    have hqhi : (m.m_frameWidth : ℚ) / (m.m_totalWidth : ℚ) < 2 ^ (127 : Int) := by
      rw [div_lt_iff₀ htq]
      have h127 : (2 : ℚ) ^ (24 : Int) ≤ 2 ^ (127 : Int) := by norm_num
      have hpos : (0 : ℚ) < 2 ^ (127 : Int) := by positivity
      nlinarith
    refine ⟨float.roundMagnitude ((m.m_frameWidth : ℚ) / (m.m_totalWidth : ℚ)), ?_,
      roundMagnitude_sub_le_mul _ hqlo⟩
    rw [ofNat_of_lt _ hfw, ofNat_of_lt _ htw24]
    simp only [float.div, htq.ne', if_false]
    exact ofRat_of_nonneg _ hq0 hqhi

/-- Witness of claim C9: total width 512, frame width 509, total height 256,
frame height 240 and the crop rectangle (0, 0, 100, 100). -/
theorem setShaderUniformValues_crop_witness :
    0 < fullCropMaterial.m_totalWidth ∧ 0 < fullCropMaterial.m_totalHeight ∧
    fullCropMaterial.m_frameWidth < 2 ^ 32 ∧ fullCropMaterial.m_totalWidth < 2 ^ 32 ∧
    fullCropMaterial.m_frameHeight < 2 ^ 32 ∧ fullCropMaterial.m_totalHeight < 2 ^ 32 ∧
    VideoMaterialProvider.setShaderUniformValues fullCropMaterial =
      [Call.setCropRectangleUniform (float.finite 0) (float.finite 0)
        (float.div (float.ofNat 509) (float.ofNat 512))
        (float.div (float.ofNat 240) (float.ofNat 256)),
       Call.setTextureRotationMatrixUniform QMatrix2x2.identity] ∧
    float.div (float.ofNat 509) (float.ofNat 512) = float.finite (509 / 512) ∧
    float.div (float.ofNat 240) (float.ofNat 256) = float.finite (240 / 256) :=
  ⟨by decide, by decide, by decide, by decide, by decide, by decide,
    (setShaderUniformValues_crop fullCropMaterial (by decide) (by decide) (by decide) (by decide)
      (by decide) (by decide)).1 rfl,
    div_ofNat_of_representable 509 512 (by decide) (by decide) (by decide)
      ⟨509, -9, by decide, by decide, by decide, by norm_num⟩,
    div_ofNat_of_representable 240 256 (by decide) (by decide) (by decide)
      ⟨15, -4, by decide, by decide, by decide, by norm_num⟩⟩

/-- The sizes of the example material of the generic provider. -/
theorem paddedRgbaMaterial_sizes :
    paddedRgbaMaterial.m_frameWidth = 4 ∧ paddedRgbaMaterial.m_totalWidth = 8 ∧
    paddedRgbaMaterial.m_frameHeight = 4 ∧ paddedRgbaMaterial.m_totalHeight = 4 ∧
    paddedRgbaMaterial.m_cropRectangle = { x := 0, y := 50, width := 100, height := 50 } ∧
    paddedRgbaMaterial.m_textureRotationMatrix = QMatrix2x2.identity := by
  have h4 : toGuint 4 = 4 := by decide
  have h8 : toGuint (Int.tdiv 32 4) = 8 := by decide
  simp [paddedRgbaMaterial, VideoMaterial.setVideoGstbuffer, VideoMaterial.setCropRectangle,
    rgbaFrame, VideoMaterial.new, h4, h8]

/-- Claim C10, evaluated where it fails.  In general the vertical offset that
`setShaderUniformValues` passes is the crop y scaled by the width ratio.  For
an RGBA frame of 4 x 4 pixels in rows of 8 pixels and the crop rectangle
(0, 50, 100, 50) the crop vector passed is (0, 1/4, 1/2, 1/2), while the
vertical offset of the claim, crop y scaled by the height ratio, is 1/2, in
`float` as in exact arithmetic. -/
theorem setShaderUniformValues_vertical_offset :
    (∀ m : VideoMaterial, ∃ x w h : float, VideoMaterialProvider.setShaderUniformValues m =
      [Call.setCropRectangleUniform x
        (float.mul (float.div (float.ofInt m.m_cropRectangle.y) (float.finite 100))
          (float.div (float.ofNat m.m_frameWidth) (float.ofNat m.m_totalWidth))) w h,
       Call.setTextureRotationMatrixUniform m.m_textureRotationMatrix]) ∧
    VideoMaterialProvider.setShaderUniformValues paddedRgbaMaterial =
      [Call.setCropRectangleUniform (float.finite 0) (float.finite (1 / 4))
        (float.finite (1 / 2)) (float.finite (1 / 2)),
       Call.setTextureRotationMatrixUniform QMatrix2x2.identity] ∧
    float.mul (float.div (float.ofInt paddedRgbaMaterial.m_cropRectangle.y) (float.finite 100))
      (float.div (float.ofNat paddedRgbaMaterial.m_frameHeight)
        (float.ofNat paddedRgbaMaterial.m_totalHeight)) = float.finite (1 / 2) ∧
    ((paddedRgbaMaterial.m_cropRectangle.y : ℚ) / 100) *
      ((paddedRgbaMaterial.m_frameHeight : ℚ) / (paddedRgbaMaterial.m_totalHeight : ℚ)) = 1 / 2 := by
  obtain ⟨h1, h2, h3, h4, h5, h6⟩ := paddedRgbaMaterial_sizes
  have c1 : float.mul (float.div (float.ofInt 0) (float.finite 100))
      (float.div (float.ofNat 4) (float.ofNat 8)) = float.finite 0 := by decide!
  have c2 : float.mul (float.div (float.ofInt 50) (float.finite 100))
      (float.div (float.ofNat 4) (float.ofNat 8)) = float.finite (1 / 4) := by decide!
  have c3 : float.mul
      (float.min (float.div (float.ofInt 100) (float.finite 100))
        (float.sub (float.finite 1) (float.div (float.ofInt 0) (float.finite 100))))
      (float.div (float.ofNat 4) (float.ofNat 8)) = float.finite (1 / 2) := by decide!
  have c4 : float.mul
      (float.min (float.div (float.ofInt 50) (float.finite 100))
        (float.sub (float.finite 1) (float.div (float.ofInt 50) (float.finite 100))))
      (float.div (float.ofNat 4) (float.ofNat 4)) = float.finite (1 / 2) := by decide!
  have c5 : float.mul (float.div (float.ofInt 50) (float.finite 100))
      (float.div (float.ofNat 4) (float.ofNat 4)) = float.finite (1 / 2) := by decide!
  refine ⟨fun m => ⟨_, _, _, rfl⟩, ?_, ?_, ?_⟩
  · simp only [VideoMaterialProvider.setShaderUniformValues, h1, h2, h3, h4, h5, h6, c1, c2, c3,
      c4]
  · simp only [h3, h4, h5, c5]
  · rw [h3, h4, h5]
    norm_num


/-! ### The render decision -/

/-- A render call without a bound mesh. -/
theorem render_no_mesh {P : Type} (gst : GStreamer) (iface : VideoMaterialPrivIFace P)
    (vaoCreated : Bool) (r : Renderer) (player : GStreamerPlayer) (provider : P)
    (pending : Option GstSample) (hm : r.m_mesh = none) :
    r.render gst iface vaoCreated player provider pending =
      { renderer := { r with m_firstRender := false }, player := player, provider := provider,
        calls := if r.m_firstRender then Renderer.clearFBO else [] } := by
  simp [Renderer.render, hm]

/-- A render call with a mesh whose buffers are not filled. -/
theorem render_no_contents {P : Type} (gst : GStreamer) (iface : VideoMaterialPrivIFace P)
    (vaoCreated : Bool) (r : Renderer) (player : GStreamerPlayer) (provider : P)
    (pending : Option GstSample) (mesh : Mesh) (hm : r.m_mesh = some mesh)
    (hc : mesh.hasContents = false) :
    r.render gst iface vaoCreated player provider pending =
      { renderer := { r with m_firstRender := false }, player := player, provider := provider,
        calls := (if r.m_firstRender then Renderer.clearFBO else []) ++ [Call.update] } := by
  simp [Renderer.render, hm, hc]

/-- A render call with a filled mesh and no pending frame, when nothing is
dirty or the material holds no frame: nothing is drawn. -/
theorem render_skip {P : Type} (gst : GStreamer) (iface : VideoMaterialPrivIFace P)
    (vaoCreated : Bool) (r : Renderer) (player : GStreamerPlayer) (provider : P)
    (mesh : Mesh) (hm : r.m_mesh = some mesh) (hc : mesh.hasContents = true)
    (hskip : r.m_mustRender = false ∨ r.m_videoMaterial.hasVideoGstbuffer = false) :
    r.render gst iface vaoCreated player provider none =
      { renderer := { r with m_firstRender := false }, player := player, provider := provider,
        calls := if r.m_firstRender then Renderer.clearFBO else [] } := by
  simp [Renderer.render, hm, hc, GStreamerPlayer.pullVideoSample,
    GStreamerMediaSample.getSample, hskip]

/-- A render call with a filled mesh and no pending frame, when something is
dirty and the material holds a frame: the mesh is drawn. -/
theorem render_draw {P : Type} (gst : GStreamer) (iface : VideoMaterialPrivIFace P)
    (vaoCreated : Bool) (r : Renderer) (player : GStreamerPlayer) (provider : P)
    (mesh : Mesh) (hm : r.m_mesh = some mesh) (hc : mesh.hasContents = true)
    (hd : r.m_mustRender = true) (hb : r.m_videoMaterial.hasVideoGstbuffer = true) :
    r.render gst iface vaoCreated player provider none =
      { renderer := { r with m_firstRender := false, m_mustRender := false },
        player := player, provider := provider,
        calls := (if r.m_firstRender then Renderer.clearFBO else []) ++
          (if !r.m_firstRender then Renderer.clearFBO else []) ++
          Renderer.drawCalls vaoCreated { r with m_firstRender := false } mesh ++
          [Call.resetOpenGLState] } := by
  simp [Renderer.render, hm, hc, GStreamerPlayer.pullVideoSample,
    GStreamerMediaSample.getSample, hd, hb]

/-- A render call with a filled mesh and a pending frame: the frame goes to
the material, after `setVideoInfo` when its caps are new, and the mesh is
drawn. -/
theorem render_frame {P : Type} (gst : GStreamer) (iface : VideoMaterialPrivIFace P)
    (vaoCreated : Bool) (r : Renderer) (player : GStreamerPlayer) (provider : P)
    (mesh : Mesh) (sample : GstSample) (hm : r.m_mesh = some mesh)
    (hc : mesh.hasContents = true) :
    r.render gst iface vaoCreated player provider (some sample) =
      { renderer :=
          { r with
            m_firstRender := false
            m_mustRender := false
            m_videoMaterial :=
              (r.m_videoMaterial.receiveSample gst iface provider
                (player.pullVideoSample gst.gst_caps_is_equal (some sample)).1.sampleHasNewCaps
                sample).2.1 },
        player := (player.pullVideoSample gst.gst_caps_is_equal (some sample)).2,
        provider :=
          (r.m_videoMaterial.receiveSample gst iface provider
            (player.pullVideoSample gst.gst_caps_is_equal (some sample)).1.sampleHasNewCaps
            sample).1,
        calls := (if r.m_firstRender then Renderer.clearFBO else []) ++
          (r.m_videoMaterial.receiveSample gst iface provider
            (player.pullVideoSample gst.gst_caps_is_equal (some sample)).1.sampleHasNewCaps
            sample).2.2 ++
          (if !r.m_firstRender then Renderer.clearFBO else []) ++
          Renderer.drawCalls vaoCreated
            { r with
              m_firstRender := false
              m_mustRender := true
              m_videoMaterial :=
                (r.m_videoMaterial.receiveSample gst iface provider
                  (player.pullVideoSample gst.gst_caps_is_equal (some sample)).1.sampleHasNewCaps
                  sample).2.1 } mesh ++
          [Call.resetOpenGLState] } := by
  have hb : ∀ (p : P) (m : VideoMaterial),
      (m.setVideoGstbuffer iface gst.gst_video_frame_map p sample.buffer).2.1.hasVideoGstbuffer
        = true := fun _ _ => rfl
  have hs : (player.pullVideoSample gst.gst_caps_is_equal (some sample)).1.getSample
      = some sample := rfl
  cases hn : (player.pullVideoSample gst.gst_caps_is_equal (some sample)).1.sampleHasNewCaps <;>
  · simp only [Renderer.render, hm, hc, hs, hb, hn, VideoMaterial.receiveSample]
    simp


/-- The clear at the start of a render call contains no draw call. -/
theorem firstCalls_no_draw (b : Bool) :
    (if b then Renderer.clearFBO else []).any Call.isDrawElements = false := by
  cases b <;> simp [Renderer.clearFBO, Call.isDrawElements]

/-- The drawing part of a render call contains the draw call for the mesh. -/
theorem glDrawElements_mem_drawCalls (vaoCreated : Bool) (r : Renderer) (mesh : Mesh) :
    Call.glDrawElements mesh.m_numIndices ∈ Renderer.drawCalls vaoCreated r mesh := by
  simp [Renderer.drawCalls]

/-- The state of the first renderer of the example item after its first frame:
the cube mesh is bound, the material holds the frame and nothing is dirty. -/
theorem firstScene_renderer :
    firstScene.renderer.m_mesh = some (filledMesh "cube") ∧
    firstScene.renderer.m_mustRender = false ∧
    firstScene.renderer.m_firstRender = false ∧
    firstScene.renderer.m_videoMaterial.hasVideoGstbuffer = true := by
  simp [firstScene, Scene.run, Scene.step, Renderer.synchronize, Renderer.render, Renderer.new,
    cubeItem, matrix_mul_one_one, matrix_ne_one_one, filledMesh, Mesh.hasContents,
      GStreamerPlayer.pullVideoSample, GStreamerPlayer.new,
    GStreamerMediaSample.getSample, VideoMaterialProvider.createVideoMaterial, VideoMaterial.new,
    VideoMaterial.setCropRectangle, VideoMaterial.setTextureRotation,
    GStreamerMediaSample.sampleHasNewCaps, VideoMaterial.setVideoInfo,
    VideoMaterial.setVideoGstbuffer, VideoMaterial.hasVideoGstbuffer, rgbaGStreamer,
    VideoMaterialProviderGeneric.iface, VideoMaterialProviderGeneric.new,
    VideoMaterialProviderGeneric.uploadGstFrame,
    VideoMaterialProviderGeneric.setVideoInfoChangedFlag]

/-- Claim C12 as stated fails: after its first frame the first renderer of the
example item has a filled mesh bound, nothing dirty and a material that holds
a frame; the next render call, without a new frame, issues no draw call. -/
theorem render_clean_with_frame_counterexample :
    firstScene.renderer.m_mesh = some (filledMesh "cube") ∧
    (filledMesh "cube").hasContents = true ∧
    firstScene.renderer.m_mustRender = false ∧
    firstScene.renderer.m_videoMaterial.hasVideoGstbuffer = true ∧
    (firstScene.renderer.render rgbaGStreamer VideoMaterialProviderGeneric.iface false
      firstScene.player firstScene.provider none).calls.any Call.isDrawElements = false := by
  obtain ⟨hm, hd, hf, hb⟩ := firstScene_renderer
  refine ⟨hm, rfl, hd, hb, ?_⟩
  rw [render_skip _ _ _ _ _ _ (filledMesh "cube") hm rfl (Or.inl hd)]
  exact firstCalls_no_draw firstScene.renderer.m_firstRender

/-- Claim C12, amended: in a render call with a filled mesh bound, drawing is
skipped when, after the frame pull of the call, nothing is dirty or the
material holds no frame, and the dirty flag is then left as it is; when
something is dirty and the material holds a frame, the call issues the draw
call for the mesh and clears the dirty flag.  After the pull something is dirty
when it was before or a frame was pulled, and the material holds a frame when
it did before or a frame was pulled. -/
theorem render_draws_iff_dirty_and_frame {P : Type} (gst : GStreamer)
    (iface : VideoMaterialPrivIFace P) (vaoCreated : Bool) (r : Renderer)
    (player : GStreamerPlayer) (provider : P) (pending : Option GstSample) (mesh : Mesh)
    (hm : r.m_mesh = some mesh) (hc : mesh.hasContents = true) :
    (((r.m_mustRender || pending.isSome) &&
        (r.m_videoMaterial.hasVideoGstbuffer || pending.isSome)) = false →
      (r.render gst iface vaoCreated player provider pending).calls.any Call.isDrawElements
        = false ∧
      (r.render gst iface vaoCreated player provider pending).renderer.m_mustRender
        = r.m_mustRender) ∧
    (((r.m_mustRender || pending.isSome) &&
        (r.m_videoMaterial.hasVideoGstbuffer || pending.isSome)) = true →
      Call.glDrawElements mesh.m_numIndices ∈
        (r.render gst iface vaoCreated player provider pending).calls ∧
      (r.render gst iface vaoCreated player provider pending).renderer.m_mustRender = false) := by
  cases pending with
  | some sample =>
    rw [render_frame gst iface vaoCreated r player provider mesh sample hm hc]
    refine ⟨fun h => by simp at h, fun _ => ⟨?_, rfl⟩⟩
    simp [glDrawElements_mem_drawCalls]
  | none =>
    constructor
    · intro h
      have hskip : r.m_mustRender = false ∨ r.m_videoMaterial.hasVideoGstbuffer = false := by
        cases hd : r.m_mustRender
        · exact Or.inl rfl
        · right
          simpa [hd] using h
      rw [render_skip gst iface vaoCreated r player provider mesh hm hc hskip]
      cases hskip with
      | inl hd => exact ⟨firstCalls_no_draw _, rfl⟩
      | inr hb => exact ⟨firstCalls_no_draw _, rfl⟩
    · intro h
      have hboth : r.m_mustRender = true ∧ r.m_videoMaterial.hasVideoGstbuffer = true := by
        simpa using h
      rw [render_draw gst iface vaoCreated r player provider mesh hm hc hboth.1 hboth.2]
      refine ⟨?_, rfl⟩
      simp [glDrawElements_mem_drawCalls]

/-- Witness of claim C12 as amended: the first renderer of the example item
after its first frame, rendering again without a new frame. -/
theorem render_draws_iff_dirty_and_frame_witness :
    firstScene.renderer.m_mesh = some (filledMesh "cube") ∧
    (filledMesh "cube").hasContents = true ∧
    (firstScene.renderer.render rgbaGStreamer VideoMaterialProviderGeneric.iface false
      firstScene.player firstScene.provider none).calls.any Call.isDrawElements = false ∧
    (firstScene.renderer.render rgbaGStreamer VideoMaterialProviderGeneric.iface false
      firstScene.player firstScene.provider none).renderer.m_mustRender
      = firstScene.renderer.m_mustRender :=
  ⟨firstScene_renderer.1, rfl,
    (render_draws_iff_dirty_and_frame rgbaGStreamer VideoMaterialProviderGeneric.iface false
      firstScene.renderer firstScene.player firstScene.provider none (filledMesh "cube")
      firstScene_renderer.1 rfl).1 (by simp [firstScene_renderer.2.1])⟩


/-! ### Passes without changes -/

/-- A synchronize call brings the renderer in sync with the item. -/
theorem synchronize_inSync (mul : QMatrix4x4 → QMatrix4x4 → QMatrix4x4)
    (getMesh : String → Mesh) (r : Renderer) (item : VideoObjectItem) :
    (r.synchronize mul getMesh item).inSync mul item := by
  have key := matrix_eq_of_ne_false r.m_modelviewprojMatrix
    (mul item.projectionMatrix (mul item.viewMatrix item.transformMatrix))
  unfold Renderer.inSync Renderer.synchronize
  simp only [VideoMaterial.setCropRectangle, VideoMaterial.setTextureRotation]
  refine ⟨?_, ?_, ?_, ?_, ?_⟩ <;> split_ifs <;> simp_all

/-- A synchronize call on a renderer that is in sync with the item, whose
model-view-projection matrix does not differ from itself, changes nothing. -/
theorem synchronize_of_inSync (mul : QMatrix4x4 → QMatrix4x4 → QMatrix4x4)
    (getMesh : String → Mesh) (r : Renderer) (item : VideoObjectItem)
    (h : r.inSync mul item)
    (hnan : QMatrix4x4.ne (item.modelviewprojMatrix mul) (item.modelviewprojMatrix mul) = false) :
    r.synchronize mul getMesh item = r := by
  obtain ⟨h1, h2, h3, h4, h5⟩ := h
  unfold VideoObjectItem.modelviewprojMatrix at hnan
  cases r
  simp only at h1 h2 h3 h4 h5
  simp [Renderer.synchronize, h1, h2, h3, h4, h5, hnan]

/-- A render call leaves what `synchronize` compares as it is. -/
theorem render_inSync {P : Type} (gst : GStreamer) (iface : VideoMaterialPrivIFace P)
    (vaoCreated : Bool) (mul : QMatrix4x4 → QMatrix4x4 → QMatrix4x4) (r : Renderer)
    (player : GStreamerPlayer) (provider : P)
    (pending : Option GstSample) (item : VideoObjectItem) (h : r.inSync mul item) :
    (r.render gst iface vaoCreated player provider pending).renderer.inSync mul item := by
  cases hm : r.m_mesh with
  | none => rw [render_no_mesh _ _ _ _ _ _ _ hm]; exact h
  | some mesh =>
    cases hc : mesh.hasContents with
    | false => rw [render_no_contents _ _ _ _ _ _ _ mesh hm hc]; exact h
    | true =>
      cases pending with
      | some sample =>
        rw [render_frame _ _ _ _ _ _ mesh sample hm hc]
        unfold Renderer.inSync at *
        simp only [VideoMaterial.receiveSample]
        split_ifs <;> exact h
      | none =>
        by_cases hd : r.m_mustRender = true ∧ r.m_videoMaterial.hasVideoGstbuffer = true
        · rw [render_draw _ _ _ _ _ _ mesh hm hc hd.1 hd.2]; exact h
        · have hskip : r.m_mustRender = false ∨ r.m_videoMaterial.hasVideoGstbuffer = false := by
            cases hmr : r.m_mustRender
            · exact Or.inl rfl
            · right
              simpa [hmr] using hd
          rw [render_skip _ _ _ _ _ _ mesh hm hc hskip]; exact h

/-- A render call that issues a draw call leaves the dirty flag cleared. -/
theorem render_mustRender_of_draw {P : Type} (gst : GStreamer) (iface : VideoMaterialPrivIFace P)
    (vaoCreated : Bool) (r : Renderer) (player : GStreamerPlayer) (provider : P)
    (pending : Option GstSample)
    (h : (r.render gst iface vaoCreated player provider pending).calls.any Call.isDrawElements
      = true) :
    (r.render gst iface vaoCreated player provider pending).renderer.m_mustRender = false := by
  cases hm : r.m_mesh with
  | none =>
    rw [render_no_mesh _ _ _ _ _ _ _ hm] at h
    simp [firstCalls_no_draw] at h
  | some mesh =>
    cases hc : mesh.hasContents with
    | false =>
      rw [render_no_contents _ _ _ _ _ _ _ mesh hm hc] at h
      simp [firstCalls_no_draw, Call.isDrawElements] at h
    | true =>
      cases pending with
      | some sample => rw [render_frame _ _ _ _ _ _ mesh sample hm hc]
      | none =>
        by_cases hd : r.m_mustRender = true ∧ r.m_videoMaterial.hasVideoGstbuffer = true
        · rw [render_draw _ _ _ _ _ _ mesh hm hc hd.1 hd.2]
        · have hskip : r.m_mustRender = false ∨ r.m_videoMaterial.hasVideoGstbuffer = false := by
            cases hmr : r.m_mustRender
            · exact Or.inl rfl
            · right
              simpa [hmr] using hd
          rw [render_skip _ _ _ _ _ _ mesh hm hc hskip] at h
          simp [firstCalls_no_draw] at h

/-- A render call without a pending frame on a renderer whose dirty flag is
cleared issues no draw call and leaves the flag cleared. -/
theorem render_clean {P : Type} (gst : GStreamer) (iface : VideoMaterialPrivIFace P)
    (vaoCreated : Bool) (r : Renderer) (player : GStreamerPlayer) (provider : P)
    (hd : r.m_mustRender = false) :
    (r.render gst iface vaoCreated player provider none).calls.any Call.isDrawElements = false ∧
    (r.render gst iface vaoCreated player provider none).renderer.m_mustRender = false := by
  cases hm : r.m_mesh with
  | none =>
    rw [render_no_mesh _ _ _ _ _ _ _ hm]
    exact ⟨firstCalls_no_draw _, hd⟩
  | some mesh =>
    cases hc : mesh.hasContents with
    | false =>
      rw [render_no_contents _ _ _ _ _ _ _ mesh hm hc]
      refine ⟨?_, hd⟩
      simp [firstCalls_no_draw, Call.isDrawElements]
    | true =>
      rw [render_skip _ _ _ _ _ _ mesh hm hc (Or.inl hd)]
      exact ⟨firstCalls_no_draw _, hd⟩

/-- Passes without changes on a renderer that is in sync with the item and
whose dirty flag is cleared, for an item whose model-view-projection matrix
does not differ from itself: no call of any pass is a draw call, and the flag
is cleared afterwards. -/
theorem idlePasses_clean {P : Type} (gst : GStreamer) (iface : VideoMaterialPrivIFace P)
    (vaoCreated : Bool) (mul : QMatrix4x4 → QMatrix4x4 → QMatrix4x4)
    (getMesh : String → Mesh) (item : VideoObjectItem) (n : Nat)
    (hnan : QMatrix4x4.ne (item.modelviewprojMatrix mul) (item.modelviewprojMatrix mul) = false) :
    ∀ s : Scene P, s.renderer.inSync mul item → s.renderer.m_mustRender = false →
      (∀ calls ∈ Scene.runCalls gst iface vaoCreated mul getMesh s (idlePasses item n),
        calls.any Call.isDrawElements = false) ∧
      (Scene.run gst iface vaoCreated mul getMesh s (idlePasses item n)).renderer.m_mustRender
        = false := by
  induction n with
  | zero =>
    intro s _ hd
    simp [idlePasses, Scene.runCalls, Scene.run, hd]
  | succ n ih =>
    intro s hs hd
    have hsync := synchronize_of_inSync mul getMesh s.renderer item hs hnan
    have hr := render_clean gst iface vaoCreated s.renderer s.player s.provider hd
    have hi := render_inSync gst iface vaoCreated mul s.renderer s.player s.provider none item hs
    obtain ⟨ih1, ih2⟩ := ih
      { renderer := (s.renderer.render gst iface vaoCreated s.player s.provider none).renderer
        player := (s.renderer.render gst iface vaoCreated s.player s.provider none).player
        provider := (s.renderer.render gst iface vaoCreated s.player s.provider none).provider }
      hi hr.2
    simp only [idlePasses, Scene.runCalls, Scene.run, Scene.step, hsync, List.mem_cons]
    refine ⟨?_, ih2⟩
    rintro calls (rfl | rfl | hmem)
    · rfl
    · exact hr.1
    · exact ih1 calls hmem

/-- The first pass of the example item issues a draw call. -/
theorem firstScene_draws :
    (Scene.runCalls rgbaGStreamer VideoMaterialProviderGeneric.iface false QMatrix4x4.mul
      filledMesh
      { renderer := Renderer.new 1, player := GStreamerPlayer.new,
        provider := VideoMaterialProviderGeneric.new }
      [RendererOp.synchronize (cubeItem GStreamerPlayer.new),
        RendererOp.render (some ⟨7, 20⟩)]).any
        (fun calls => calls.any Call.isDrawElements) = true := by
  have hm : ((Renderer.new 1).synchronize QMatrix4x4.mul filledMesh
      (cubeItem GStreamerPlayer.new)).m_mesh = some (filledMesh "cube") := by
    simp [Renderer.synchronize, Renderer.new, cubeItem, VideoMaterialProvider.createVideoMaterial,
      VideoMaterial.new, VideoMaterial.setCropRectangle, VideoMaterial.setTextureRotation,
      matrix_mul_one_one, matrix_ne_one_one]
  simp only [Scene.runCalls, Scene.step, List.any_cons, List.any_nil, Bool.false_or,
    Bool.or_false]
  rw [render_frame _ _ _ _ _ _ (filledMesh "cube") ⟨7, 20⟩ hm rfl]
  simp [Renderer.drawCalls, Call.isDrawElements]

/-- Every matrix differs from the model-view-projection matrix of the item
whose transform matrix has NaN entries. -/
theorem matrix_ne_nanProduct (a : QMatrix4x4) :
    QMatrix4x4.ne a (QMatrix4x4.mul 1 (QMatrix4x4.mul 1 nanRotationMatrix)) = true :=
  matrix_ne_of_nan a _ 0 0
    (mul_nan_entry _ _ 0 0 0 (mul_nan_entry _ _ 0 0 0 (by simp [nanRotationMatrix])))

/-- The renderer of the item with the NaN entries after its first pass: a
filled mesh is bound and the material holds a frame. -/
theorem nanScene_renderer :
    (Scene.run rgbaGStreamer VideoMaterialProviderGeneric.iface false QMatrix4x4.mul filledMesh
      { renderer := Renderer.new 1, player := GStreamerPlayer.new,
        provider := VideoMaterialProviderGeneric.new }
      [RendererOp.synchronize (nanItem GStreamerPlayer.new),
        RendererOp.render (some ⟨7, 20⟩)]).renderer.m_mesh = some (filledMesh "cube") ∧
    (Scene.run rgbaGStreamer VideoMaterialProviderGeneric.iface false QMatrix4x4.mul filledMesh
      { renderer := Renderer.new 1, player := GStreamerPlayer.new,
        provider := VideoMaterialProviderGeneric.new }
      [RendererOp.synchronize (nanItem GStreamerPlayer.new),
        RendererOp.render (some ⟨7, 20⟩)]).renderer.m_videoMaterial.hasVideoGstbuffer = true ∧
    (Scene.run rgbaGStreamer VideoMaterialProviderGeneric.iface false QMatrix4x4.mul filledMesh
      { renderer := Renderer.new 1, player := GStreamerPlayer.new,
        provider := VideoMaterialProviderGeneric.new }
      [RendererOp.synchronize (nanItem GStreamerPlayer.new),
        RendererOp.render (some ⟨7, 20⟩)]).renderer.m_meshType = "cube" := by
  simp [Scene.run, Scene.step, Renderer.synchronize, Renderer.render, Renderer.new,
    nanItem, cubeItem, matrix_ne_nanProduct, filledMesh, Mesh.hasContents,
    GStreamerPlayer.pullVideoSample, GStreamerPlayer.new,
    GStreamerMediaSample.getSample, VideoMaterialProvider.createVideoMaterial, VideoMaterial.new,
    VideoMaterial.setCropRectangle, VideoMaterial.setTextureRotation,
    GStreamerMediaSample.sampleHasNewCaps, VideoMaterial.setVideoInfo,
    VideoMaterial.setVideoGstbuffer, VideoMaterial.hasVideoGstbuffer, rgbaGStreamer,
    VideoMaterialProviderGeneric.iface, VideoMaterialProviderGeneric.new,
    VideoMaterialProviderGeneric.uploadGstFrame,
    VideoMaterialProviderGeneric.setVideoInfoChangedFlag]

/-- Claim C13 as stated fails: the transform matrix of the item has NaN
entries, so its model-view-projection matrix has NaN entries and differs from
itself under the operator `!=`.  The first pass draws the frame; in the next
pass, with the item unchanged, the FBO not recreated and no frame pulled, the
synchronize call sets the dirty flag and the render call issues a draw call
again. -/
theorem idle_pass_nan_counterexample :
    (Scene.runCalls rgbaGStreamer VideoMaterialProviderGeneric.iface false QMatrix4x4.mul
      filledMesh
      { renderer := Renderer.new 1, player := GStreamerPlayer.new,
        provider := VideoMaterialProviderGeneric.new }
      [RendererOp.synchronize (nanItem GStreamerPlayer.new),
        RendererOp.render (some ⟨7, 20⟩)]).any
        (fun calls => calls.any Call.isDrawElements) = true ∧
    (nanItem GStreamerPlayer.new).modelviewprojMatrix QMatrix4x4.mul 0 0 = float.nan ∧
    (Scene.runCalls rgbaGStreamer VideoMaterialProviderGeneric.iface false QMatrix4x4.mul
      filledMesh
      (Scene.run rgbaGStreamer VideoMaterialProviderGeneric.iface false QMatrix4x4.mul filledMesh
        { renderer := Renderer.new 1, player := GStreamerPlayer.new,
          provider := VideoMaterialProviderGeneric.new }
        [RendererOp.synchronize (nanItem GStreamerPlayer.new),
          RendererOp.render (some ⟨7, 20⟩)])
      (idlePasses (nanItem GStreamerPlayer.new) 1)).any
        (fun calls => calls.any Call.isDrawElements) = true := by
  obtain ⟨hm, hb, ht⟩ := nanScene_renderer
  refine ⟨?_, ?_, ?_⟩
  · have hm0 : ((Renderer.new 1).synchronize QMatrix4x4.mul filledMesh
        (nanItem GStreamerPlayer.new)).m_mesh = some (filledMesh "cube") := by
      simp [Renderer.synchronize, Renderer.new, nanItem, cubeItem,
        VideoMaterialProvider.createVideoMaterial, VideoMaterial.new,
        VideoMaterial.setCropRectangle, VideoMaterial.setTextureRotation, matrix_ne_nanProduct]
    simp only [Scene.runCalls, Scene.step, List.any_cons, List.any_nil, Bool.false_or,
      Bool.or_false]
    rw [render_frame _ _ _ _ _ _ (filledMesh "cube") ⟨7, 20⟩ hm0 rfl]
    simp [Renderer.drawCalls, Call.isDrawElements]
  · exact mul_nan_entry _ _ 0 0 0 (mul_nan_entry _ _ 0 0 0 (by simp [nanItem, nanRotationMatrix]))
  · generalize Scene.run rgbaGStreamer VideoMaterialProviderGeneric.iface false QMatrix4x4.mul
      filledMesh
      { renderer := Renderer.new 1, player := GStreamerPlayer.new,
        provider := VideoMaterialProviderGeneric.new }
      [RendererOp.synchronize (nanItem GStreamerPlayer.new),
        RendererOp.render (some ⟨7, 20⟩)] = s1 at hm hb ht
    have hd : (s1.renderer.synchronize QMatrix4x4.mul filledMesh
        (nanItem GStreamerPlayer.new)).m_mustRender = true := by
      unfold Renderer.synchronize
      simp only [nanItem, cubeItem, matrix_ne_nanProduct, if_true,
        VideoMaterial.setCropRectangle, VideoMaterial.setTextureRotation]
      split_ifs <;> rfl
    have hm2 : (s1.renderer.synchronize QMatrix4x4.mul filledMesh
        (nanItem GStreamerPlayer.new)).m_mesh = some (filledMesh "cube") := by
      unfold Renderer.synchronize
      simp only [nanItem, cubeItem, matrix_ne_nanProduct, if_true, ht,
        VideoMaterial.setCropRectangle, VideoMaterial.setTextureRotation, ne_eq,
        not_true_eq_false, if_false]
      split_ifs <;> exact hm
    have hb2 : (s1.renderer.synchronize QMatrix4x4.mul filledMesh
        (nanItem GStreamerPlayer.new)).m_videoMaterial.hasVideoGstbuffer = true := by
      have := (synchronize_videoInfo QMatrix4x4.mul filledMesh s1.renderer
        (nanItem GStreamerPlayer.new)).2
      simp only [VideoMaterial.hasVideoGstbuffer] at hb ⊢
      rw [this]; exact hb
    simp only [idlePasses, Scene.runCalls, Scene.step, List.any_cons, List.any_nil,
      Bool.false_or, Bool.or_false]
    rw [render_draw _ _ _ _ _ _ (filledMesh "cube") hm2 rfl hd hb2]
    simp [Renderer.drawCalls, Call.isDrawElements]

/-- Claim C13, amended: after a synchronize call and a render call that issued
a draw call, in every number of further passes of synchronize and render in
which the item is unchanged, its model-view-projection matrix has no NaN
entry, the FBO is not recreated and no frame is pulled, no render call issues
a draw call, and the dirty flag stays false. -/
theorem idle_passes_issue_no_draw {P : Type} (gst : GStreamer)
    (iface : VideoMaterialPrivIFace P) (vaoCreated : Bool)
    (mul : QMatrix4x4 → QMatrix4x4 → QMatrix4x4) (getMesh : String → Mesh)
    (s0 : Scene P) (item : VideoObjectItem) (pending : Option GstSample) (n : Nat)
    (hdraw : (Scene.runCalls gst iface vaoCreated mul getMesh s0
      [RendererOp.synchronize item, RendererOp.render pending]).any
        (fun calls => calls.any Call.isDrawElements) = true)
    (hnan : ∀ i j, item.modelviewprojMatrix mul i j ≠ float.nan) :
    (∀ calls ∈ Scene.runCalls gst iface vaoCreated mul getMesh
        (Scene.run gst iface vaoCreated mul getMesh s0
          [RendererOp.synchronize item, RendererOp.render pending])
        (idlePasses item n),
      calls.any Call.isDrawElements = false) ∧
    (Scene.run gst iface vaoCreated mul getMesh
      (Scene.run gst iface vaoCreated mul getMesh s0
        [RendererOp.synchronize item, RendererOp.render pending])
      (idlePasses item n)).renderer.m_mustRender = false := by
  simp only [Scene.runCalls, Scene.step, List.any_cons, List.any_nil, Bool.false_or,
    Bool.or_false] at hdraw
  apply idlePasses_clean
  · exact matrix_ne_self _ hnan
  · exact render_inSync _ _ _ _ _ _ _ _ item (synchronize_inSync mul getMesh s0.renderer item)
  · exact render_mustRender_of_draw _ _ _ _ _ _ _ hdraw

/-- The model-view-projection matrix of the example item is the identity
matrix and has no NaN entry. -/
theorem cubeItem_no_nan (player : GStreamerPlayer) :
    ∀ i j, (cubeItem player).modelviewprojMatrix QMatrix4x4.mul i j ≠ float.nan := by
  intro i j
  simp only [VideoObjectItem.modelviewprojMatrix, cubeItem, matrix_mul_one_one]
  by_cases hij : i = j
  · rw [hij, Matrix.one_apply_eq]; exact fun h => nomatch h
  · rw [Matrix.one_apply_ne hij]; exact fun h => nomatch h

/-- Witness of claim C13: the example item draws its first frame; two more
passes without changes follow. -/
theorem idle_passes_issue_no_draw_witness :
    (Scene.runCalls rgbaGStreamer VideoMaterialProviderGeneric.iface false QMatrix4x4.mul
      filledMesh
      { renderer := Renderer.new 1, player := GStreamerPlayer.new,
        provider := VideoMaterialProviderGeneric.new }
      [RendererOp.synchronize (cubeItem GStreamerPlayer.new),
        RendererOp.render (some ⟨7, 20⟩)]).any
        (fun calls => calls.any Call.isDrawElements) = true ∧
    (∀ i j, (cubeItem GStreamerPlayer.new).modelviewprojMatrix QMatrix4x4.mul i j ≠ float.nan) ∧
    (∀ calls ∈ Scene.runCalls rgbaGStreamer VideoMaterialProviderGeneric.iface false
        QMatrix4x4.mul filledMesh
        (Scene.run rgbaGStreamer VideoMaterialProviderGeneric.iface false QMatrix4x4.mul
          filledMesh
          { renderer := Renderer.new 1, player := GStreamerPlayer.new,
            provider := VideoMaterialProviderGeneric.new }
          [RendererOp.synchronize (cubeItem GStreamerPlayer.new),
            RendererOp.render (some ⟨7, 20⟩)])
        (idlePasses (cubeItem GStreamerPlayer.new) 2),
      calls.any Call.isDrawElements = false) ∧
    (Scene.run rgbaGStreamer VideoMaterialProviderGeneric.iface false QMatrix4x4.mul filledMesh
      (Scene.run rgbaGStreamer VideoMaterialProviderGeneric.iface false QMatrix4x4.mul filledMesh
        { renderer := Renderer.new 1, player := GStreamerPlayer.new,
          provider := VideoMaterialProviderGeneric.new }
        [RendererOp.synchronize (cubeItem GStreamerPlayer.new),
          RendererOp.render (some ⟨7, 20⟩)])
      (idlePasses (cubeItem GStreamerPlayer.new) 2)).renderer.m_mustRender = false :=
  ⟨firstScene_draws, cubeItem_no_nan GStreamerPlayer.new,
    idle_passes_issue_no_draw rgbaGStreamer VideoMaterialProviderGeneric.iface false
      QMatrix4x4.mul filledMesh
      { renderer := Renderer.new 1, player := GStreamerPlayer.new,
        provider := VideoMaterialProviderGeneric.new }
      (cubeItem GStreamerPlayer.new) (some ⟨7, 20⟩) 2 firstScene_draws
      (cubeItem_no_nan GStreamerPlayer.new)⟩

/-! ### A pulled frame is uploaded and drawn -/

/-- Claim C14: in a render call with a filled mesh bound in which the pull
returns a sample, the buffer of the sample is handed to the material, after
`setVideoInfo` with the video info of its caps when the sample has new caps,
and after the calls of that upload the call issues the draw call for the mesh,
whatever the dirty flag was before; the flag is cleared afterwards. -/
theorem render_pulled_frame_is_drawn {P : Type} (gst : GStreamer)
    (iface : VideoMaterialPrivIFace P) (vaoCreated : Bool) (r : Renderer)
    (player : GStreamerPlayer) (provider : P) (mesh : Mesh) (sample : GstSample)
    (hm : r.m_mesh = some mesh) (hc : mesh.hasContents = true) :
    (r.render gst iface vaoCreated player provider (some sample)).renderer.m_videoMaterial =
      (r.m_videoMaterial.receiveSample gst iface provider
        (player.pullVideoSample gst.gst_caps_is_equal (some sample)).1.sampleHasNewCaps
        sample).2.1 ∧
    (r.render gst iface vaoCreated player provider (some sample)).provider =
      (r.m_videoMaterial.receiveSample gst iface provider
        (player.pullVideoSample gst.gst_caps_is_equal (some sample)).1.sampleHasNewCaps
        sample).1 ∧
    (r.render gst iface vaoCreated player provider (some sample)).renderer.m_videoMaterial.m_curBuffer
      = some sample.buffer ∧
    ((player.pullVideoSample gst.gst_caps_is_equal (some sample)).1.sampleHasNewCaps = true →
      (r.render gst iface vaoCreated player provider
        (some sample)).renderer.m_videoMaterial.m_videoInfo =
        some (gst.gst_video_info_from_caps sample.caps)) ∧
    (∃ rest : List Call,
      (r.render gst iface vaoCreated player provider (some sample)).calls =
        (if r.m_firstRender then Renderer.clearFBO else []) ++
        (r.m_videoMaterial.receiveSample gst iface provider
          (player.pullVideoSample gst.gst_caps_is_equal (some sample)).1.sampleHasNewCaps
          sample).2.2 ++ rest ∧
      Call.glDrawElements mesh.m_numIndices ∈ rest) ∧
    (r.render gst iface vaoCreated player provider (some sample)).renderer.m_mustRender
      = false := by
  rw [render_frame gst iface vaoCreated r player provider mesh sample hm hc]
  refine ⟨rfl, rfl, ?_, ?_, ?_, rfl⟩
  · simp only [VideoMaterial.receiveSample]
    split_ifs <;> rfl
  · intro hn
    simp only [VideoMaterial.receiveSample, hn]
    rfl
  · refine ⟨(if !r.m_firstRender then Renderer.clearFBO else []) ++
      Renderer.drawCalls vaoCreated
        { r with
          m_firstRender := false
          m_mustRender := true
          m_videoMaterial :=
            (r.m_videoMaterial.receiveSample gst iface provider
              (player.pullVideoSample gst.gst_caps_is_equal (some sample)).1.sampleHasNewCaps
              sample).2.1 } mesh ++
      [Call.resetOpenGLState], by simp only [List.append_assoc], ?_⟩
    simp [glDrawElements_mem_drawCalls]

/-- Witness of claim C14: the first renderer of the example item after its
first frame pulls a second frame with the same caps. -/
theorem render_pulled_frame_is_drawn_witness :
    firstScene.renderer.m_mesh = some (filledMesh "cube") ∧
    (filledMesh "cube").hasContents = true ∧
    (firstScene.renderer.render rgbaGStreamer VideoMaterialProviderGeneric.iface false
      firstScene.player firstScene.provider (some ⟨7, 21⟩)).renderer.m_videoMaterial.m_curBuffer
      = some 21 ∧
    (firstScene.renderer.render rgbaGStreamer VideoMaterialProviderGeneric.iface false
      firstScene.player firstScene.provider (some ⟨7, 21⟩)).renderer.m_mustRender = false :=
  ⟨firstScene_renderer.1, rfl,
    (render_pulled_frame_is_drawn rgbaGStreamer VideoMaterialProviderGeneric.iface false
      firstScene.renderer firstScene.player firstScene.provider (filledMesh "cube") ⟨7, 21⟩
      firstScene_renderer.1 rfl).2.2.1,
    (render_pulled_frame_is_drawn rgbaGStreamer VideoMaterialProviderGeneric.iface false
      firstScene.renderer firstScene.player firstScene.provider (filledMesh "cube") ⟨7, 21⟩
      firstScene_renderer.1 rfl).2.2.2.2.2⟩


/-! ### Clearing the FBO -/

/-- The drawing part of a render call does not clear. -/
theorem drawCalls_countP_isClear (vaoCreated : Bool) (r : Renderer) (mesh : Mesh) :
    (Renderer.drawCalls vaoCreated r mesh).countP Call.isClear = 0 := by
  cases vaoCreated <;>
    simp [Renderer.drawCalls, VideoMaterialProvider.bindMaterial,
      VideoMaterialProvider.setShaderUniformValues, VideoMaterialProvider.unbindTexture,
      Call.isClear]

/-- Handing a frame to a material does not clear, when the upload of the
provider does not. -/
theorem receiveSample_countP_isClear {P : Type} (gst : GStreamer)
    (iface : VideoMaterialPrivIFace P) (provider : P) (m : VideoMaterial) (newCaps : Bool)
    (sample : GstSample)
    (hup : ∀ (p : P) (m : VideoMaterial) (f : GstVideoFrame),
      (iface.uploadGstFrame p m f).2.countP Call.isClear = 0) :
    (m.receiveSample gst iface provider newCaps sample).2.2.countP Call.isClear = 0 := by
  cases newCaps <;>
    simp [VideoMaterial.receiveSample, VideoMaterial.setVideoGstbuffer, VideoMaterial.setVideoInfo,
      List.countP_append, List.countP_cons, hup, Call.isClear]

/-- The number of clears in `clearFBO`. -/
theorem clearFBO_countP_isClear (b : Bool) :
    (if b then Renderer.clearFBO else []).countP Call.isClear = if b then 1 else 0 := by
  cases b <;> simp [Renderer.clearFBO, Call.isClear]

/-- Claim C15: the very first render call of a renderer, whatever its state,
starts with `glClearColor(0, 0, 0, 0)` followed by `glClear` with the depth
and the colour buffer bit, before any other call; and every render call
clears at most once (given a provider whose upload does not clear). -/
theorem render_clears_first_and_once {P : Type} (gst : GStreamer)
    (iface : VideoMaterialPrivIFace P) (vaoCreated : Bool) (r : Renderer)
    (player : GStreamerPlayer) (provider : P) (pending : Option GstSample)
    (hup : ∀ (p : P) (m : VideoMaterial) (f : GstVideoFrame),
      (iface.uploadGstFrame p m f).2.countP Call.isClear = 0) :
    (r.m_firstRender = true →
      ∃ rest : List Call, (r.render gst iface vaoCreated player provider pending).calls =
        Call.glClearColor 0 0 0 0 :: Call.glClear true true :: rest) ∧
    (r.render gst iface vaoCreated player provider pending).calls.countP Call.isClear ≤ 1 := by
  cases hm : r.m_mesh with
  | none =>
    rw [render_no_mesh _ _ _ _ _ _ _ hm]
    refine ⟨fun hf => ⟨[], by simp [hf, Renderer.clearFBO]⟩, ?_⟩
    simp only [clearFBO_countP_isClear]
    split_ifs <;> omega
  | some mesh =>
    cases hc : mesh.hasContents with
    | false =>
      rw [render_no_contents _ _ _ _ _ _ _ mesh hm hc]
      refine ⟨fun hf => ⟨[Call.update], by simp [hf, Renderer.clearFBO]⟩, ?_⟩
      simp only [List.countP_append, clearFBO_countP_isClear]
      have : [Call.update].countP Call.isClear = 0 := by simp [Call.isClear]
      rw [this]
      split_ifs <;> omega
    | true =>
      cases pending with
      | some sample =>
        rw [render_frame _ _ _ _ _ _ mesh sample hm hc]
        constructor
        · intro hf
          simp only [hf, if_true, List.append_assoc]
          exact ⟨_, rfl⟩
        · simp only [List.countP_append, clearFBO_countP_isClear, drawCalls_countP_isClear,
            receiveSample_countP_isClear gst iface provider _ _ sample hup]
          have : [Call.resetOpenGLState].countP Call.isClear = 0 := by simp [Call.isClear]
          rw [this]
          cases r.m_firstRender <;> simp
      | none =>
        by_cases hd : r.m_mustRender = true ∧ r.m_videoMaterial.hasVideoGstbuffer = true
        · rw [render_draw _ _ _ _ _ _ mesh hm hc hd.1 hd.2]
          constructor
          · intro hf
            simp only [hf, if_true, List.append_assoc]
            exact ⟨_, rfl⟩
          · simp only [List.countP_append, clearFBO_countP_isClear, drawCalls_countP_isClear]
            have : [Call.resetOpenGLState].countP Call.isClear = 0 := by simp [Call.isClear]
            rw [this]
            cases r.m_firstRender <;> simp
        · have hskip : r.m_mustRender = false ∨ r.m_videoMaterial.hasVideoGstbuffer = false := by
            cases hmr : r.m_mustRender
            · exact Or.inl rfl
            · right
              simpa [hmr] using hd
          rw [render_skip _ _ _ _ _ _ mesh hm hc hskip]
          refine ⟨fun hf => ⟨[], by simp [hf, Renderer.clearFBO]⟩, ?_⟩
          simp only [clearFBO_countP_isClear]
          split_ifs <;> omega

/-- The upload of the generic provider does not clear. -/
theorem generic_upload_countP_isClear (p : VideoMaterialProviderGeneric) (m : VideoMaterial)
    (f : GstVideoFrame) :
    (VideoMaterialProviderGeneric.iface.uploadGstFrame p m f).2.countP Call.isClear = 0 := by
  simp only [VideoMaterialProviderGeneric.iface, VideoMaterialProviderGeneric.uploadGstFrame]
  split_ifs <;> simp [Call.isClear]

/-- Witness of claim C15: the very first render call of a new renderer, with
the generic provider and a frame pending. -/
theorem render_clears_first_and_once_witness :
    (∀ (p : VideoMaterialProviderGeneric) (m : VideoMaterial) (f : GstVideoFrame),
      (VideoMaterialProviderGeneric.iface.uploadGstFrame p m f).2.countP Call.isClear = 0) ∧
    ((Renderer.new 1).m_firstRender = true →
      ∃ rest : List Call,
        ((Renderer.new 1).render rgbaGStreamer VideoMaterialProviderGeneric.iface false
          GStreamerPlayer.new VideoMaterialProviderGeneric.new (some ⟨7, 20⟩)).calls =
        Call.glClearColor 0 0 0 0 :: Call.glClear true true :: rest) ∧
    ((Renderer.new 1).render rgbaGStreamer VideoMaterialProviderGeneric.iface false
      GStreamerPlayer.new VideoMaterialProviderGeneric.new (some ⟨7, 20⟩)).calls.countP
      Call.isClear ≤ 1 :=
  ⟨generic_upload_countP_isClear,
    render_clears_first_and_once rgbaGStreamer VideoMaterialProviderGeneric.iface false
      (Renderer.new 1) GStreamerPlayer.new VideoMaterialProviderGeneric.new (some ⟨7, 20⟩)
      generic_upload_countP_isClear⟩


/-! ### A freshly created material -/

/-- Claim C11, evaluated where it fails: a material freshly created by
`createVideoMaterial` has the texture rotation angle 0 and the identity
rotation matrix, but its crop rectangle is x 0, y 0, width 1, height 1 and
not x 0, y 0, width 100, height 100. -/
theorem createVideoMaterial_defaults (textureId : Nat) :
    (VideoMaterialProvider.createVideoMaterial textureId).m_cropRectangle =
      { x := 0, y := 0, width := 1, height := 1 } ∧
    (VideoMaterialProvider.createVideoMaterial textureId).m_cropRectangle ≠
      { x := 0, y := 0, width := 100, height := 100 } ∧
    (VideoMaterialProvider.createVideoMaterial textureId).m_textureRotation = 0 ∧
    (VideoMaterialProvider.createVideoMaterial textureId).m_textureRotationMatrix =
      QMatrix2x2.identity := by
  refine ⟨rfl, ?_, rfl, rfl⟩
  simp [VideoMaterialProvider.createVideoMaterial, VideoMaterial.new]

/-! ### Provider selection -/

/-- Claim C16: the constructor of GLResources always selects a provider.  It
selects the Vivante provider exactly when the build has Vivante support and
the context reports `GL_VIV_direct_texture` or `GL_VIV_tex_direct`, and a new
generic provider in every other case. -/
theorem GLResources_new_provider (WITH_VIV_GPU : Bool) (p_glcontext : QOpenGLContext) :
    ((GLResources.new WITH_VIV_GPU p_glcontext).m_videoMaterialProvider =
        VideoMaterialProviderUPtr.vivante ↔
      (WITH_VIV_GPU = true ∧
        (p_glcontext.hasExtension "GL_VIV_direct_texture" = true ∨
          p_glcontext.hasExtension "GL_VIV_tex_direct" = true))) ∧
    ((GLResources.new WITH_VIV_GPU p_glcontext).m_videoMaterialProvider =
        VideoMaterialProviderUPtr.generic VideoMaterialProviderGeneric.new ↔
      ¬ (WITH_VIV_GPU = true ∧
        (p_glcontext.hasExtension "GL_VIV_direct_texture" = true ∨
          p_glcontext.hasExtension "GL_VIV_tex_direct" = true))) := by
  cases WITH_VIV_GPU <;>
  cases h1 : p_glcontext.hasExtension "GL_VIV_direct_texture" <;>
  cases h2 : p_glcontext.hasExtension "GL_VIV_tex_direct" <;>
  simp [GLResources.new, isVivDirectTextureSupported, h1, h2]

/-! ### Video formats of the providers -/

/-- Claim C17: `toVivPixelFormat` returns a format enum, without reaching its
assertion, exactly for the formats in the list of the Vivante provider; the
format lists of both providers are non-empty, so for either provider that
`GLResources` can own the assertion of `setSinkCapsFromVideoFormats` in the
constructor of the renderer passes. -/
theorem vivante_formats_in_sync :
    (∀ f : GstVideoFormat,
      f ∈ VideoMaterialProviderVivante.supportedVideoFormats ↔ (toVivPixelFormat f).isSome = true) ∧
    (∀ f : GstVideoFormat,
      f ∉ VideoMaterialProviderVivante.supportedVideoFormats → toVivPixelFormat f = none) ∧
    VideoMaterialProviderVivante.supportedVideoFormats ≠ [] ∧
    VideoMaterialProviderGeneric.supportedVideoFormats ≠ [] ∧
    (∀ resources : GLResources, (Renderer.setSinkCaps resources).isSome = true) := by
  have h1 : ∀ f : GstVideoFormat,
      f ∈ VideoMaterialProviderVivante.supportedVideoFormats ↔
        (toVivPixelFormat f).isSome = true := by
    intro f
    cases f <;> simp [VideoMaterialProviderVivante.supportedVideoFormats, toVivPixelFormat]
  refine ⟨h1, ?_, by simp [VideoMaterialProviderVivante.supportedVideoFormats],
    by simp [VideoMaterialProviderGeneric.supportedVideoFormats], ?_⟩
  · intro f hf
    have := (h1 f).not.mp hf
    simpa using this
  · intro resources
    cases hp : resources.m_videoMaterialProvider <;>
      simp [Renderer.setSinkCaps, GStreamerPlayer.setSinkCapsFromVideoFormats, hp,
        VideoMaterialProviderUPtr.getSupportedVideoFormats,
        VideoMaterialProviderGeneric.supportedVideoFormats,
        VideoMaterialProviderVivante.supportedVideoFormats]

/-! ### Durations and positions -/

/-- Conversion to `int` of a value in range. -/
theorem toGint_of_lt (x : Int) (h0 : -(2 ^ 31) ≤ x) (h1 : x < 2 ^ 31) : toGint x = x := by
  unfold toGint
  omega

/-- Claim C18: `getDuration` returns -1 exactly when the duration that the
engine reports is `GST_CLOCK_TIME_NONE`; for every other value it returns at
least 1, whatever the millisecond count is; and when the millisecond count is
between 1 and 2^31 - 1 it returns the duration in nanoseconds divided by 10^6,
rounded down. -/
theorem getDuration_spec (dur : Nat) :
    (GStreamerPlayer.getDuration dur = -1 ↔ dur = GST_CLOCK_TIME_NONE) ∧
    (dur ≠ GST_CLOCK_TIME_NONE → 1 ≤ GStreamerPlayer.getDuration dur) ∧
    (dur ≠ GST_CLOCK_TIME_NONE → 1 ≤ dur / 10 ^ 6 → dur / 10 ^ 6 ≤ 2 ^ 31 - 1 →
      GStreamerPlayer.getDuration dur = ((dur / 10 ^ 6 : Nat) : Int)) := by
  by_cases h : dur = GST_CLOCK_TIME_NONE
  · subst h
    refine ⟨by simp [GStreamerPlayer.getDuration, GST_CLOCK_TIME_IS_VALID],
      fun hne => absurd rfl hne, fun hne => absurd rfl hne⟩
  · have hv : GST_CLOCK_TIME_IS_VALID dur = true := by
      simpa [GST_CLOCK_TIME_IS_VALID] using h
    have hd : GStreamerPlayer.getDuration dur =
        max (toGint ((dur / GST_MSECOND : Nat) : Int)) 1 := by
      simp [GStreamerPlayer.getDuration, hv]
    refine ⟨?_, ?_, ?_⟩
    · rw [hd]
      constructor
      · intro hm
        have : (1 : Int) ≤ max (toGint ((dur / GST_MSECOND : Nat) : Int)) 1 := le_max_right _ _
        omega
      · intro hn
        exact absurd hn h
    · intro _
      rw [hd]
      exact le_max_right _ _
    · intro _ hlo hhi
      rw [hd]
      have hms : GST_MSECOND = 10 ^ 6 := by decide
      rw [hms, toGint_of_lt _ (by omega) (by omega)]
      exact max_eq_left (by exact_mod_cast hlo)

/-- Witness of claim C18: a duration of one and a half seconds. -/
theorem getDuration_spec_witness :
    (1500000000 : Nat) ≠ GST_CLOCK_TIME_NONE ∧ 1 ≤ 1500000000 / 10 ^ 6 ∧
    1500000000 / 10 ^ 6 ≤ 2 ^ 31 - 1 ∧
    GStreamerPlayer.getDuration 1500000000 = ((1500000000 / 10 ^ 6 : Nat) : Int) :=
  ⟨by decide, by decide, by decide,
    (getDuration_spec 1500000000).2.2 (by decide) (by decide) (by decide)⟩

/-- Claim C19, evaluated where it fails: for the unknown time
`GST_CLOCK_TIME_NONE` the duration-changed callback emits `durationChanged`
with the argument 1 and the position-updated callback emits `positionUpdated`
with the argument -140462611; neither is -1.  The getters return -1 for that
value. -/
theorem notifications_of_unknown_time (p : GStreamerPlayer) :
    (p.staticOnGstPlayerDurationChanged GST_CLOCK_TIME_NONE).2 = [Signal.durationChanged 1] ∧
    (p.staticOnGstPlayerPositionUpdated GST_CLOCK_TIME_NONE).2 =
      [Signal.positionUpdated (-140462611)] ∧
    GStreamerPlayer.getDuration GST_CLOCK_TIME_NONE = -1 ∧
    GStreamerPlayer.getPosition GST_CLOCK_TIME_NONE = -1 := by
  refine ⟨?_, ?_, by decide, by decide⟩
  · have h : max (toGint ((GST_CLOCK_TIME_NONE / GST_MSECOND : Nat) : Int)) 1 = 1 := by decide
    simp only [GStreamerPlayer.staticOnGstPlayerDurationChanged, h]
  · have h : toGint ((GST_CLOCK_TIME_NONE / GST_MSECOND : Nat) : Int) = -140462611 := by decide
    simp only [GStreamerPlayer.staticOnGstPlayerPositionUpdated, h]

/-- For a known time whose millisecond count is between 1 and 2^31 - 1 the two
callbacks emit their signals with the millisecond count, rounded down. -/
theorem notifications_of_known_time (p : GStreamerPlayer) (time : Nat)
    (hlo : 1 ≤ time / 10 ^ 6) (hhi : time / 10 ^ 6 ≤ 2 ^ 31 - 1) :
    (p.staticOnGstPlayerDurationChanged time).2 =
      [Signal.durationChanged ((time / 10 ^ 6 : Nat) : Int)] ∧
    (p.staticOnGstPlayerPositionUpdated time).2 =
      [Signal.positionUpdated ((time / 10 ^ 6 : Nat) : Int)] := by
  have hms : GST_MSECOND = 10 ^ 6 := by decide
  have hc : toGint ((time / 10 ^ 6 : Nat) : Int) = ((time / 10 ^ 6 : Nat) : Int) :=
    toGint_of_lt _ (by omega) (by omega)
  have hmax : max ((time / 10 ^ 6 : Nat) : Int) 1 = ((time / 10 ^ 6 : Nat) : Int) :=
    max_eq_left (by exact_mod_cast hlo)
  simp only [GStreamerPlayer.staticOnGstPlayerDurationChanged,
    GStreamerPlayer.staticOnGstPlayerPositionUpdated, hms, hc, hmax, and_self]

/-! ### The state after stop -/

/-- Claim C20, evaluated where it fails: `stop` leaves the state member of the
player as it is, so for a player in state `Playing` the state that `getState`
returns when `stop` has returned is `Playing`; it is `Stopped` only after the
event loop has delivered the state-changed notification. -/
theorem stop_leaves_state :
    (∀ p : GStreamerPlayer, p.stop.1.getState = p.getState) ∧
    ({ GStreamerPlayer.new with m_state := State.Playing }.stop).1.getState = State.Playing ∧
    ({ GStreamerPlayer.new with m_state := State.Playing }.stop).1.getState ≠ State.Stopped ∧
    ((({ GStreamerPlayer.new with m_state := State.Playing }.stop).1).staticOnGstPlayerStateChanged
      State.Stopped).1.getState = State.Stopped := by
  refine ⟨fun _ => rfl, rfl, ?_, rfl⟩
  decide


/-! ### Setting the URL -/

/-- Claim C21: `setUrl` with the stored URL changes nothing, calls nothing and
emits nothing; with a different URL it stores the URL, calls
`gst_player_set_uri` once and emits `urlChanged` once; a second `setUrl` with
the same URL right after the first does nothing; and the state, the subtitle
and the remembered caps of the player are never changed. -/
theorem setUrl_spec (p : GStreamerPlayer) (u : String) :
    (p.getUrl = u → p.setUrl u = (p, [], [])) ∧
    (p.getUrl ≠ u →
      (p.setUrl u).1.getUrl = u ∧
      (p.setUrl u).2.1 = [GstPlayerCall.gst_player_set_uri u] ∧
      (p.setUrl u).2.2 = [Signal.urlChanged]) ∧
    (p.setUrl u).1.getUrl = u ∧
    (p.setUrl u).1.setUrl u = ((p.setUrl u).1, [], []) ∧
    (p.setUrl u).1.m_state = p.m_state ∧
    (p.setUrl u).1.m_subtitle = p.m_subtitle ∧
    (p.setUrl u).1.m_lastSampleCaps = p.m_lastSampleCaps := by
  by_cases h : p.m_url = u
  · simp [GStreamerPlayer.setUrl, GStreamerPlayer.getUrl, h]
  · simp [GStreamerPlayer.setUrl, GStreamerPlayer.getUrl, h]

/-- Witness of claim C21: a new player is given a URL. -/
theorem setUrl_spec_witness :
    GStreamerPlayer.new.getUrl ≠ "file:///video.mkv" ∧
    (GStreamerPlayer.new.setUrl "file:///video.mkv").1.getUrl = "file:///video.mkv" ∧
    (GStreamerPlayer.new.setUrl "file:///video.mkv").2.1 =
      [GstPlayerCall.gst_player_set_uri "file:///video.mkv"] ∧
    (GStreamerPlayer.new.setUrl "file:///video.mkv").2.2 = [Signal.urlChanged] :=
  ⟨by decide, (setUrl_spec GStreamerPlayer.new "file:///video.mkv").2.1 (by decide)⟩

/-! ### A pending redraw is kept -/

/-- A render call on a renderer whose dirty flag is set either issues a draw
call or leaves the flag set. -/
theorem render_keeps_mustRender {P : Type} (gst : GStreamer) (iface : VideoMaterialPrivIFace P)
    (vaoCreated : Bool) (r : Renderer) (player : GStreamerPlayer) (provider : P)
    (pending : Option GstSample) (hd : r.m_mustRender = true)
    (hno : (r.render gst iface vaoCreated player provider pending).calls.any Call.isDrawElements
      = false) :
    (r.render gst iface vaoCreated player provider pending).renderer.m_mustRender = true := by
  cases hm : r.m_mesh with
  | none => rw [render_no_mesh _ _ _ _ _ _ _ hm]; exact hd
  | some mesh =>
    cases hc : mesh.hasContents with
    | false => rw [render_no_contents _ _ _ _ _ _ _ mesh hm hc]; exact hd
    | true =>
      cases pending with
      | some sample =>
        rw [render_frame _ _ _ _ _ _ mesh sample hm hc] at hno
        simp [Renderer.drawCalls, Call.isDrawElements] at hno
      | none =>
        by_cases hb : r.m_videoMaterial.hasVideoGstbuffer = true
        · rw [render_draw _ _ _ _ _ _ mesh hm hc hd hb] at hno
          simp [Renderer.drawCalls, Call.isDrawElements] at hno
        · have hb' : r.m_videoMaterial.hasVideoGstbuffer = false := by simpa using hb
          rw [render_skip _ _ _ _ _ _ mesh hm hc (Or.inr hb')]; exact hd

/-- A synchronize call leaves a set dirty flag set. -/
theorem synchronize_keeps_mustRender (mul : QMatrix4x4 → QMatrix4x4 → QMatrix4x4)
    (getMesh : String → Mesh) (r : Renderer)
    (item : VideoObjectItem) (hd : r.m_mustRender = true) :
    (r.synchronize mul getMesh item).m_mustRender = true := by
  unfold Renderer.synchronize
  simp only [VideoMaterial.setCropRectangle, VideoMaterial.setTextureRotation]
  split_ifs <;> simp_all

/-- A synchronize call that finds the matrix, the mesh type, the crop rectangle
or the texture rotation of the item changed sets the dirty flag. -/
theorem synchronize_sets_mustRender (mul : QMatrix4x4 → QMatrix4x4 → QMatrix4x4)
    (getMesh : String → Mesh) (r : Renderer)
    (item : VideoObjectItem)
    (h : r.m_modelviewprojMatrix ≠ item.modelviewprojMatrix mul ∨
      QMatrix4x4.ne r.m_modelviewprojMatrix (item.modelviewprojMatrix mul) = true ∨
      r.m_meshType ≠ item.m_meshType ∨
      r.m_videoMaterial.m_cropRectangle ≠ item.m_cropRectangle ∨
      r.m_videoMaterial.m_textureRotation ≠ item.m_textureRotation) :
    (r.synchronize mul getMesh item).m_mustRender = true := by
  have key := matrix_eq_of_ne_false r.m_modelviewprojMatrix
    (mul item.projectionMatrix (mul item.viewMatrix item.transformMatrix))
  unfold VideoObjectItem.modelviewprojMatrix at h
  unfold Renderer.synchronize
  simp only [VideoMaterial.setCropRectangle, VideoMaterial.setTextureRotation]
  split_ifs <;> simp_all

/-- One renderer operation on a renderer whose dirty flag is set either issues
a draw call or leaves the flag set. -/
theorem step_keeps_mustRender {P : Type} (gst : GStreamer) (iface : VideoMaterialPrivIFace P)
    (vaoCreated : Bool) (mul : QMatrix4x4 → QMatrix4x4 → QMatrix4x4)
    (getMesh : String → Mesh) (s : Scene P) (op : RendererOp)
    (hd : s.renderer.m_mustRender = true)
    (hno : (s.step gst iface vaoCreated mul getMesh op).2.any Call.isDrawElements = false) :
    (s.step gst iface vaoCreated mul getMesh op).1.renderer.m_mustRender = true := by
  cases op with
  | synchronize item => exact synchronize_keeps_mustRender mul getMesh s.renderer item hd
  | render pending =>
    exact render_keeps_mustRender gst iface vaoCreated s.renderer s.player s.provider pending
      hd hno
  | createFramebufferObject => rfl

/-- Claim C28: once the dirty flag of a renderer is set, it is still set after
every sequence of synchronize, render and createFramebufferObject calls none
of which issued a draw call; when a render call then finds a filled mesh
bound and a frame in the material or in the appsink, it issues the draw call
for the mesh and clears the flag; and the flag is set by the constructor, by
`createFramebufferObject` and by a synchronize call that finds the matrix
changed (another matrix, or one that `!=` tells apart from the stored one),
or the mesh type, the crop rectangle or the texture rotation changed. -/
theorem mustRender_kept_until_draw {P : Type} (gst : GStreamer)
    (iface : VideoMaterialPrivIFace P) (vaoCreated : Bool)
        (mul : QMatrix4x4 → QMatrix4x4 → QMatrix4x4)
    (getMesh : String → Mesh)
    (ops : List RendererOp) (s : Scene P) (hd : s.renderer.m_mustRender = true)
    (hno : ∀ calls ∈ Scene.runCalls gst iface vaoCreated mul getMesh s ops,
      calls.any Call.isDrawElements = false) :
    (Scene.run gst iface vaoCreated mul getMesh s ops).renderer.m_mustRender = true ∧
    (∀ (mesh : Mesh) (pending : Option GstSample),
      (Scene.run gst iface vaoCreated mul getMesh s ops).renderer.m_mesh = some mesh →
      mesh.hasContents = true →
      ((Scene.run gst iface vaoCreated mul getMesh s ops).renderer.m_videoMaterial.hasVideoGstbuffer
          = true ∨ pending.isSome = true) →
      Call.glDrawElements mesh.m_numIndices ∈
        ((Scene.run gst iface vaoCreated mul getMesh s ops).step gst iface vaoCreated mul getMesh
          (RendererOp.render pending)).2 ∧
      ((Scene.run gst iface vaoCreated mul getMesh s ops).step gst iface vaoCreated mul getMesh
          (RendererOp.render pending)).1.renderer.m_mustRender = false) ∧
    (∀ textureId : Nat, (Renderer.new textureId).m_mustRender = true) ∧
    (∀ r : Renderer, r.createFramebufferObject.m_mustRender = true) ∧
    (∀ (r : Renderer) (item : VideoObjectItem),
      (r.m_modelviewprojMatrix ≠ item.modelviewprojMatrix mul ∨
        QMatrix4x4.ne r.m_modelviewprojMatrix (item.modelviewprojMatrix mul) = true ∨
        r.m_meshType ≠ item.m_meshType ∨
        r.m_videoMaterial.m_cropRectangle ≠ item.m_cropRectangle ∨
        r.m_videoMaterial.m_textureRotation ≠ item.m_textureRotation) →
      (r.synchronize mul getMesh item).m_mustRender = true) := by
  have key : ∀ (ops : List RendererOp) (s : Scene P), s.renderer.m_mustRender = true →
      (∀ calls ∈ Scene.runCalls gst iface vaoCreated mul getMesh s ops,
        calls.any Call.isDrawElements = false) →
      (Scene.run gst iface vaoCreated mul getMesh s ops).renderer.m_mustRender = true := by
    intro ops
    induction ops with
    | nil => intro s hd _; exact hd
    | cons op rest ih =>
      intro s hd hno
      simp only [Scene.runCalls, List.mem_cons, forall_eq_or_imp] at hno
      exact ih _ (step_keeps_mustRender gst iface vaoCreated mul getMesh s op hd hno.1) hno.2
  have hfinal := key ops s hd hno
  refine ⟨hfinal, ?_, fun _ => rfl, fun _ => rfl,
    fun r item h => synchronize_sets_mustRender mul getMesh r item h⟩
  intro mesh pending hm hc hframe
  simp only [Scene.step]
  cases pending with
  | some sample =>
    rw [render_frame _ _ _ _ _ _ mesh sample hm hc]
    refine ⟨?_, rfl⟩
    simp [glDrawElements_mem_drawCalls]
  | none =>
    have hb : (Scene.run gst iface vaoCreated mul getMesh s
        ops).renderer.m_videoMaterial.hasVideoGstbuffer = true := by
      simpa using hframe
    rw [render_draw _ _ _ _ _ _ mesh hm hc hfinal hb]
    refine ⟨?_, rfl⟩
    simp [glDrawElements_mem_drawCalls]


/-- Witness of claim C28: the first renderer of the example item is
synchronized and rendered while the appsink has no frame; the flag set by the
constructor is kept, and the render call that pulls the first frame draws. -/
theorem mustRender_kept_until_draw_witness :
    (Renderer.new 1).m_mustRender = true ∧
    (∀ calls ∈ Scene.runCalls rgbaGStreamer VideoMaterialProviderGeneric.iface false
        QMatrix4x4.mul filledMesh
        { renderer := Renderer.new 1, player := GStreamerPlayer.new,
          provider := VideoMaterialProviderGeneric.new }
        [RendererOp.synchronize (cubeItem GStreamerPlayer.new), RendererOp.render none],
      calls.any Call.isDrawElements = false) ∧
    (Scene.run rgbaGStreamer VideoMaterialProviderGeneric.iface false QMatrix4x4.mul filledMesh
      { renderer := Renderer.new 1, player := GStreamerPlayer.new,
        provider := VideoMaterialProviderGeneric.new }
      [RendererOp.synchronize (cubeItem GStreamerPlayer.new),
        RendererOp.render none]).renderer.m_mustRender = true :=
  ⟨rfl,
    by
      simp [Scene.runCalls, Scene.step, Renderer.synchronize, Renderer.render, Renderer.new,
        cubeItem, matrix_mul_one_one, matrix_ne_one_one, filledMesh, Mesh.hasContents,
      GStreamerPlayer.pullVideoSample,
        GStreamerPlayer.new, GStreamerMediaSample.getSample,
        VideoMaterialProvider.createVideoMaterial, VideoMaterial.new,
        VideoMaterial.setCropRectangle, VideoMaterial.setTextureRotation,
        VideoMaterial.hasVideoGstbuffer, Renderer.clearFBO, Call.isDrawElements],
    (mustRender_kept_until_draw rgbaGStreamer VideoMaterialProviderGeneric.iface false
        QMatrix4x4.mul filledMesh
      [RendererOp.synchronize (cubeItem GStreamerPlayer.new), RendererOp.render none]
      { renderer := Renderer.new 1, player := GStreamerPlayer.new,
        provider := VideoMaterialProviderGeneric.new } rfl
      (by
        simp [Scene.runCalls, Scene.step, Renderer.synchronize, Renderer.render, Renderer.new,
          cubeItem, matrix_mul_one_one, matrix_ne_one_one, filledMesh, Mesh.hasContents,
      GStreamerPlayer.pullVideoSample,
          GStreamerPlayer.new, GStreamerMediaSample.getSample,
          VideoMaterialProvider.createVideoMaterial, VideoMaterial.new,
          VideoMaterial.setCropRectangle, VideoMaterial.setTextureRotation,
          VideoMaterial.hasVideoGstbuffer, Renderer.clearFBO, Call.isDrawElements])).1⟩


/-! ### Moving a material with a rotated texture -/

/-- Claim C30, evaluated where it fails: `setTextureRotation` always leaves the
rotation matrix of its angle, but move constructing from a material whose
rotation was set to 90 degrees yields a material with the rotation angle 90
and the identity matrix, with entries 1, 0, 0, 1 instead of 0, -1, 1, 0 as in
the source; and move assigning that material to a fresh one likewise keeps
the identity matrix of the destination. -/
theorem moved_material_rotation_matrix :
    (∀ (m : VideoMaterial) (d : Int), (m.setTextureRotation d).rotationMatrixInSync) ∧
    ((VideoMaterialProvider.createVideoMaterial 1).setTextureRotation
      90).getTextureRotationMatrix.entries =
        some (float.finite 0, float.finite (-1), float.finite 1, float.finite 0) ∧
    (VideoMaterial.moveConstruct ((VideoMaterialProvider.createVideoMaterial 1).setTextureRotation
      90)).getTextureRotation = 90 ∧
    (VideoMaterial.moveConstruct ((VideoMaterialProvider.createVideoMaterial 1).setTextureRotation
      90)).getTextureRotationMatrix.entries =
        some (float.finite 1, float.finite 0, float.finite 0, float.finite 1) ∧
    ¬ (VideoMaterial.moveConstruct ((VideoMaterialProvider.createVideoMaterial
      1).setTextureRotation 90)).rotationMatrixInSync ∧
    ((VideoMaterialProvider.createVideoMaterial 2).moveAssign
      ((VideoMaterialProvider.createVideoMaterial 1).setTextureRotation
        90)).getTextureRotation = 90 ∧
    ((VideoMaterialProvider.createVideoMaterial 2).moveAssign
      ((VideoMaterialProvider.createVideoMaterial 1).setTextureRotation
        90)).getTextureRotationMatrix = QMatrix2x2.identity ∧
    ¬ ((VideoMaterialProvider.createVideoMaterial 2).moveAssign
      ((VideoMaterialProvider.createVideoMaterial 1).setTextureRotation
        90)).rotationMatrixInSync := by
  refine ⟨fun m d => Or.inl rfl, ?_, rfl, ?_, ?_, rfl, rfl, ?_⟩
  · simp [VideoMaterial.setTextureRotation, VideoMaterial.getTextureRotationMatrix,
      QMatrix2x2.entries]
  · simp [VideoMaterial.moveConstruct, VideoMaterial.getTextureRotationMatrix,
      QMatrix2x2.entries]
  · simp [VideoMaterial.rotationMatrixInSync, VideoMaterial.moveConstruct,
      VideoMaterial.getTextureRotationMatrix, VideoMaterial.getTextureRotation,
      VideoMaterial.setTextureRotation]
  · simp [VideoMaterial.rotationMatrixInSync, VideoMaterial.moveAssign,
      VideoMaterial.getTextureRotationMatrix, VideoMaterial.getTextureRotation,
      VideoMaterial.setTextureRotation, VideoMaterialProvider.createVideoMaterial,
      VideoMaterial.new]

/-! ### The subtitle source in the configuration -/

/-- Claim C29, evaluated where it fails: `FIFOSubtitles` and `MediaSubtitles`
are written as "fifo" and "media" and read back as themselves, but for
`SystemStatsSubtitles` the function `toString` reaches the assertion; with
assertions compiled out it returns the empty string, which `fromString`
rejects, so that a description saved with `SystemStatsSubtitles` is loaded
with the default `MediaSubtitles`. -/
theorem subtitleSource_roundtrip :
    (∀ NDEBUG : Bool, toString NDEBUG SubtitleSource.FIFOSubtitles = some "fifo" ∧
      fromString "fifo" = some SubtitleSource.FIFOSubtitles) ∧
    (∀ NDEBUG : Bool, toString NDEBUG SubtitleSource.MediaSubtitles = some "media" ∧
      fromString "media" = some SubtitleSource.MediaSubtitles) ∧
    toString false SubtitleSource.SystemStatsSubtitles = none ∧
    toString true SubtitleSource.SystemStatsSubtitles = some "" ∧
    fromString "" = none ∧
    (∀ p_string : String, fromString p_string ≠ some SubtitleSource.SystemStatsSubtitles) ∧
    loadSubtitleSource SubtitleSource.MediaSubtitles "" = SubtitleSource.MediaSubtitles ∧
    loadSubtitleSource SubtitleSource.MediaSubtitles "" ≠ SubtitleSource.SystemStatsSubtitles := by
  refine ⟨fun _ => ⟨rfl, by decide⟩, fun _ => ⟨rfl, by decide⟩, rfl, rfl, by decide, ?_,
    by decide, by decide⟩
  intro p_string
  unfold fromString
  split_ifs <;> simp


/-! ### The mesh cache -/

/-- A mesh that `getMesh` finds in the map stays the mesh of its key after a
`getMesh` call with any key. -/
theorem getMesh_keeps_lookup (tea : MeshData) (g : GLResources) (t t' : String) (mesh : Mesh)
    (h : g.m_meshMap.lookup t = some mesh) :
    (g.getMesh tea t').1.m_meshMap.lookup t = some mesh := by
  unfold GLResources.getMesh
  cases h' : g.m_meshMap.lookup t' with
  | some m => simpa using h
  | none => simp [List.lookup_append, h]

/-- A mesh in the map stays the mesh of its key after every sequence of
`getMesh` calls. -/
theorem getMeshes_keeps_lookup (tea : MeshData) (ts : List String) (g : GLResources)
    (t : String) (mesh : Mesh) (h : g.m_meshMap.lookup t = some mesh) :
    (g.getMeshes tea ts).m_meshMap.lookup t = some mesh := by
  induction ts generalizing g with
  | nil => exact h
  | cons t' rest ih => exact ih _ (getMesh_keeps_lookup tea g t t' mesh h)

/-- After a `getMesh` call the returned mesh is the mesh of the key. -/
theorem getMesh_lookup_self (tea : MeshData) (g : GLResources) (t : String) :
    (g.getMesh tea t).1.m_meshMap.lookup t = some (g.getMesh tea t).2.1 := by
  unfold GLResources.getMesh
  cases h : g.m_meshMap.lookup t with
  | some m => simpa using h
  | none => simp [List.lookup_append, h, List.lookup]

/-- A `getMesh` call with a key that is in the map changes nothing. -/
theorem getMesh_of_lookup (tea : MeshData) (g : GLResources) (t : String) (mesh : Mesh)
    (h : g.m_meshMap.lookup t = some mesh) : g.getMesh tea t = (g, mesh, []) := by
  simp [GLResources.getMesh, h]


/-- A key that is not in the map and is not asked for is not in the map after
a sequence of `getMesh` calls. -/
theorem getMeshes_lookup_none (tea : MeshData) (ts : List String) (g : GLResources)
    (t : String) (h : g.m_meshMap.lookup t = none) (hnot : t ∉ ts) :
    (g.getMeshes tea ts).m_meshMap.lookup t = none := by
  induction ts generalizing g with
  | nil => exact h
  | cons t' rest ih =>
    simp only [List.mem_cons, not_or] at hnot
    refine ih _ ?_ hnot.2
    unfold GLResources.getMesh
    cases h' : g.m_meshMap.lookup t' with
    | some m => simpa using h
    | none =>
      have hne : (t == t') = false := by simpa using hnot.1
      simp [List.lookup_append, h, List.lookup, hne]

/-- A mesh found in an association list is the second component of one of its
entries, under the key that was looked up. -/
theorem mem_of_lookup_eq_some (l : List (String × Mesh)) (t : String) (mesh : Mesh)
    (h : l.lookup t = some mesh) : (t, mesh) ∈ l := by
  induction l with
  | nil => simp at h
  | cons e rest ih =>
    obtain ⟨k, m⟩ := e
    by_cases hk : t = k
    · subst hk
      simp [List.lookup] at h
      simp [h]
    · have hne : (t == k) = false := by simpa using hk
      simp only [List.lookup, hne] at h
      exact List.mem_cons_of_mem _ (ih h)

/-- The mesh that `getMesh` returns for a key that is not in the map. -/
theorem getMesh_new_entry (tea : MeshData) (g : GLResources) (t : String)
    (h : g.m_meshMap.lookup t = none) :
    (g.getMesh tea t).2.1.getType = t ∧
    (g.getMesh tea t).2.1.hasContents = isFilledMeshType t ∧
    (g.getMesh tea t).1.m_meshMap = g.m_meshMap ++ [(t, (g.getMesh tea t).2.1)] ∧
    (g.getMesh tea t).2.2.countP MeshCall.isConstruct = 1 := by
  simp only [GLResources.getMesh, h]
  by_cases h1 : t = "quad"
  · subst h1
    simp [Mesh.getType, Mesh.setContents, Mesh.new, Mesh.hasContents, isFilledMeshType,
      MeshCall.isConstruct]
  · by_cases h2 : t = "cube"
    · subst h2
      simp [Mesh.getType, Mesh.setContents, Mesh.new, Mesh.hasContents, isFilledMeshType,
        MeshCall.isConstruct]
    · by_cases h3 : t = "teapot"
      · subst h3
        simp [Mesh.getType, Mesh.setContents, Mesh.new, Mesh.hasContents, isFilledMeshType,
          MeshCall.isConstruct]
      · simp [h1, h2, h3, Mesh.getType, Mesh.new, Mesh.hasContents, isFilledMeshType,
          MeshCall.isConstruct]

/-- A `getMesh` call keeps the map in sync with its keys. -/
theorem getMesh_meshMapInSync (tea : MeshData) (g : GLResources) (t : String)
    (h : g.meshMapInSync) : (g.getMesh tea t).1.meshMapInSync := by
  cases hl : g.m_meshMap.lookup t with
  | some m => rw [getMesh_of_lookup tea g t m hl]; exact h
  | none =>
    obtain ⟨h1, h2, h3, _⟩ := getMesh_new_entry tea g t hl
    intro entry hmem
    rw [h3, List.mem_append, List.mem_singleton] at hmem
    rcases hmem with hmem | hmem
    · exact h entry hmem
    · subst hmem; exact ⟨h1, h2⟩

/-- Every sequence of `getMesh` calls keeps the map in sync with its keys. -/
theorem getMeshes_meshMapInSync (tea : MeshData) (ts : List String) (g : GLResources)
    (h : g.meshMapInSync) : (g.getMeshes tea ts).meshMapInSync := by
  induction ts generalizing g with
  | nil => exact h
  | cons t rest ih => exact ih _ (getMesh_meshMapInSync tea g t h)

/-- The mesh that `getMesh` returns when the map is in sync with its keys. -/
theorem getMesh_of_meshMapInSync (tea : MeshData) (g : GLResources) (t : String)
    (h : g.meshMapInSync) :
    (g.getMesh tea t).2.1.getType = t ∧
    (g.getMesh tea t).2.1.hasContents = isFilledMeshType t := by
  have hs := getMesh_meshMapInSync tea g t h
  have hm := mem_of_lookup_eq_some _ _ _ (getMesh_lookup_self tea g t)
  exact hs _ hm

/-- Claim C24: a `getMesh` call with a type string that is not in the map
constructs exactly one mesh, whose type is that string, and appends it to the
map as the only new entry; a type string that is not in the map and is not
asked for stays out of the map; after a `getMesh` call with a type string,
every later `getMesh` call with that string, after any sequence of `getMesh`
calls, returns the same mesh, constructs and fills nothing and leaves the map
as it is; and a `getMesh` call changes neither the mesh of any other type
string nor the provider. -/
theorem getMesh_cache (getTeapotMeshData : MeshData) (g : GLResources) (t : String) :
    (g.m_meshMap.lookup t = none →
      (g.getMesh getTeapotMeshData t).2.1.getType = t ∧
      (g.getMesh getTeapotMeshData t).1.m_meshMap =
        g.m_meshMap ++ [(t, (g.getMesh getTeapotMeshData t).2.1)] ∧
      (g.getMesh getTeapotMeshData t).2.2.countP MeshCall.isConstruct = 1) ∧
    (∀ ts : List String, g.m_meshMap.lookup t = none → t ∉ ts →
      (g.getMeshes getTeapotMeshData ts).m_meshMap.lookup t = none) ∧
    (∀ ts : List String,
      (((g.getMesh getTeapotMeshData t).1.getMeshes getTeapotMeshData ts).getMesh
          getTeapotMeshData t) =
        ((g.getMesh getTeapotMeshData t).1.getMeshes getTeapotMeshData ts,
          (g.getMesh getTeapotMeshData t).2.1, [])) ∧
    (∀ t' : String, t' ≠ t →
      (g.getMesh getTeapotMeshData t).1.m_meshMap.lookup t' = g.m_meshMap.lookup t') ∧
    (g.getMesh getTeapotMeshData t).1.m_videoMaterialProvider = g.m_videoMaterialProvider := by
  refine ⟨fun h => ?_, fun ts h hnot => getMeshes_lookup_none _ ts g t h hnot, fun ts => ?_,
    fun t' hne => ?_, ?_⟩
  · obtain ⟨h1, _, h3, h4⟩ := getMesh_new_entry getTeapotMeshData g t h
    exact ⟨h1, h3, h4⟩
  · exact getMesh_of_lookup _ _ _ _
      (getMeshes_keeps_lookup _ ts _ t _ (getMesh_lookup_self getTeapotMeshData g t))
  · unfold GLResources.getMesh
    cases h : g.m_meshMap.lookup t with
    | some m => rfl
    | none =>
      have hne' : (t' == t) = false := by simpa using hne
      simp [List.lookup_append, List.lookup, hne']
  · unfold GLResources.getMesh
    cases h : g.m_meshMap.lookup t <;> rfl

/-- Witness of claim C24: the first `getMesh` call for "cube" on new resources. -/
theorem getMesh_cache_witness :
    (GLResources.new false ⟨[]⟩).m_meshMap.lookup "cube" = none ∧
    ((GLResources.new false ⟨[]⟩).getMesh getQuadMeshData "cube").2.1.getType = "cube" ∧
    ((GLResources.new false ⟨[]⟩).getMesh getQuadMeshData "cube").1.m_meshMap =
      (GLResources.new false ⟨[]⟩).m_meshMap ++
        [("cube", ((GLResources.new false ⟨[]⟩).getMesh getQuadMeshData "cube").2.1)] ∧
    ((GLResources.new false ⟨[]⟩).getMesh getQuadMeshData "cube").2.2.countP
      MeshCall.isConstruct = 1 :=
  ⟨rfl, (getMesh_cache getQuadMeshData (GLResources.new false ⟨[]⟩) "cube").1 rfl⟩


/-! ### Mesh types with and without contents -/

/-- New resources have a map that is in sync with its keys. -/
theorem new_meshMapInSync (WITH_VIV_GPU : Bool) (p_glcontext : QOpenGLContext) :
    (GLResources.new WITH_VIV_GPU p_glcontext).meshMapInSync := by
  intro entry hmem
  simp [GLResources.new] at hmem

/-- Claim C25 as stated fails: on new resources the meshes that `getMesh` returns
for "sphere" and for "torus" have no contents (the table of the cube stands in
for the teapot table, which these calls do not read), and the renderer of an
item with the mesh type "sphere" issues no draw call in the render call that
pulls a frame, and asks for another render pass. -/
theorem getMesh_sphere_counterexample :
    ((GLResources.new false ⟨[]⟩).getMesh getCubeMeshData "sphere").2.1.hasContents = false ∧
    ((GLResources.new false ⟨[]⟩).getMesh getCubeMeshData "torus").2.1.hasContents = false ∧
    (∀ calls ∈ Scene.runCalls rgbaGStreamer VideoMaterialProviderGeneric.iface false
        QMatrix4x4.mul
        (fun t => ((GLResources.new false ⟨[]⟩).getMesh getCubeMeshData t).2.1)
        { renderer := Renderer.new 1, player := GStreamerPlayer.new,
          provider := VideoMaterialProviderGeneric.new }
        [RendererOp.synchronize { cubeItem GStreamerPlayer.new with m_meshType := "sphere" },
          RendererOp.render (some ⟨7, 20⟩)],
      calls.any Call.isDrawElements = false) ∧
    Scene.runCalls rgbaGStreamer VideoMaterialProviderGeneric.iface false
        QMatrix4x4.mul
        (fun t => ((GLResources.new false ⟨[]⟩).getMesh getCubeMeshData t).2.1)
        { renderer := Renderer.new 1, player := GStreamerPlayer.new,
          provider := VideoMaterialProviderGeneric.new }
        [RendererOp.synchronize { cubeItem GStreamerPlayer.new with m_meshType := "sphere" },
          RendererOp.render (some ⟨7, 20⟩)] =
      [[], Renderer.clearFBO ++ [Call.update]] := by
  have hs : ((GLResources.new false ⟨[]⟩).getMesh getCubeMeshData "sphere").2.1 =
      Mesh.new "sphere" := by
    simp [GLResources.getMesh, GLResources.new, List.lookup]
  have hm : ((Renderer.new 1).synchronize
      QMatrix4x4.mul
        (fun t => ((GLResources.new false ⟨[]⟩).getMesh getCubeMeshData t).2.1)
      { cubeItem GStreamerPlayer.new with m_meshType := "sphere" }).m_mesh
        = some (Mesh.new "sphere") := by
    simp [Renderer.synchronize, Renderer.new, cubeItem, VideoMaterialProvider.createVideoMaterial,
      VideoMaterial.new, VideoMaterial.setCropRectangle, VideoMaterial.setTextureRotation, hs,
      matrix_mul_one_one, matrix_ne_one_one]
  have hf : ((Renderer.new 1).synchronize
      QMatrix4x4.mul
        (fun t => ((GLResources.new false ⟨[]⟩).getMesh getCubeMeshData t).2.1)
      { cubeItem GStreamerPlayer.new with m_meshType := "sphere" }).m_firstRender = true := by
    simp [Renderer.synchronize, Renderer.new, cubeItem, VideoMaterialProvider.createVideoMaterial,
      VideoMaterial.new, VideoMaterial.setCropRectangle, VideoMaterial.setTextureRotation,
      matrix_mul_one_one, matrix_ne_one_one]
  have hcalls : Scene.runCalls rgbaGStreamer VideoMaterialProviderGeneric.iface false
        QMatrix4x4.mul
        (fun t => ((GLResources.new false ⟨[]⟩).getMesh getCubeMeshData t).2.1)
        { renderer := Renderer.new 1, player := GStreamerPlayer.new,
          provider := VideoMaterialProviderGeneric.new }
        [RendererOp.synchronize { cubeItem GStreamerPlayer.new with m_meshType := "sphere" },
          RendererOp.render (some ⟨7, 20⟩)] =
      [[], Renderer.clearFBO ++ [Call.update]] := by
    simp only [Scene.runCalls, Scene.step]
    rw [render_no_contents _ _ _ _ _ _ _ (Mesh.new "sphere") hm rfl]
    simp [hf]
  refine ⟨by rw [hs]; rfl, ?_, ?_, hcalls⟩
  · simp [GLResources.getMesh, GLResources.new, List.lookup, Mesh.new, Mesh.hasContents]
  · rw [hcalls]
    simp [Renderer.clearFBO, Call.isDrawElements]

/-- Claim C25, amended: after every sequence of `getMesh` calls on new
resources, the mesh that `getMesh` returns for a type string has that type,
and it has contents exactly when the type string is "quad", "cube" or
"teapot"; a render call of a renderer bound to a returned mesh with contents
that pulls a frame issues the draw call for the mesh, and a render call of a
renderer bound to a returned mesh of any other type string issues no draw
call, asks for another render pass and leaves the dirty flag as it is. -/
theorem getMesh_hasContents_iff (getTeapotMeshData : MeshData) (WITH_VIV_GPU : Bool)
    (p_glcontext : QOpenGLContext) (ts : List String) (t : String) :
    ((((GLResources.new WITH_VIV_GPU p_glcontext).getMeshes getTeapotMeshData ts).getMesh
      getTeapotMeshData t).2.1.getType = t) ∧
    ((((GLResources.new WITH_VIV_GPU p_glcontext).getMeshes getTeapotMeshData ts).getMesh
      getTeapotMeshData t).2.1.hasContents = true ↔
        (t = "quad" ∨ t = "cube" ∨ t = "teapot")) ∧
    (∀ {P : Type} (gst : GStreamer) (iface : VideoMaterialPrivIFace P) (vaoCreated : Bool)
      (r : Renderer) (player : GStreamerPlayer) (provider : P),
      r.m_mesh = some (((GLResources.new WITH_VIV_GPU p_glcontext).getMeshes getTeapotMeshData
        ts).getMesh getTeapotMeshData t).2.1 →
      ((t = "quad" ∨ t = "cube" ∨ t = "teapot") →
        ∀ sample : GstSample,
          Call.glDrawElements (((GLResources.new WITH_VIV_GPU p_glcontext).getMeshes
              getTeapotMeshData ts).getMesh getTeapotMeshData t).2.1.m_numIndices ∈
            (r.render gst iface vaoCreated player provider (some sample)).calls) ∧
      (¬ (t = "quad" ∨ t = "cube" ∨ t = "teapot") →
        ∀ pending : Option GstSample,
          (r.render gst iface vaoCreated player provider pending).calls.any
            Call.isDrawElements = false ∧
          Call.update ∈ (r.render gst iface vaoCreated player provider pending).calls ∧
          (r.render gst iface vaoCreated player provider pending).renderer.m_mustRender =
            r.m_mustRender)) := by
  obtain ⟨h1, h2⟩ := getMesh_of_meshMapInSync getTeapotMeshData
    ((GLResources.new WITH_VIV_GPU p_glcontext).getMeshes getTeapotMeshData ts) t
    (getMeshes_meshMapInSync _ ts _ (new_meshMapInSync WITH_VIV_GPU p_glcontext))
  have hiff : isFilledMeshType t = true ↔ (t = "quad" ∨ t = "cube" ∨ t = "teapot") := by
    simp [isFilledMeshType, or_assoc]
  refine ⟨h1, by rw [h2]; exact hiff, ?_⟩
  intro P gst iface vaoCreated r player provider hm
  constructor
  · intro hvalid sample
    have hc := h2.trans (hiff.mpr hvalid)
    rw [render_frame _ _ _ _ _ _ _ sample hm hc]
    simp [glDrawElements_mem_drawCalls]
  · intro hinvalid pending
    have hc : (((GLResources.new WITH_VIV_GPU p_glcontext).getMeshes getTeapotMeshData
        ts).getMesh getTeapotMeshData t).2.1.hasContents = false := by
      rw [h2]
      cases hb : isFilledMeshType t with
      | false => rfl
      | true => exact absurd (hiff.mp hb) hinvalid
    rw [render_no_contents _ _ _ _ _ _ pending _ hm hc]
    refine ⟨?_, by simp, rfl⟩
    cases r.m_firstRender <;> simp [Renderer.clearFBO, Call.isDrawElements]

/-- Witness of claim C25, amended: a renderer bound to the mesh that new
resources return for "cube" draws in the render call that pulls a frame. -/
theorem getMesh_hasContents_iff_witness :
    ({ Renderer.new 1 with
        m_mesh := some (((GLResources.new false ⟨[]⟩).getMeshes getQuadMeshData []).getMesh
          getQuadMeshData "cube").2.1 } : Renderer).m_mesh =
      some (((GLResources.new false ⟨[]⟩).getMeshes getQuadMeshData []).getMesh
        getQuadMeshData "cube").2.1 ∧
    ("cube" = "quad" ∨ "cube" = "cube" ∨ "cube" = "teapot") ∧
    Call.glDrawElements (((GLResources.new false ⟨[]⟩).getMeshes getQuadMeshData []).getMesh
        getQuadMeshData "cube").2.1.m_numIndices ∈
      (({ Renderer.new 1 with
        m_mesh := some (((GLResources.new false ⟨[]⟩).getMeshes getQuadMeshData []).getMesh
          getQuadMeshData "cube").2.1 } : Renderer).render rgbaGStreamer
        VideoMaterialProviderGeneric.iface false GStreamerPlayer.new
        VideoMaterialProviderGeneric.new (some ⟨7, 20⟩)).calls :=
  ⟨rfl, Or.inr (Or.inl rfl),
    ((getMesh_hasContents_iff getQuadMeshData false ⟨[]⟩ [] "cube").2.2 rgbaGStreamer
      VideoMaterialProviderGeneric.iface false _ GStreamerPlayer.new
      VideoMaterialProviderGeneric.new rfl).1 (Or.inr (Or.inl rfl)) ⟨7, 20⟩⟩


/-! ### Adding a video object from a URL -/

/-- Claim C26: with an invalid URL `addFromURL` returns -1, leaves the list of
descriptions unchanged and notifies nobody; with a valid URL, in a model with
fewer than 2^31 descriptions, it appends exactly one description, which has
the given URL, the mesh type "cube", scale 1, opacity 1, the crop rectangle
(0, 0, 100, 100), the texture rotation 0 and the subtitle source
`MediaSubtitles`, keeps the earlier descriptions in front of it in their
order, and returns the index of the new description, which is the new count
minus one. -/
theorem addFromURL_spec (m : VideoObjectModel) (u : QUrl)
    (hsize : m.m_descriptions.length < 2 ^ 31) :
    (u.isValid = false → m.addFromURL u = (-1, m, [])) ∧
    (u.isValid = true →
      (m.addFromURL u).2.1.m_descriptions =
        m.m_descriptions ++ [{ Description.new with m_url := u }] ∧
      (m.addFromURL u).2.1.getCount = m.getCount + 1 ∧
      (m.addFromURL u).1 = ((m.addFromURL u).2.1.getCount : Int) - 1 ∧
      (m.addFromURL u).1 = (m.getCount : Int) ∧
      (m.addFromURL u).2.1.m_descriptions.get? (m.addFromURL u).1.toNat =
        some { m_url := u, m_meshType := "cube", m_scale := 1, m_rotation := QQuaternion.new,
               m_opacity := 1,
               m_cropRectangle := { x := 0, y := 0, width := 100, height := 100 },
               m_textureRotation := 0,
               m_subtitleSource := SubtitleSource.MediaSubtitles } ∧
      (∀ i : Nat, i < m.getCount →
        (m.addFromURL u).2.1.m_descriptions.get? i = m.m_descriptions.get? i)) := by
  constructor
  · intro hv
    simp [VideoObjectModel.addFromURL, hv]
  · intro hv
    have hret : toGint (toGsize (((m.m_descriptions ++
        [{ Description.new with m_url := u }]).length : Int) - 1)) =
        (m.m_descriptions.length : Int) := by
      have h1 : (((m.m_descriptions ++ [{ Description.new with m_url := u }]).length : Int) - 1)
          = (m.m_descriptions.length : Int) := by
        simp
      rw [h1, toGsize_of_lt _ (by omega) (by omega), toGint_of_lt _ (by omega) (by omega)]
      simp
    simp only [VideoObjectModel.addFromURL, hv, Bool.not_true, Bool.false_eq_true, if_false,
      VideoObjectModel.addDescription, VideoObjectModel.getCount, hret]
    refine ⟨by simp, by simp, by simp, by simp, ?_, ?_⟩
    · simp [Description.new]
    · intro i hi
      simp [List.getElem?_append_left hi]

/-- Witness of claim C26: a valid URL is added to a new model. -/
theorem addFromURL_spec_witness :
    VideoObjectModel.new.m_descriptions.length < 2 ^ 31 ∧
    (VideoObjectModel.new.addFromURL ⟨"file:///video.mkv", true⟩).2.1.m_descriptions =
      VideoObjectModel.new.m_descriptions ++
        [{ Description.new with m_url := ⟨"file:///video.mkv", true⟩ }] ∧
    (VideoObjectModel.new.addFromURL ⟨"file:///video.mkv", true⟩).1 = (0 : Nat) :=
  ⟨by decide,
    ((addFromURL_spec VideoObjectModel.new ⟨"file:///video.mkv", true⟩ (by decide)).2 rfl).1,
    ((addFromURL_spec VideoObjectModel.new ⟨"file:///video.mkv", true⟩ (by decide)).2
      rfl).2.2.2.1⟩


/-! ### The frame sink keeps the last frame -/

/-- A push into the sink as the video renderer configures it, with at most one
frame queued, leaves exactly the pushed frame queued. -/
theorem push_single_slot (q : List GstSample) (sample : GstSample) (hq : q.length ≤ 1) :
    ({ gstreamer_video_renderer_init with queue := q } : GstAppSink).push sample =
      some { gstreamer_video_renderer_init with queue := [sample] } := by
  match q, hq with
  | [], _ => simp [GstAppSink.push, gstreamer_video_renderer_init]
  | [s], _ => simp [GstAppSink.push, gstreamer_video_renderer_init]

/-- Pushes into the sink as the video renderer configures it leave exactly the
last pushed frame queued. -/
theorem pushes_single_slot (frames : List GstSample) (q : List GstSample) (hq : q.length ≤ 1)
    (hne : frames ≠ []) :
    ({ gstreamer_video_renderer_init with queue := q } : GstAppSink).pushes frames =
      some { gstreamer_video_renderer_init with queue := [frames.getLast hne] } := by
  induction frames generalizing q with
  | nil => exact absurd rfl hne
  | cons s rest ih =>
    simp only [GstAppSink.pushes, push_single_slot q s hq]
    cases rest with
    | nil => rfl
    | cons s' rest' =>
      rw [ih [s] (by simp) (by simp)]
      simp [List.getLast_cons]

/-- Claim C23: the video appsink is configured with one slot and dropping on.
When it holds at most one frame and N >= 1 frames are pushed without a pull
in between, no push blocks the producer, exactly the last pushed frame is
left in the sink, the next `pullVideoSample` returns that frame, and the
`pullVideoSample` after that returns no frame. -/
theorem pushes_then_pull_last (gst_caps_is_equal : GstCaps → GstCaps → Bool)
    (player : GStreamerPlayer) (q : List GstSample) (frames : List GstSample)
    (hq : q.length ≤ 1) (hne : frames ≠ []) :
    gstreamer_video_renderer_init.max_buffers = 1 ∧
    gstreamer_video_renderer_init.drop = true ∧
    gstreamer_video_renderer_init.queue = [] ∧
    ∃ sink : GstAppSink,
      ({ gstreamer_video_renderer_init with queue := q } : GstAppSink).pushes frames =
        some sink ∧
      sink.queue = [frames.getLast hne] ∧
      (player.pullVideoSampleFrom gst_caps_is_equal sink).1.getSample =
        some (frames.getLast hne) ∧
      ((player.pullVideoSampleFrom gst_caps_is_equal sink).2.1.pullVideoSampleFrom
        gst_caps_is_equal
        (player.pullVideoSampleFrom gst_caps_is_equal sink).2.2).1.getSample = none := by
  refine ⟨rfl, rfl, rfl, _, pushes_single_slot frames q hq hne, rfl, ?_, ?_⟩
  · simp [GStreamerPlayer.pullVideoSampleFrom, GstAppSink.try_pull_sample,
      GStreamerPlayer.pullVideoSample, GStreamerMediaSample.getSample]
  · simp [GStreamerPlayer.pullVideoSampleFrom, GstAppSink.try_pull_sample,
      GStreamerPlayer.pullVideoSample, GStreamerMediaSample.getSample]

/-- Witness of claim C23: three frames are pushed into the empty sink of a new
player. -/
theorem pushes_then_pull_last_witness :
    ([] : List GstSample).length ≤ 1 ∧
    ([⟨7, 20⟩, ⟨7, 21⟩, ⟨7, 22⟩] : List GstSample) ≠ [] ∧
    ∃ sink : GstAppSink,
      ({ gstreamer_video_renderer_init with queue := [] } : GstAppSink).pushes
        [⟨7, 20⟩, ⟨7, 21⟩, ⟨7, 22⟩] = some sink ∧
      sink.queue = [([⟨7, 20⟩, ⟨7, 21⟩, ⟨7, 22⟩] : List GstSample).getLast (by simp)] ∧
      (GStreamerPlayer.new.pullVideoSampleFrom (fun a b => a == b) sink).1.getSample =
        some (([⟨7, 20⟩, ⟨7, 21⟩, ⟨7, 22⟩] : List GstSample).getLast (by simp)) ∧
      ((GStreamerPlayer.new.pullVideoSampleFrom (fun a b => a == b)
        sink).2.1.pullVideoSampleFrom (fun a b => a == b)
        (GStreamerPlayer.new.pullVideoSampleFrom (fun a b => a == b)
          sink).2.2).1.getSample = none :=
  ⟨by decide, by simp,
    (pushes_then_pull_last (fun a b => a == b) GStreamerPlayer.new []
      [⟨7, 20⟩, ⟨7, 21⟩, ⟨7, 22⟩] (by decide) (by simp)).2.2.2⟩


/-! ### Ownership of the sample handle -/

/-- Counting after one element of a list is replaced. -/
theorem countP_set_add {α : Type} (l : List (Option α)) (q : Option α → Bool)
    (i : Nat) (old : α) (new : Option α) (h : l.getD i none = some old) :
    (l.set i new).countP q + (if q (some old) then 1 else 0) =
      l.countP q + (if q new then 1 else 0) := by
  induction l generalizing i with
  | nil => simp at h
  | cons a rest ih =>
    cases i with
    | zero =>
      simp only [List.getD_cons_zero] at h
      subst h
      simp only [List.set_cons_zero, List.countP_cons]
      omega
    | succ j =>
      simp only [List.getD_cons_succ] at h
      simp only [List.set_cons_succ, List.countP_cons]
      have := ih j h
      omega

/-- Reading the replaced element of a list. -/
theorem getD_set_self {α : Type} (l : List (Option α)) (i : Nat) (old : α) (new : Option α)
    (h : l.getD i none = some old) : (l.set i new).getD i none = new := by
  induction l generalizing i with
  | nil => simp at h
  | cons a rest ih =>
    cases i with
    | zero => simp
    | succ j =>
      simp only [List.getD_cons_succ] at h
      simp only [List.set_cons_succ, List.getD_cons_succ]
      exact ih j h

/-- Reading another element of a list after one is replaced. -/
theorem getD_set_other {α : Type} (l : List (Option α)) (i j : Nat) (new : Option α)
    (h : i ≠ j) : (l.set i new).getD j none = l.getD j none := by
  induction l generalizing i j with
  | nil => simp
  | cons a rest ih =>
    cases i with
    | zero =>
      cases j with
      | zero => exact absurd rfl h
      | succ k => simp
    | succ i' =>
      cases j with
      | zero => simp
      | succ k =>
        simp only [List.set_cons_succ, List.getD_cons_succ]
        exact ih i' k (by omega)


/-- An element that is read from a list is read from every extension of it. -/
theorem getD_append_of_some {α : Type} (l l' : List (Option α)) (i : Nat) (old : α)
    (h : l.getD i none = some old) : (l ++ l').getD i none = some old := by
  induction l generalizing i with
  | nil => simp at h
  | cons a rest ih =>
    cases i with
    | zero => simpa using h
    | succ j =>
      simp only [List.getD_cons_succ] at h
      simp only [List.cons_append, List.getD_cons_succ]
      exact ih j h

/-- The element appended to a list is read at the length of the list. -/
theorem getD_append_length {α : Type} (l : List (Option α)) (a : Option α) :
    (l ++ [a]).getD l.length none = a := by
  induction l with
  | nil => simp
  | cons b rest ih => simp

/-- An element that is read from a list has a number below the length. -/
theorem lt_length_of_getD {α : Type} (l : List (Option α)) (i : Nat) (old : α)
    (h : l.getD i none = some old) : i < l.length := by
  induction l generalizing i with
  | nil => simp at h
  | cons a rest ih =>
    cases i with
    | zero => simp
    | succ j =>
      simp only [List.getD_cons_succ] at h
      have := ih j h
      simp only [List.length_cons]
      omega

/-- Assigning to members of a living object: the holders of a handle. -/
theorem update_holders (h : SampleHeap) (i : Nat) (f : GStreamerMediaSample → GStreamerMediaSample)
    (object : GStreamerMediaSample) (x : GstSample) (hr : h.read i = some object) :
    (h.update i f).holders x + (if object.m_sample = some x then 1 else 0) =
      h.holders x + (if (f object).m_sample = some x then 1 else 0) := by
  have := countP_set_add h.objects (holdsSample x) i object (some (f object)) hr
  simpa [SampleHeap.update, hr, SampleHeap.holders, holdsSample] using this

/-- Assigning to members of an object makes no call. -/
theorem update_unrefs (h : SampleHeap) (i : Nat)
    (f : GStreamerMediaSample → GStreamerMediaSample) : (h.update i f).unrefs = h.unrefs := by
  unfold SampleHeap.update
  cases h.read i <;> rfl

/-- Assigning to members of a living object: the object afterwards. -/
theorem update_read_self (h : SampleHeap) (i : Nat)
    (f : GStreamerMediaSample → GStreamerMediaSample) (object : GStreamerMediaSample)
    (hr : h.read i = some object) : (h.update i f).read i = some (f object) := by
  have hr' : h.objects.getD i none = some object := hr
  simp only [SampleHeap.update, SampleHeap.read, hr']
  exact getD_set_self h.objects i object _ hr'

/-- Assigning to members of an object leaves the other objects as they are. -/
theorem update_read_other (h : SampleHeap) (i j : Nat)
    (f : GStreamerMediaSample → GStreamerMediaSample) (hne : i ≠ j) :
    (h.update i f).read j = h.read j := by
  unfold SampleHeap.update
  cases hr : h.read i with
  | none => rfl
  | some object => exact getD_set_other h.objects i j _ hne

/-- The guarded call of `gst_sample_unref`: the number of calls for a handle. -/
theorem unrefIfNotNull_count (h : SampleHeap) (m : Option GstSample) (x : GstSample) :
    (h.unrefIfNotNull m).unrefs.count x =
      h.unrefs.count x + (if m = some x then 1 else 0) := by
  cases m with
  | none => simp [SampleHeap.unrefIfNotNull]
  | some s =>
    by_cases hs : s = x
    · subst hs; simp [SampleHeap.unrefIfNotNull]
    · simp [SampleHeap.unrefIfNotNull, hs, List.count_cons]

/-- The constructor: the balance of a handle grows by one exactly when the
handle is the one given. -/
theorem construct_balance (h : SampleHeap) (p : Option GstSample) (flag : Bool)
    (x : GstSample) :
    (h.construct p flag).unrefs.count x + (h.construct p flag).holders x =
      h.unrefs.count x + h.holders x + (if p = some x then 1 else 0) := by
  simp only [SampleHeap.construct, SampleHeap.holders, List.countP_append, List.countP_cons,
    List.countP_nil, holdsSample, decide_eq_true_eq]
  omega

/-- The move constructor keeps the balance of every handle. -/
theorem moveConstruct_balance (h : SampleHeap) (s : Nat) (x : GstSample) :
    (h.moveConstruct s).unrefs.count x + (h.moveConstruct s).holders x =
      h.unrefs.count x + h.holders x := by
  unfold SampleHeap.moveConstruct
  cases hr : h.read s with
  | none => rfl
  | some other =>
    simp only
    have hr' : ({ h with objects := h.objects ++
        [some { m_sample := other.m_sample, m_sampleHasNewCaps := other.m_sampleHasNewCaps }] }
        : SampleHeap).read s = some other :=
      getD_append_of_some h.objects _ s other hr
    have hu := update_holders _ s (fun object => { object with m_sample := none }) other x hr'
    rw [update_unrefs]
    simp only [SampleHeap.holders, List.countP_append, List.countP_cons, List.countP_nil,
      holdsSample, decide_eq_true_eq] at hu ⊢
    simp only [reduceCtorEq, if_false] at hu
    omega

/-- The destructor keeps the balance of every handle. -/
theorem destroy_balance (h : SampleHeap) (i : Nat) (x : GstSample) :
    (h.destroy i).unrefs.count x + (h.destroy i).holders x =
      h.unrefs.count x + h.holders x := by
  unfold SampleHeap.destroy
  cases hr : h.read i with
  | none => rfl
  | some object =>
    simp only
    have hc := countP_set_add h.objects (holdsSample x) i object none hr
    have hu := unrefIfNotNull_count h object.m_sample x
    simp only [SampleHeap.holders, holdsSample, decide_eq_true_eq] at hc ⊢
    simp only [Bool.false_eq_true, if_false] at hc
    rw [hu]
    omega


/-- The guarded call of `gst_sample_unref` leaves the objects as they are. -/
theorem unrefIfNotNull_objects (h : SampleHeap) (m : Option GstSample) :
    (h.unrefIfNotNull m).objects = h.objects := by
  cases m <;> rfl

/-- The three assignments of the move assignment operator, on living objects. -/
theorem moveAssign_assignments (h1 : SampleHeap) (i s : Nat) (oi os : GStreamerMediaSample)
    (b : Bool) (hri : h1.read i = some oi) (hrs : h1.read s = some os) :
    (((h1.update i (fun object => { object with m_sample := os.m_sample })).update i
        (fun object => { object with m_sampleHasNewCaps := b })).update s
        (fun object => { object with m_sample := none })).unrefs = h1.unrefs ∧
    (∀ x : GstSample,
      (((h1.update i (fun object => { object with m_sample := os.m_sample })).update i
        (fun object => { object with m_sampleHasNewCaps := b })).update s
        (fun object => { object with m_sample := none })).holders x +
          (if oi.m_sample = some x then 1 else 0) = h1.holders x) ∧
    (i ≠ s →
      (((h1.update i (fun object => { object with m_sample := os.m_sample })).update i
        (fun object => { object with m_sampleHasNewCaps := b })).update s
        (fun object => { object with m_sample := none })).read i =
          some { m_sample := os.m_sample, m_sampleHasNewCaps := b } ∧
      (((h1.update i (fun object => { object with m_sample := os.m_sample })).update i
        (fun object => { object with m_sampleHasNewCaps := b })).update s
        (fun object => { object with m_sample := none })).read s =
          some { m_sample := none, m_sampleHasNewCaps := os.m_sampleHasNewCaps }) ∧
    (i = s →
      (((h1.update i (fun object => { object with m_sample := os.m_sample })).update i
        (fun object => { object with m_sampleHasNewCaps := b })).update s
        (fun object => { object with m_sample := none })).read i =
          some { m_sample := none, m_sampleHasNewCaps := b }) := by
  have r2 := update_read_self h1 i (fun object => { object with m_sample := os.m_sample }) oi hri
  have r3 := update_read_self _ i (fun object => { object with m_sampleHasNewCaps := b }) _ r2
  refine ⟨by simp only [update_unrefs], ?_, ?_, ?_⟩
  · intro x
    have c2 := update_holders h1 i (fun object => { object with m_sample := os.m_sample }) oi x hri
    have c3 := update_holders _ i (fun object => { object with m_sampleHasNewCaps := b }) _ x r2
    by_cases his : i = s
    · subst his
      have c4 := update_holders _ i (fun object => { object with m_sample := none }) _ x r3
      simp only [reduceCtorEq, if_false] at c2 c3 c4
      omega
    · have r3s : ((h1.update i (fun object => { object with m_sample := os.m_sample })).update i
          (fun object => { object with m_sampleHasNewCaps := b })).read s = some os := by
        rw [update_read_other _ i s _ his, update_read_other _ i s _ his, hrs]
      have c4 := update_holders _ s (fun object => { object with m_sample := none }) _ x r3s
      simp only [reduceCtorEq, if_false] at c2 c3 c4
      omega
  · intro his
    have r3s : ((h1.update i (fun object => { object with m_sample := os.m_sample })).update i
        (fun object => { object with m_sampleHasNewCaps := b })).read s = some os := by
      rw [update_read_other _ i s _ his, update_read_other _ i s _ his, hrs]
    constructor
    · rw [update_read_other _ s i _ (Ne.symm his), r3]
    · rw [update_read_self _ s _ _ r3s]
  · intro his
    subst his
    rw [update_read_self _ i _ _ r3]


/-- The move assignment operator on living objects, as the guarded call
followed by the three assignments. -/
theorem moveAssign_of_alive (h : SampleHeap) (i s : Nat) (oi os : GStreamerMediaSample)
    (hri : h.read i = some oi) (hrs : h.read s = some os) :
    ∃ b : Bool, h.moveAssign i s =
      ((((h.unrefIfNotNull oi.m_sample).update i
        (fun object => { object with m_sample := os.m_sample })).update i
        (fun object => { object with m_sampleHasNewCaps := b })).update s
        (fun object => { object with m_sample := none })) ∧
      (i ≠ s → b = os.m_sampleHasNewCaps) := by
  have hs1 : (h.unrefIfNotNull (h.sampleOf i)).sampleOf s = os.m_sample := by
    simp only [SampleHeap.sampleOf, SampleHeap.read, unrefIfNotNull_objects]
    have hrs' : h.objects.getD s none = some os := hrs
    rw [hrs']
    rfl
  have hsi : h.sampleOf i = oi.m_sample := by
    simp only [SampleHeap.sampleOf, hri]
    rfl
  refine ⟨((h.unrefIfNotNull oi.m_sample).update i
    (fun object => { object with m_sample := os.m_sample })).flagOf s, ?_, ?_⟩
  · simp only [SampleHeap.moveAssign, hri, hrs, hs1]
    rw [hsi]
  · intro his
    have hr1 : (h.unrefIfNotNull oi.m_sample).read s = some os := by
      simp only [SampleHeap.read, unrefIfNotNull_objects]
      exact hrs
    simp only [SampleHeap.flagOf]
    rw [update_read_other _ i s _ his, hr1]

/-- The move assignment operator keeps the balance of every handle. -/
theorem moveAssign_balance (h : SampleHeap) (i s : Nat) (x : GstSample) :
    (h.moveAssign i s).unrefs.count x + (h.moveAssign i s).holders x =
      h.unrefs.count x + h.holders x := by
  cases hri : h.read i with
  | none => simp [SampleHeap.moveAssign, hri]
  | some oi =>
    cases hrs : h.read s with
    | none => simp [SampleHeap.moveAssign, hri, hrs]
    | some os =>
      obtain ⟨b, hb, _⟩ := moveAssign_of_alive h i s oi os hri hrs
      have hri1 : (h.unrefIfNotNull oi.m_sample).read i = some oi := by
        simp only [SampleHeap.read, unrefIfNotNull_objects]; exact hri
      have hrs1 : (h.unrefIfNotNull oi.m_sample).read s = some os := by
        simp only [SampleHeap.read, unrefIfNotNull_objects]; exact hrs
      obtain ⟨hu, hc, _, _⟩ := moveAssign_assignments _ i s oi os b hri1 hrs1
      have hc' := hc x
      have hcount := unrefIfNotNull_count h oi.m_sample x
      have hh : (h.unrefIfNotNull oi.m_sample).holders x = h.holders x := by
        simp only [SampleHeap.holders, unrefIfNotNull_objects]
      rw [hb, hu, hcount]
      omega

/-- Every operation changes the balance of a handle by the number of times it
gives the handle to the constructor. -/
theorem step_balance (h : SampleHeap) (op : SampleOp) (x : GstSample) :
    (h.step op).unrefs.count x + (h.step op).holders x =
      h.unrefs.count x + h.holders x + constructionsWith x [op] := by
  cases op with
  | construct p flag =>
    simp only [SampleHeap.step, construct_balance, constructionsWith, List.countP_cons,
      List.countP_nil, decide_eq_true_eq]
    omega
  | moveConstruct s =>
    simp [SampleHeap.step, moveConstruct_balance, constructionsWith]
  | moveAssign i s =>
    simp [SampleHeap.step, moveAssign_balance, constructionsWith]
  | destroy i =>
    simp [SampleHeap.step, destroy_balance, constructionsWith]

/-- Over every sequence of operations the calls of `gst_sample_unref` for a
handle and the living objects that hold it add up to what they were before
plus the number of times the handle was given to the constructor. -/
theorem run_balance (ops : List SampleOp) (h : SampleHeap) (x : GstSample) :
    (h.run ops).unrefs.count x + (h.run ops).holders x =
      h.unrefs.count x + h.holders x + constructionsWith x ops := by
  induction ops generalizing h with
  | nil => simp [SampleHeap.run, constructionsWith]
  | cons op rest ih =>
    simp only [SampleHeap.run]
    rw [ih, step_balance]
    simp only [constructionsWith, List.countP_cons, List.countP_nil]
    omega

/-- No living object holds a handle when every object is destroyed. -/
theorem holders_of_all_destroyed (h : SampleHeap) (x : GstSample)
    (hall : ∀ object ∈ h.objects, object = none) : h.holders x = 0 := by
  simp only [SampleHeap.holders, List.countP_eq_zero]
  intro object hmem
  rw [hall object hmem]
  simp [holdsSample]


/-- The move constructor on a living object. -/
theorem moveConstruct_of_alive (h : SampleHeap) (s : Nat) (os : GStreamerMediaSample)
    (hrs : h.read s = some os) :
    (h.moveConstruct s).read h.objects.length =
      some { m_sample := os.m_sample, m_sampleHasNewCaps := os.m_sampleHasNewCaps } ∧
    (h.moveConstruct s).read s =
      some { m_sample := none, m_sampleHasNewCaps := os.m_sampleHasNewCaps } ∧
    (h.moveConstruct s).unrefs = h.unrefs := by
  have hlt : s < h.objects.length := lt_length_of_getD h.objects s os hrs
  have hr' : ({ h with objects := h.objects ++
      [some { m_sample := os.m_sample, m_sampleHasNewCaps := os.m_sampleHasNewCaps }] }
      : SampleHeap).read s = some os :=
    getD_append_of_some h.objects _ s os hrs
  simp only [SampleHeap.moveConstruct, hrs]
  refine ⟨?_, ?_, ?_⟩
  · rw [update_read_other _ s _ _ (by omega)]
    exact getD_append_length h.objects _
  · rw [update_read_self _ s _ os hr']
  · rw [update_unrefs]

/-- Claim C22: move construction from a living object leaves the source with a
null handle and gives the new object the former handle and the flag of the
source, and releases nothing; move assignment between two different living
objects first releases the handle that the destination held, if it is not
null, then leaves the source with a null handle and the destination with the
former handle and the flag of the source; and over every sequence of
constructions, move constructions, move assignments and destructions, for
every handle the number of releases plus the number of living objects that
hold it equals the number of times it was given to the constructor, so a
handle is never released more often than it was given, and once every object
is destroyed, a handle given to the constructor once has been released exactly
once. -/
theorem mediaSample_single_ownership (ops : List SampleOp) (x : GstSample) :
    (∀ (h : SampleHeap) (s : Nat) (os : GStreamerMediaSample), h.read s = some os →
      (h.moveConstruct s).read h.objects.length =
        some { m_sample := os.m_sample, m_sampleHasNewCaps := os.m_sampleHasNewCaps } ∧
      (h.moveConstruct s).read s =
        some { m_sample := none, m_sampleHasNewCaps := os.m_sampleHasNewCaps } ∧
      (h.moveConstruct s).unrefs = h.unrefs) ∧
    (∀ (h : SampleHeap) (i s : Nat) (oi os : GStreamerMediaSample), i ≠ s →
      h.read i = some oi → h.read s = some os →
      (h.moveAssign i s).read i =
        some { m_sample := os.m_sample, m_sampleHasNewCaps := os.m_sampleHasNewCaps } ∧
      (h.moveAssign i s).read s =
        some { m_sample := none, m_sampleHasNewCaps := os.m_sampleHasNewCaps } ∧
      (h.moveAssign i s).unrefs = h.unrefs ++ oi.m_sample.toList) ∧
    (SampleHeap.empty.run ops).unrefs.count x + (SampleHeap.empty.run ops).holders x =
      constructionsWith x ops ∧
    (SampleHeap.empty.run ops).unrefs.count x ≤ constructionsWith x ops ∧
    ((∀ object ∈ (SampleHeap.empty.run ops).objects, object = none) →
      (SampleHeap.empty.run ops).unrefs.count x = constructionsWith x ops) ∧
    ((∀ object ∈ (SampleHeap.empty.run ops).objects, object = none) →
      constructionsWith x ops = 1 → (SampleHeap.empty.run ops).unrefs.count x = 1) := by
  have hbal := run_balance ops SampleHeap.empty x
  have h0 : SampleHeap.empty.unrefs.count x + SampleHeap.empty.holders x = 0 := by
    simp [SampleHeap.empty, SampleHeap.holders]
  refine ⟨moveConstruct_of_alive, ?_, by omega, by omega, ?_, ?_⟩
  · intro h i s oi os his hri hrs
    obtain ⟨b, hb, hflag⟩ := moveAssign_of_alive h i s oi os hri hrs
    have hri1 : (h.unrefIfNotNull oi.m_sample).read i = some oi := by
      simp only [SampleHeap.read, unrefIfNotNull_objects]; exact hri
    have hrs1 : (h.unrefIfNotNull oi.m_sample).read s = some os := by
      simp only [SampleHeap.read, unrefIfNotNull_objects]; exact hrs
    obtain ⟨hu, _, hne, _⟩ := moveAssign_assignments _ i s oi os b hri1 hrs1
    obtain ⟨h1, h2⟩ := hne his
    rw [hb, h1, h2, hu, hflag his]
    refine ⟨rfl, rfl, ?_⟩
    cases oi.m_sample <;> simp [SampleHeap.unrefIfNotNull]
  · intro hall
    have := holders_of_all_destroyed _ x hall
    omega
  · intro hall hone
    have := holders_of_all_destroyed _ x hall
    omega

/-- Witness of claim C22: a sample is constructed with a handle, moved into a
second object and from there assigned to a third, and the three objects are
destroyed. -/
theorem mediaSample_single_ownership_witness :
    (∀ object ∈ (SampleHeap.empty.run [SampleOp.construct (some ⟨7, 20⟩) true,
        SampleOp.moveConstruct 0, SampleOp.construct none false, SampleOp.moveAssign 2 1,
        SampleOp.destroy 0, SampleOp.destroy 1, SampleOp.destroy 2]).objects,
      object = none) ∧
    constructionsWith ⟨7, 20⟩ [SampleOp.construct (some ⟨7, 20⟩) true,
        SampleOp.moveConstruct 0, SampleOp.construct none false, SampleOp.moveAssign 2 1,
        SampleOp.destroy 0, SampleOp.destroy 1, SampleOp.destroy 2] = 1 ∧
    (SampleHeap.empty.run [SampleOp.construct (some ⟨7, 20⟩) true,
        SampleOp.moveConstruct 0, SampleOp.construct none false, SampleOp.moveAssign 2 1,
        SampleOp.destroy 0, SampleOp.destroy 1, SampleOp.destroy 2]).unrefs.count ⟨7, 20⟩ = 1 :=
  ⟨by decide, by decide,
    (mediaSample_single_ownership [SampleOp.construct (some ⟨7, 20⟩) true,
        SampleOp.moveConstruct 0, SampleOp.construct none false, SampleOp.moveAssign 2 1,
        SampleOp.destroy 0, SampleOp.destroy 1, SampleOp.destroy 2] ⟨7, 20⟩).2.2.2.2.2
      (by decide) (by decide)⟩


/-! ### Cached matrices -/

/-- The matrix that `getMatrix` returns on a transform whose cache is in sync,
and the transform afterwards. -/
theorem getMatrix_of_cacheInSync (qt : QMatrix4x4Ops) (t : Transform) (h : t.cacheInSync qt) :
    (t.getMatrix qt).1 = t.values.recomputedMatrix qt ∧
    (t.getMatrix qt).2.values = t.values ∧
    (t.getMatrix qt).2.cacheInSync qt ∧
    (t.getMatrix qt).2.m_matrixValid = true ∧
    (t.getMatrix qt).2.m_matrix = t.values.recomputedMatrix qt := by
  unfold Transform.getMatrix
  cases hv : t.m_matrixValid with
  | false =>
    simp [Transform.cacheInSync, TransformValues.recomputedMatrix, Transform.values]
  | true =>
    simp only [Bool.not_true, Bool.false_eq_true, if_false]
    exact ⟨h hv, trivial, h, hv, h hv⟩

/-- A sequence of calls on a transform whose cache is in sync returns the
matrices that recomputation returns, and keeps the cache in sync. -/
theorem transform_run_of_cacheInSync (qt : QMatrix4x4Ops) (ops : List TransformOp)
    (t : Transform) (h : t.cacheInSync qt) :
    (Transform.run qt t ops).2 = TransformValues.recomputedRun qt t.values ops ∧
    (Transform.run qt t ops).1.cacheInSync qt := by
  induction ops generalizing t with
  | nil => exact ⟨rfl, h⟩
  | cons op rest ih =>
    cases op with
    | setPosition p =>
      have hs : (t.setPosition p).cacheInSync qt := by
        intro hv; simp [Transform.setPosition] at hv
      exact ih _ hs
    | setScale s =>
      have hs : (t.setScale s).cacheInSync qt := by
        intro hv; simp [Transform.setScale] at hv
      exact ih _ hs
    | setRotation q =>
      have hs : (t.setRotation q).cacheInSync qt := by
        intro hv; simp [Transform.setRotation] at hv
      exact ih _ hs
    | getMatrix =>
      obtain ⟨h1, h2, h3, _, _⟩ := getMatrix_of_cacheInSync qt t h
      obtain ⟨ih1, ih2⟩ := ih _ h3
      simp only [Transform.run, TransformValues.recomputedRun]
      rw [ih1, h1, h2]
      exact ⟨rfl, ih2⟩


/-- One call on a camera whose caches are in sync does what the call without
caches does, and keeps the caches in sync. -/
theorem camera_step_refines (NDEBUG : Bool) (qt : QMatrix4x4Ops) (c : Camera) (op : CameraOp)
    (h : c.cacheInSync qt) :
    (c.step NDEBUG qt op).map (fun p => (p.1.values, p.2)) =
      (c.values.recomputedStep NDEBUG qt op) ∧
    (∀ (next : Camera) (result : Option QMatrix4x4),
      c.step NDEBUG qt op = some (next, result) → next.cacheInSync qt) := by
  obtain ⟨hp, hv, ht⟩ := h
  cases op with
  | setFov p =>
    by_cases hc : !NDEBUG && !float.lt 0 p
    · simp [Camera.step, Camera.setFov, CameraValues.recomputedStep, CameraOp.assertionsHold, hc]
    · constructor
      · simp [Camera.step, Camera.setFov, CameraValues.recomputedStep,
          CameraOp.assertionsHold, hc]
        rfl
      · intro next result hstep
        simp only [Camera.step, Camera.setFov, hc, Bool.false_eq_true, if_false,
          Option.map_some', Option.some.injEq, Prod.mk.injEq] at hstep
        obtain ⟨rfl, _⟩ := hstep
        exact ⟨by intro hv'; simp at hv', hv, ht⟩
  | setAspect p =>
    by_cases hc : !NDEBUG && !float.lt 0 p
    · simp [Camera.step, Camera.setAspect, CameraValues.recomputedStep,
        CameraOp.assertionsHold, hc]
    · constructor
      · simp [Camera.step, Camera.setAspect, CameraValues.recomputedStep,
          CameraOp.assertionsHold, hc]
        rfl
      · intro next result hstep
        simp only [Camera.step, Camera.setAspect, hc, Bool.false_eq_true, if_false,
          Option.map_some', Option.some.injEq, Prod.mk.injEq] at hstep
        obtain ⟨rfl, _⟩ := hstep
        exact ⟨by intro hv'; simp at hv', hv, ht⟩
  | setZrange n f =>
    have hsync : ({ c with m_znear := n, m_zfar := f, m_projectionMatrixValid := false }
        : Camera).cacheInSync qt := ⟨by intro hv'; simp at hv', hv, ht⟩
    cases NDEBUG
    · by_cases h1 : float.lt 0 n = true <;> by_cases h2 : float.lt 0 f = true <;>
        by_cases h3 : float.lt n f = true <;>
        refine ⟨by
          simp [Camera.step, Camera.setZrange, CameraValues.recomputedStep,
            CameraOp.assertionsHold, h1, h2, h3] <;> rfl, ?_⟩ <;>
        intro next result hstep <;>
        simp [Camera.step, Camera.setZrange, h1, h2, h3] at hstep
      obtain ⟨rfl, _⟩ := hstep
      exact hsync
    · refine ⟨by
        simp [Camera.step, Camera.setZrange, CameraValues.recomputedStep,
          CameraOp.assertionsHold]
        rfl, ?_⟩
      intro next result hstep
      simp [Camera.step, Camera.setZrange] at hstep
      obtain ⟨rfl, _⟩ := hstep
      exact hsync
  | setPosition p =>
    refine ⟨by
      simp [Camera.step, CameraValues.recomputedStep, CameraOp.assertionsHold]
      rfl, ?_⟩
    intro next result hstep
    simp only [Camera.step, Option.some.injEq, Prod.mk.injEq] at hstep
    obtain ⟨rfl, _⟩ := hstep
    refine ⟨hp, by intro hv'; simp [Camera.setPosition] at hv', ?_⟩
    intro hv'
    simp [Camera.setPosition, Transform.setPosition] at hv'
  | setRotation q =>
    refine ⟨by
      simp [Camera.step, CameraValues.recomputedStep, CameraOp.assertionsHold]
      rfl, ?_⟩
    intro next result hstep
    simp only [Camera.step, Option.some.injEq, Prod.mk.injEq] at hstep
    obtain ⟨rfl, _⟩ := hstep
    refine ⟨hp, by intro hv'; simp [Camera.setRotation] at hv', ?_⟩
    intro hv'
    simp [Camera.setRotation, Transform.setRotation] at hv'
  | getProjectionMatrix =>
    have hg : (c.getProjectionMatrix qt).1 = c.values.recomputedProjectionMatrix qt ∧
        (c.getProjectionMatrix qt).2.values = c.values ∧
        (c.getProjectionMatrix qt).2.cacheInSync qt := by
      unfold Camera.getProjectionMatrix
      cases hvalid : c.m_projectionMatrixValid with
      | false =>
        simp only [Bool.not_false, if_true]
        exact ⟨rfl, rfl, fun _ => rfl, hv, ht⟩
      | true =>
        simp only [Bool.not_true, Bool.false_eq_true, if_false]
        exact ⟨hp hvalid, trivial, hp, hv, ht⟩
    refine ⟨?_, ?_⟩
    · simp [Camera.step, CameraValues.recomputedStep, CameraOp.assertionsHold, hg.1, hg.2.1]
    · intro next result hstep
      simp only [Camera.step, Option.some.injEq, Prod.mk.injEq] at hstep
      obtain ⟨rfl, _⟩ := hstep
      exact hg.2.2
  | getViewMatrix =>
    obtain ⟨t1, t2, t3, _, _⟩ := getMatrix_of_cacheInSync qt c.m_transform ht
    have hg : (c.getViewMatrix qt).1 = c.values.recomputedViewMatrix qt ∧
        (c.getViewMatrix qt).2.values = c.values ∧
        (c.getViewMatrix qt).2.cacheInSync qt := by
      unfold Camera.getViewMatrix
      cases hvalid : c.m_viewMatrixValid with
      | false =>
        simp only [Bool.not_false, if_true]
        refine ⟨?_, ?_, hp, ?_, t3⟩
        · simp only [CameraValues.recomputedViewMatrix, Camera.values, t1]
        · simp only [Camera.values, t2]
        · intro _
          simp only [CameraValues.recomputedViewMatrix, Camera.values, t1, t2]
      | true =>
        simp only [Bool.not_true, Bool.false_eq_true, if_false]
        exact ⟨hv hvalid, trivial, hp, hv, ht⟩
    refine ⟨?_, ?_⟩
    · simp [Camera.step, CameraValues.recomputedStep, CameraOp.assertionsHold, hg.1, hg.2.1]
    · intro next result hstep
      simp only [Camera.step, Option.some.injEq, Prod.mk.injEq] at hstep
      obtain ⟨rfl, _⟩ := hstep
      exact hg.2.2


/-- A sequence of calls on a camera whose caches are in sync returns the
matrices that the calls without caches return, and fails where they fail. -/
theorem camera_run_refines (NDEBUG : Bool) (qt : QMatrix4x4Ops) (ops : List CameraOp)
    (c : Camera) (h : c.cacheInSync qt) :
    (Camera.run NDEBUG qt c ops).map Prod.snd =
      CameraValues.recomputedRun NDEBUG qt c.values ops := by
  induction ops generalizing c with
  | nil => rfl
  | cons op rest ih =>
    obtain ⟨hs, hk⟩ := camera_step_refines NDEBUG qt c op h
    cases hstep : c.step NDEBUG qt op with
    | none =>
      rw [hstep] at hs
      simp only [Camera.run, CameraValues.recomputedRun, hstep, ← hs, Option.map_none']
    | some p =>
      obtain ⟨next, result⟩ := p
      rw [hstep] at hs
      have ih' := ih next (hk next result hstep)
      simp only [Camera.run, CameraValues.recomputedRun, hstep, ← hs, Option.map_some',
        ← ih']
      cases Camera.run NDEBUG qt next rest <;> rfl

/-- A sequence of calls on a camera without caches fails at no call when
assertions are compiled out or the arguments of every setter satisfy its
assertions. -/
theorem recomputedRun_isSome (NDEBUG : Bool) (qt : QMatrix4x4Ops) (ops : List CameraOp)
    (v : CameraValues) (h : NDEBUG = true ∨ ∀ op ∈ ops, op.assertionsHold = true) :
    (CameraValues.recomputedRun NDEBUG qt v ops).isSome = true := by
  induction ops generalizing v with
  | nil => rfl
  | cons op rest ih =>
    have hop : (!NDEBUG && !op.assertionsHold) = false := by
      rcases h with h | h
      · simp [h]
      · simp [h op (List.mem_cons_self _ _)]
    have hrest : NDEBUG = true ∨ ∀ op ∈ rest, op.assertionsHold = true := by
      rcases h with h | h
      · exact Or.inl h
      · exact Or.inr (fun o ho => h o (List.mem_cons_of_mem _ ho))
    have hstep : ∃ next result, v.recomputedStep NDEBUG qt op = some (next, result) := by
      simp only [CameraValues.recomputedStep, hop, Bool.false_eq_true, if_false]
      cases op <;> exact ⟨_, _, rfl⟩
    obtain ⟨next, result, hs⟩ := hstep
    simp only [CameraValues.recomputedRun, hs]
    have hnext := ih next hrest
    cases hr : CameraValues.recomputedRun NDEBUG qt next rest with
    | none => rw [hr] at hnext; simp at hnext
    | some results => rfl

/-- The matrix of a transform computed anew is the product of the identity,
translation, rotation and scaling matrices when the member functions of
QMatrix4x4 multiply the matrix they are called on by such a matrix from the
right, `mul` being the operator `*`; the identity factor drops out when the
product of the identity and a matrix is that matrix. -/
theorem recomputedMatrix_eq_product (qt : QMatrix4x4Ops)
    (mul : QMatrix4x4 → QMatrix4x4 → QMatrix4x4) (T : QVector3D → QMatrix4x4)
    (R : QQuaternion → QMatrix4x4) (S : float → QMatrix4x4)
    (hT : ∀ m p, qt.translate m p = mul m (T p)) (hR : ∀ m q, qt.rotate m q = mul m (R q))
    (hS : ∀ m s, qt.scale m s = mul m (S s)) (v : TransformValues) :
    v.recomputedMatrix qt = mul (mul (mul 1 (T v.position)) (R v.rotation)) (S v.scale) ∧
    ((∀ m, mul 1 m = m) →
      v.recomputedMatrix qt = mul (mul (T v.position) (R v.rotation)) (S v.scale)) := by
  refine ⟨by simp only [TransformValues.recomputedMatrix, hT, hR, hS], fun h1 => ?_⟩
  simp only [TransformValues.recomputedMatrix, hT, hR, hS, h1]

/-- New transforms and new cameras have their caches in sync. -/
theorem new_cacheInSync (qt : QMatrix4x4Ops) :
    Transform.new.cacheInSync qt ∧ Camera.new.cacheInSync qt := by
  refine ⟨?_, ?_, ?_, ?_⟩ <;> intro hv <;> simp [Transform.new, Camera.new] at hv

/-- Claim C27: every sequence of `setPosition`, `setScale`, `setRotation` and
`getMatrix` calls on a new transform returns at each `getMatrix` call the
matrix computed anew from the current position, rotation and scale, which is
the product of the identity, translation, rotation and scaling matrices when
the member functions of QMatrix4x4 multiply from the right, without the
identity factor when the product of the identity and a matrix is that matrix;
every sequence of setter and getter calls on a new camera returns at each
`getProjectionMatrix` call the perspective matrix of the current field of
view, aspect ratio and z range and at each `getViewMatrix` call the inverse of
the matrix of the transform of the camera computed anew, and fails where the
sequence without caches fails; and no call fails when assertions are compiled
out or the arguments of every setter satisfy its assertions. -/
theorem cached_matrices_refine_recomputation (NDEBUG : Bool) (qt : QMatrix4x4Ops)
    (transformOps : List TransformOp) (cameraOps : List CameraOp) :
    (Transform.run qt Transform.new transformOps).2 =
      TransformValues.recomputedRun qt TransformValues.initial transformOps ∧
    (∀ (mul : QMatrix4x4 → QMatrix4x4 → QMatrix4x4) (T : QVector3D → QMatrix4x4)
      (R : QQuaternion → QMatrix4x4) (S : float → QMatrix4x4),
      (∀ m p, qt.translate m p = mul m (T p)) → (∀ m q, qt.rotate m q = mul m (R q)) →
      (∀ m s, qt.scale m s = mul m (S s)) →
      ∀ v : TransformValues,
        v.recomputedMatrix qt = mul (mul (mul 1 (T v.position)) (R v.rotation)) (S v.scale) ∧
        ((∀ m, mul 1 m = m) →
          v.recomputedMatrix qt = mul (mul (T v.position) (R v.rotation)) (S v.scale))) ∧
    (Camera.run NDEBUG qt Camera.new cameraOps).map Prod.snd =
      CameraValues.recomputedRun NDEBUG qt CameraValues.initial cameraOps ∧
    ((NDEBUG = true ∨ ∀ op ∈ cameraOps, op.assertionsHold = true) →
      (Camera.run NDEBUG qt Camera.new cameraOps).isSome = true) := by
  obtain ⟨ht, hc⟩ := new_cacheInSync qt
  have hrun := camera_run_refines NDEBUG qt cameraOps Camera.new hc
  refine ⟨(transform_run_of_cacheInSync qt transformOps Transform.new ht).1,
    fun mul T R S hT hR hS v => recomputedMatrix_eq_product qt mul T R S hT hR hS v, hrun, ?_⟩
  intro hok
  have hsome := recomputedRun_isSome NDEBUG qt cameraOps Camera.new.values hok
  rw [← hrun] at hsome
  simpa using hsome

/-- Witness of claim C27: a new camera gets a field of view and a z range that
satisfy the assertions and is asked for its two matrices, with assertions
compiled in. -/
theorem cached_matrices_refine_recomputation_witness :
    (false = true ∨
      ∀ op ∈ [CameraOp.setFov (float.finite 60),
        CameraOp.setZrange (float.finite 1) (float.finite 50), CameraOp.getProjectionMatrix,
        CameraOp.getViewMatrix], op.assertionsHold = true) ∧
    (Camera.run false
      { translate := fun m _ => m, rotate := fun m _ => m, scale := fun m _ => m,
        perspective := fun m _ _ _ _ => m, inverted := fun m => m }
      Camera.new
      [CameraOp.setFov (float.finite 60),
        CameraOp.setZrange (float.finite 1) (float.finite 50), CameraOp.getProjectionMatrix,
        CameraOp.getViewMatrix]).isSome = true :=
  ⟨Or.inr (by decide),
    (cached_matrices_refine_recomputation false
      { translate := fun m _ => m, rotate := fun m _ => m, scale := fun m _ => m,
        perspective := fun m _ _ _ _ => m, inverted := fun m => m }
      []
      [CameraOp.setFov (float.finite 60),
        CameraOp.setZrange (float.finite 1) (float.finite 50), CameraOp.getProjectionMatrix,
        CameraOp.getViewMatrix]).2.2.2 (Or.inr (by decide))⟩


end qtglviddemo
